import Mathlib

/-!
The plasma-nm list model: filter, sort order and list reconciliation

A shallow embedding of `AppletProxyModel` (src/libs/models/appletproxymodel.cpp),
`NetworkModelItem` (src/libs/models/networkmodelitem.cpp) and the list operations of
`NetworkModel` (src/libs/models/networkmodel.cpp), followed by theorems about them.

Values that come from the Qt and NetworkManagerQt libraries (enumerations, regular
expression matching, locale aware string comparison, date comparison, the manager
status, device objects) are not part of the repository; they are either plain data
types below or arguments of the functions that use them.
-/

namespace PlasmaNM

/-! ## Library enumerations -/

/-- The enumeration NetworkManager::ConnectionSettings::ConnectionType. -/
inductive ConnectionType where
  | Unknown | Adsl | Bluetooth | Bond | Bridge | Cdma | Gsm | Infiniband | OLPCMesh
  | Pppoe | Vlan | Vpn | Wimax | Wired | Wireless | Team | Generic | Tun | IpTunnel
  | WireGuard
  deriving DecidableEq, Repr

/-- The enumeration NetworkManager::ActiveConnection::State. -/
inductive State where
  | Unknown | Activating | Activated | Deactivating | Deactivated
  deriving DecidableEq, Repr

/-- The numeric value of an active connection state, as read by `toUInt()`. -/
def State.toUInt : State → Nat
  | .Unknown => 0
  | .Activating => 1
  | .Activated => 2
  | .Deactivating => 3
  | .Deactivated => 4

/-- The enumeration NetworkManager::VpnConnection::State. -/
inductive VpnState where
  | Unknown | Prepare | NeedAuth | Connecting | GettingIpConfig | Activated | Failed
  | Disconnected
  deriving DecidableEq, Repr

/-- The enumeration NetworkManager::Device::State. -/
inductive DeviceState where
  | UnknownState | Unmanaged | Unavailable | Disconnected | Preparing | ConfiguringHardware
  | NeedAuth | ConfiguringIp | CheckingIp | WaitingForSecondaries | Activated
  | Deactivating | Failed
  deriving DecidableEq, Repr

/-- The enumeration NetworkManager::WirelessSetting::NetworkMode. -/
inductive NetworkMode where
  | Infrastructure | Adhoc | Ap
  deriving DecidableEq, Repr

/-- The enumeration NetworkManager::WirelessSecurityType. -/
inductive WirelessSecurityType where
  | UnknownSecurity | NoneSecurity | StaticWep | DynamicWep | Leap | WpaPsk | WpaEap
  | Wpa2Psk | Wpa2Eap | SAE
  deriving DecidableEq, Repr

/-- The numeric value of a wireless security type; UnknownSecurity is -1. -/
def WirelessSecurityType.toInt : WirelessSecurityType → Int
  | .UnknownSecurity => -1
  | .NoneSecurity => 0
  | .StaticWep => 1
  | .DynamicWep => 2
  | .Leap => 3
  | .WpaPsk => 4
  | .WpaEap => 5
  | .Wpa2Psk => 6
  | .Wpa2Eap => 7
  | .SAE => 8

/-- The enumeration NetworkManager::Status, the state of the manager itself. -/
inductive Status where
  | Unknown | Asleep | Disconnected | Disconnecting | Connecting | ConnectedLinkLocal
  | ConnectedSiteOnly | Connected
  deriving DecidableEq, Repr

/-- The enumeration NetworkModelItem::ItemType. -/
inductive ItemType where
  | UnavailableConnection | AvailableConnection | AvailableAccessPoint
  deriving DecidableEq, Repr

/-- The enumeration NetworkModel::ItemRole (networkmodel.h, lines 50 to 93). -/
inductive ItemRole where
  | ConnectionDetailsRole | ConnectionIconRole | ConnectionPathRole | ConnectionStateRole
  | DeviceName | DevicePathRole | DeviceStateRole | DuplicateRole | ItemUniqueNameRole
  | ItemTypeRole | LastUsedRole | LastUsedDateOnlyRole | NameRole | SecurityTypeRole
  | SecurityTypeStringRole | SectionRole | SignalRole | SlaveRole | SsidRole
  | SpecificPathRole | TimeStampRole | TypeRole | UniRole | UuidRole | VpnState | VpnType
  | RxBytesRole | TxBytesRole | IpAddressRole | SubnetMaskRole | RouterRole
  | NameServerRole | DNSSearchRole | AutoconnectRole | PasswordRole | GateWayRole
  | UpdateConnectRole | SaveAndActivedRole | KeyMgmtTypeRole | UpdateItemRole
  | SavedCountRole
  deriving DecidableEq, Repr

/-- A QDateTime: `none` is the null value `QDateTime()`, `some t` a point in time given
in milliseconds since the epoch. -/
abbrev QDateTime := Option Int

/-- The integer that the comparison operators of QDateTime compare. -/
def QDateTime.msecs : QDateTime → Int
  | none => 0
  | some t => t

/-- The test `QString::isEmpty`. -/
def isEmpty (s : String) : Bool := s == ""

/-- A QRegExp, the filter of the proxy model; only its pattern string is inspected here. -/
structure QRegExp where
  pattern : String
  deriving DecidableEq, Repr

/-- The test `QRegExp::isEmpty`: the pattern string is empty. -/
def QRegExp.isEmpty (r : QRegExp) : Bool := PlasmaNM.isEmpty r.pattern

/-! ## AppletProxyModel -/

/-- The role values of one source row that the proxy model reads through
`sourceModel()->data(index, role)`. -/
structure Row where
  slave : Bool
  type : ConnectionType
  itemType : ItemType
  connectionState : State
  connectionPath : String
  itemUniqueName : String
  name : String
  uuid : String
  signal : Int
  timeStamp : QDateTime
  deriving DecidableEq, Repr

/-- The function AppletProxyModel::filterAcceptsRow (appletproxymodel.cpp, lines 38 to 84).
`contains` is `QString::contains(QRegExp)`, `findConnection` gives the connection type of
the settings of the connection found at a path, when there is one. -/
def filterAcceptsRow (contains : String → QRegExp → Bool)
    (findConnection : String → Option ConnectionType)
    (filterRegExp : QRegExp) (row : Row) : Bool :=
  if row.slave && filterRegExp.isEmpty then false
  else if row.type != ConnectionType.Wireless then false
  else if row.itemType == ItemType.AvailableConnection &&
      (row.connectionState == State.Activated || row.connectionState == State.Activating) then
    false
  else if row.itemType == ItemType.UnavailableConnection then false
  else if row.itemType != ItemType.AvailableConnection &&
      row.itemType != ItemType.AvailableAccessPoint then
    match findConnection row.connectionPath with
    | some t => if t == ConnectionType.Wireless then true else false
    | none => false
  else if filterRegExp.isEmpty then true
  else contains row.itemUniqueName filterRegExp

/-- The function AppletProxyModel::lessThan (appletproxymodel.cpp, lines 86 to 142).
`localeAwareCompare` is `QString::localeAwareCompare`. -/
def lessThan (localeAwareCompare : String → String → Int) (left right : Row) : Bool :=
  let leftAvailable : Bool := left.itemType == ItemType.AvailableConnection
  let leftConnectionState : Nat := left.connectionState.toUInt
  let rightAvailable : Bool := right.itemType == ItemType.AvailableConnection
  let rightConnectionState : Nat := right.connectionState.toUInt
  if leftConnectionState > rightConnectionState then true
  else if leftConnectionState < rightConnectionState then false
  else if leftAvailable.toNat < rightAvailable.toNat then true
  else if leftAvailable.toNat > rightAvailable.toNat then false
  else if left.signal < right.signal then true
  else if left.signal > right.signal then false
  else if isEmpty left.uuid && !isEmpty right.uuid then true
  else if !isEmpty left.uuid && isEmpty right.uuid then false
  else if left.timeStamp.msecs > right.timeStamp.msecs then false
  else if left.timeStamp.msecs < right.timeStamp.msecs then true
  else if localeAwareCompare left.name right.name > 0 then true
  else false

/-- The outcome of comparing two rows on one sort key: the left row is less, the right
row is less, or the key does not tell them apart. -/
inductive KeyOrder where
  | leftLess | rightLess | same
  deriving DecidableEq, Repr

/-- Comparison on a key with a linear order, smaller is less. -/
def keyAscending {α : Type} [LT α] [DecidableRel (fun a b : α => a < b)] (a b : α) : KeyOrder :=
  if a < b then KeyOrder.leftLess else if b < a then KeyOrder.rightLess else KeyOrder.same

/-- The six sort keys of the specification, in priority order: connection state
(the greater numeric state is less), availability flag (false is less than true), signal
strength (smaller is less), uuid presence (empty is less than non-empty), timestamp
(earlier is less), name (left is less iff the locale aware comparison is positive). -/
def sortKeys (localeAwareCompare : String → String → Int) : List (Row → Row → KeyOrder) :=
  [ fun l r => keyAscending r.connectionState.toUInt l.connectionState.toUInt,
    fun l r => keyAscending
      (decide (l.itemType = ItemType.AvailableConnection))
      (decide (r.itemType = ItemType.AvailableConnection)),
    fun l r => keyAscending l.signal r.signal,
    fun l r => keyAscending (decide (l.uuid ≠ "")) (decide (r.uuid ≠ "")),
    fun l r => keyAscending l.timeStamp.msecs r.timeStamp.msecs,
    fun l r => if localeAwareCompare l.name r.name > 0 then KeyOrder.leftLess
      else KeyOrder.same ]

/-- Lexicographic comparison over a list of keys as the specification words it: the
first key that tells the rows apart decides, a later key decides only when all earlier
keys are equal, and rows equal on every key are not less. -/
def lexLess : List (Row → Row → KeyOrder) → Row → Row → Bool
  | [], _, _ => false
  | k :: ks, l, r =>
    match k l r with
    | KeyOrder.leftLess => true
    | KeyOrder.rightLess => false
    | KeyOrder.same => lexLess ks l r

/-! ## NetworkModelItem -/

/-- The enumeration NetworkManager::WirelessSecuritySetting::KeyMgmt. -/
inductive KeyMgmt where
  | Unknown | Wep | Ieee8021x | WpaNone | WpaPsk | WpaEap | SAE
  deriving DecidableEq, Repr

/-- The member variables of a NetworkModelItem (networkmodelitem.cpp); `changedRoles` is
the dirty-role set `m_changedRoles`, a vector that roles are appended to. -/
structure NetworkModelItem where
  activeConnectionPath : String
  connectionPath : String
  connectionState : State
  devicePath : String
  deviceName : String
  deviceState : DeviceState
  details : List String
  detailsValid : Bool
  duplicate : Bool
  icon : String
  mode : NetworkMode
  name : String
  securityType : WirelessSecurityType
  signal : Int
  slave : Bool
  specificPath : String
  ssid : String
  timestamp : QDateTime
  type : ConnectionType
  uuid : String
  vpnState : VpnState
  vpnType : String
  rxBytes : Nat
  txBytes : Nat
  changedRoles : List ItemRole
  ipAddress : String
  subnetMask : String
  router : String
  dnsServer : String
  dnsSearch : String
  gateway : String
  password : String
  autoConnect : Bool
  keyMgmtType : KeyMgmt
  deriving DecidableEq, Repr

/-- The values of the member variables that a constructor leaves out of its initialiser
list and that have no default constructor: whatever the fresh object happens to hold. -/
structure Unset where
  deviceState : DeviceState
  signal : Int
  autoConnect : Bool
  keyMgmtType : KeyMgmt
  deriving DecidableEq, Repr

namespace NetworkModelItem

/-- The constructor NetworkModelItem::NetworkModelItem(QObject *) (lines 55 to 73). -/
def new (unset : Unset) : NetworkModelItem :=
  { activeConnectionPath := "", connectionPath := "",
    connectionState := State.Deactivated,
    devicePath := "", deviceName := "",
    deviceState := DeviceState.UnknownState,
    details := [], detailsValid := false, duplicate := false, icon := "",
    mode := NetworkMode.Infrastructure, name := "",
    securityType := WirelessSecurityType.NoneSecurity,
    signal := 0, slave := false, specificPath := "", ssid := "", timestamp := none,
    type := ConnectionType.Unknown, uuid := "", vpnState := VpnState.Unknown, vpnType := "",
    rxBytes := 0, txBytes := 0, changedRoles := [],
    ipAddress := "", subnetMask := "", router := "", dnsServer := "", dnsSearch := "",
    gateway := "", password := "", autoConnect := unset.autoConnect,
    keyMgmtType := KeyMgmt.WpaPsk }

/-- The constructor NetworkModelItem::NetworkModelItem(const NetworkModelItem *, QObject *)
(lines 75 to 96), which builds the duplicate of an item. -/
def copy (item : NetworkModelItem) (unset : Unset) : NetworkModelItem :=
  { activeConnectionPath := "", connectionPath := item.connectionPath,
    connectionState := State.Deactivated,
    devicePath := "", deviceName := "",
    deviceState := unset.deviceState,
    details := [], detailsValid := false, duplicate := true, icon := "",
    mode := item.mode, name := item.name,
    securityType := item.securityType,
    signal := unset.signal, slave := item.slave, specificPath := "", ssid := item.ssid,
    timestamp := item.timestamp,
    type := item.type, uuid := item.uuid, vpnState := VpnState.Unknown, vpnType := "",
    rxBytes := 0, txBytes := 0, changedRoles := [],
    ipAddress := "", subnetMask := "", router := "Automatic", dnsServer := "",
    dnsSearch := "", gateway := "", password := "", autoConnect := true,
    keyMgmtType := unset.keyMgmtType }

/-- The function NetworkModelItem::setActiveConnectionPath (lines 108 to 111). -/
def setActiveConnectionPath (item : NetworkModelItem) (path : String) : NetworkModelItem :=
  { item with activeConnectionPath := path }

/-- The function NetworkModelItem::setConnectionPath (lines 118 to 124). -/
def setConnectionPath (item : NetworkModelItem) (path : String) : NetworkModelItem :=
  if item.connectionPath != path then
    { item with
      connectionPath := path
      changedRoles := item.changedRoles ++ [ItemRole.ConnectionPathRole, ItemRole.UniRole] }
  else item

/-- The function NetworkModelItem::computeIcon (lines 205 to 285). -/
def computeIcon (item : NetworkModelItem) : String :=
  let fallback : String :=
    if item.connectionState == State.Activated then "network-wired-activated"
    else "network-wired"
  let unlocked : Bool := item.securityType.toInt ≤ WirelessSecurityType.NoneSecurity.toInt
  match item.type with
  | ConnectionType.Adsl => "network-mobile-100"
  | ConnectionType.Bluetooth =>
    if item.connectionState == State.Activated then "network-bluetooth-activated"
    else "network-bluetooth"
  | ConnectionType.Bond => fallback
  | ConnectionType.Bridge => fallback
  | ConnectionType.Cdma | ConnectionType.Gsm =>
    if item.signal == 0 then "network-mobile-0"
    else if item.signal < 20 then "network-mobile-20"
    else if item.signal < 40 then "network-mobile-40"
    else if item.signal < 60 then "network-mobile-60"
    else if item.signal < 80 then "network-mobile-80"
    else "network-mobile-100"
  | ConnectionType.Infiniband => fallback
  | ConnectionType.OLPCMesh => fallback
  | ConnectionType.Pppoe => "network-mobile-100"
  | ConnectionType.Vlan => fallback
  | ConnectionType.Vpn | ConnectionType.WireGuard => "network-vpn"
  | ConnectionType.Wired =>
    if item.connectionState == State.Activated then "network-wired-activated"
    else "network-wired"
  | ConnectionType.Wireless =>
    if item.signal == 0 then
      if item.mode == NetworkMode.Adhoc || item.mode == NetworkMode.Ap then
        if unlocked then "network-wireless-100" else "network-wireless-100-locked"
      else
        if unlocked then "network-wireless-0" else "network-wireless-0-locked"
    else if item.signal < 20 then
      if unlocked then "network-wireless-20" else "network-wireless-20-locked"
    else if item.signal < 40 then
      if unlocked then "network-wireless-40" else "network-wireless-40-locked"
    else if item.signal < 60 then
      if unlocked then "network-wireless-60" else "network-wireless-60-locked"
    else if item.signal < 80 then
      if unlocked then "network-wireless-80" else "network-wireless-80-locked"
    else
      if unlocked then "network-wireless-100" else "network-wireless-100-locked"
  | _ => fallback

/-- The function NetworkModelItem::setIcon (lines 192 to 198). -/
def setIcon (item : NetworkModelItem) (icon : String) : NetworkModelItem :=
  if icon != item.icon then
    { item with
      icon := icon
      changedRoles := item.changedRoles ++ [ItemRole.ConnectionIconRole] }
  else item

/-- The function NetworkModelItem::refreshIcon (lines 200 to 203). -/
def refreshIcon (item : NetworkModelItem) : NetworkModelItem :=
  item.setIcon item.computeIcon

/-- The function NetworkModelItem::setConnectionState (lines 131 to 138). -/
def setConnectionState (item : NetworkModelItem) (state : State) : NetworkModelItem :=
  if item.connectionState != state then
    refreshIcon { item with
      connectionState := state
      changedRoles := item.changedRoles ++
        [ItemRole.ConnectionStateRole, ItemRole.SectionRole] }
  else item

/-- The function NetworkModelItem::setDeviceName (lines 158 to 164). -/
def setDeviceName (item : NetworkModelItem) (name : String) : NetworkModelItem :=
  if item.deviceName != name then
    { item with
      deviceName := name
      changedRoles := item.changedRoles ++ [ItemRole.DeviceName] }
  else item

/-- The function NetworkModelItem::setDevicePath (lines 166 to 172). -/
def setDevicePath (item : NetworkModelItem) (path : String) : NetworkModelItem :=
  if item.devicePath != path then
    { item with
      devicePath := path
      changedRoles := item.changedRoles ++
        [ItemRole.DevicePathRole, ItemRole.ItemTypeRole, ItemRole.UniRole] }
  else item

/-- The function NetworkModelItem::setDeviceState (lines 179 to 185). -/
def setDeviceState (item : NetworkModelItem) (state : DeviceState) : NetworkModelItem :=
  if item.deviceState != state then
    { item with
      deviceState := state
      changedRoles := item.changedRoles ++ [ItemRole.DeviceStateRole] }
  else item

/-- The function NetworkModelItem::itemType (lines 287 to 304); `status` is the value
of `NetworkManager::status()`. -/
def itemType (status : Status) (item : NetworkModelItem) : ItemType :=
  if !isEmpty item.devicePath ||
      item.type == ConnectionType.Bond ||
      item.type == ConnectionType.Bridge ||
      item.type == ConnectionType.Vlan ||
      item.type == ConnectionType.Team ||
      ((status == Status.Connected ||
        status == Status.ConnectedLinkLocal ||
        status == Status.ConnectedSiteOnly) &&
        (item.type == ConnectionType.Vpn || item.type == ConnectionType.WireGuard)) then
    if isEmpty item.connectionPath && item.type == ConnectionType.Wireless then
      ItemType.AvailableAccessPoint
    else
      ItemType.AvailableConnection
  else ItemType.UnavailableConnection

/-- The function NetworkModelItem::setMode (lines 311 to 317). -/
def setMode (item : NetworkModelItem) (mode : NetworkMode) : NetworkModelItem :=
  if item.mode != mode then
    refreshIcon { item with mode := mode }
  else item

/-- The function NetworkModelItem::setName (lines 324 to 330). -/
def setName (item : NetworkModelItem) (name : String) : NetworkModelItem :=
  if item.name != name then
    { item with
      name := name
      changedRoles := item.changedRoles ++ [ItemRole.ItemUniqueNameRole, ItemRole.NameRole] }
  else item

/-- The function NetworkModelItem::originalName (lines 332 to 338). -/
def originalName (item : NetworkModelItem) : String :=
  if isEmpty item.deviceName then item.name
  else item.name ++ " (" ++ item.deviceName ++ ")"

/-- The function NetworkModelItem::sectionType (lines 340 to 347). -/
def sectionType (item : NetworkModelItem) : String :=
  if item.connectionState == State.Deactivated then "Available connections" else ""

/-- The function NetworkModelItem::setSecurityType (lines 354 to 361). -/
def setSecurityType (item : NetworkModelItem) (type : WirelessSecurityType) :
    NetworkModelItem :=
  if item.securityType != type then
    refreshIcon { item with
      securityType := type
      changedRoles := item.changedRoles ++
        [ItemRole.SecurityTypeStringRole, ItemRole.SecurityTypeRole] }
  else item

/-- The function NetworkModelItem::setSignal (lines 368 to 375). -/
def setSignal (item : NetworkModelItem) (signal : Int) : NetworkModelItem :=
  if item.signal != signal then
    refreshIcon { item with
      signal := signal
      changedRoles := item.changedRoles ++ [ItemRole.SignalRole] }
  else item

/-- The function NetworkModelItem::setSlave (lines 382 to 388). -/
def setSlave (item : NetworkModelItem) (slave : Bool) : NetworkModelItem :=
  if item.slave != slave then
    { item with
      slave := slave
      changedRoles := item.changedRoles ++ [ItemRole.SlaveRole] }
  else item

/-- The function NetworkModelItem::setSpecificPath (lines 395 to 401). -/
def setSpecificPath (item : NetworkModelItem) (path : String) : NetworkModelItem :=
  if item.specificPath != path then
    { item with
      specificPath := path
      changedRoles := item.changedRoles ++ [ItemRole.SpecificPathRole] }
  else item

/-- The function NetworkModelItem::setSsid (lines 408 to 414). -/
def setSsid (item : NetworkModelItem) (ssid : String) : NetworkModelItem :=
  if item.ssid != ssid then
    { item with
      ssid := ssid
      changedRoles := item.changedRoles ++ [ItemRole.SsidRole, ItemRole.UniRole] }
  else item

/-- The function NetworkModelItem::setTimestamp (lines 426 to 432). -/
def setTimestamp (item : NetworkModelItem) (date : QDateTime) : NetworkModelItem :=
  if item.timestamp != date then
    { item with
      timestamp := date
      changedRoles := item.changedRoles ++ [ItemRole.TimeStampRole] }
  else item

/-- The function NetworkModelItem::setType (lines 434 to 442). -/
def setType (item : NetworkModelItem) (type : ConnectionType) : NetworkModelItem :=
  if item.type != type then
    refreshIcon { item with
      type := type
      changedRoles := item.changedRoles ++
        [ItemRole.TypeRole, ItemRole.ItemTypeRole, ItemRole.UniRole] }
  else item

/-- The function NetworkModelItem::uni (lines 444 to 451). -/
def uni (item : NetworkModelItem) : String :=
  if item.type == ConnectionType.Wireless && isEmpty item.uuid then
    item.ssid ++ "%" ++ item.devicePath
  else
    item.connectionPath ++ "%" ++ item.devicePath

/-- The function NetworkModelItem::setUuid (lines 458 to 464). -/
def setUuid (item : NetworkModelItem) (uuid : String) : NetworkModelItem :=
  if item.uuid != uuid then
    { item with
      uuid := uuid
      changedRoles := item.changedRoles ++ [ItemRole.UuidRole] }
  else item

/-- The function NetworkModelItem::setVpnState (lines 471 to 477). -/
def setVpnState (item : NetworkModelItem) (state : VpnState) : NetworkModelItem :=
  if item.vpnState != state then
    { item with
      vpnState := state
      changedRoles := item.changedRoles ++ [ItemRole.VpnState] }
  else item

/-- The function NetworkModelItem::setVpnType (lines 484 to 490). -/
def setVpnType (item : NetworkModelItem) (type : String) : NetworkModelItem :=
  if item.vpnType != type then
    { item with
      vpnType := type
      changedRoles := item.changedRoles ++ [ItemRole.VpnType] }
  else item

/-- The function NetworkModelItem::setRxBytes (lines 497 to 503). -/
def setRxBytes (item : NetworkModelItem) (bytes : Nat) : NetworkModelItem :=
  if item.rxBytes != bytes then
    { item with
      rxBytes := bytes
      changedRoles := item.changedRoles ++ [ItemRole.RxBytesRole] }
  else item

/-- The function NetworkModelItem::setTxBytes (lines 510 to 516). -/
def setTxBytes (item : NetworkModelItem) (bytes : Nat) : NetworkModelItem :=
  if item.txBytes != bytes then
    { item with
      txBytes := bytes
      changedRoles := item.changedRoles ++ [ItemRole.TxBytesRole] }
  else item

/-- The function NetworkModelItem::invalidateDetails (lines 703 to 707). -/
def invalidateDetails (item : NetworkModelItem) : NetworkModelItem :=
  { item with
    detailsValid := false
    changedRoles := item.changedRoles ++ [ItemRole.ConnectionDetailsRole] }

/-- Modelled from the spec: `clearChangedRoles` is declared in networkmodelitem.h, which
is not among the sources; it empties the dirty-role set of the item once the row changed
notification for it has been emitted. -/
def clearChangedRoles (item : NetworkModelItem) : NetworkModelItem :=
  { item with changedRoles := [] }

end NetworkModelItem

/-! ## Objects of the NetworkManagerQt library that the list model reads -/

/-- The fields of a NetworkManager::WirelessSetting read by the model; `bssid` and
`macAddress` are the strings given by `macAddressAsString`, empty when not set. -/
structure WirelessSetting where
  mode : NetworkMode
  ssid : String
  bssid : String
  macAddress : String
  deriving DecidableEq, Repr

/-- The fields of a NetworkManager::WirelessSecuritySetting read by the items:
`needSecrets` is the result of `needSecrets()`, `map` the entries of `toMap()` as key and
`toInt()` of the value, `psk` the result of `psk()`. -/
structure WirelessSecuritySetting where
  needSecrets : List String
  map : List (String × Int)
  psk : String := ""
  deriving DecidableEq, Repr

/-- The fields of a NetworkManager::ConnectionSettings read by the model. `vpnServiceType`
is the service type of its Vpn setting, `wirelessSetting` its Wireless setting when it has
one, `securityType` the value of `securityTypeFromConnectionSetting`, `wirelessSecurity`
the result of `setting(Setting::WirelessSecurity)`, `none` for a null pointer, `hasIpv4`
tells whether `setting(Setting::Ipv4)` is not null. -/
structure ConnectionSettings where
  id : String
  uuid : String
  timestamp : QDateTime
  connectionType : ConnectionType
  isSlave : Bool
  vpnServiceType : String
  wirelessSetting : Option WirelessSetting
  securityType : WirelessSecurityType
  wirelessSecurity : Option WirelessSecuritySetting := none
  hasIpv4 : Bool := true
  deriving DecidableEq, Repr

/-- A NetworkManager::Connection. -/
structure Connection where
  path : String
  name : String
  uuid : String
  settings : ConnectionSettings
  deriving DecidableEq, Repr

/-- The enumeration NetworkManager::AccessPoint::OperationMode. -/
inductive OperationMode where
  | Unknown | Adhoc | Infra | ApMode
  deriving DecidableEq, Repr

/-- A NetworkManager::AccessPoint; `privacy` is `capabilities().testFlag(Privacy)`,
`wpaFlags` and `rsnFlags` tell whether the flag sets of that name are non-zero. -/
structure AccessPoint where
  uni : String
  hardwareAddress : String
  signalStrength : Int
  privacy : Bool
  ssid : String := ""
  wpaFlags : Bool := false
  rsnFlags : Bool := false
  mode : OperationMode := OperationMode.Infra
  deriving DecidableEq, Repr

/-- A NetworkManager::WirelessNetwork of a wireless device; `bestSecurity` is the value
of `findBestWirelessSecurity` for that device and the reference access point. -/
structure WirelessNetwork where
  ssid : String
  signalStrength : Int
  referenceAccessPoint : Option AccessPoint
  accessPoints : List AccessPoint
  bestSecurity : WirelessSecurityType
  deriving DecidableEq, Repr

/-- A NetworkManager::Device. `modemSignal` is the signal quality of its modem interface
when the build has modem support and the device is a modem with that interface;
`wireless` lists the networks of the device when it is of type Wifi and casts to a
WirelessDevice; `availableConnections` lists the paths of its available connections. -/
structure Device where
  uni : String
  interfaceName : String
  ipInterfaceName : String
  state : DeviceState
  modemSignal : Option Int
  wireless : Option (List WirelessNetwork)
  rxBytes : Nat
  txBytes : Nat
  hardwareAddress : String := ""
  availableConnections : List String := []
  deriving DecidableEq, Repr

/-- A NetworkManager::ActiveConnection; `vpnState` is the state of the VpnConnection it
casts to when `vpn` holds, `devices` the device paths it runs on, `specificObject` the
path of the object it is bound to. -/
structure ActiveConnection where
  path : String
  state : State
  vpn : Bool
  vpnState : VpnState
  devices : List String
  connection : Connection
  specificObject : String := ""
  deriving DecidableEq, Repr

/-- The state of the NetworkManager library that the model consults, together with the
value of `Configuration::hotspotConnectionPath()`. -/
structure Manager where
  status : Status
  findConnection : String → Option Connection
  findNetworkInterface : String → Option Device
  findActiveConnection : String → Option ActiveConnection := fun _ => none
  hotspotConnectionPath : String := ""

/-- The call `WirelessDevice::findAccessPoint(uni)`: the access point with that path among
the access points of the networks of the device. -/
def findAccessPoint (networks : List WirelessNetwork) (uni : String) : Option AccessPoint :=
  (networks.flatMap (fun n => n.accessPoints)).find? (fun ap => ap.uni == uni)

/-- The expression `network->referenceAccessPoint()->uni()`; the source reads it without a
test, with no reference access point the empty path stands for it here. -/
def WirelessNetwork.referenceUni (network : WirelessNetwork) : String :=
  match network.referenceAccessPoint with
  | some ap => ap.uni
  | none => ""

/-- The expression `network->referenceAccessPoint()->hardwareAddress()`; the source reads
it without a test, with no reference access point the empty address stands for it here. -/
def WirelessNetwork.referenceHardwareAddress (network : WirelessNetwork) : String :=
  match network.referenceAccessPoint with
  | some ap => ap.hardwareAddress
  | none => ""

/-- The call `WirelessDevice::findNetwork(ssid)` on the networks of a device. -/
def findNetwork (networks : List WirelessNetwork) (ssid : String) : Option WirelessNetwork :=
  networks.find? (fun n => n.ssid == ssid)

/-- The call `QString::section(QLatin1Char, -1)` with separator '.': the last of the
sections between dots. -/
def lastSection (s : String) : String :=
  ((s.splitOn ".").getLast?).getD ""

/-! ## Calls of an item on the service -/

/-- The slot of the item that a pending secrets reply is connected to. -/
inductive ReplySlot where
  | replyFinished | replyFinishedPassword
  deriving DecidableEq, Repr

/-- A call that an item makes on another object: the call `connection->secrets(settingName)`
together with the watcher made for its reply (networkmodelitem.cpp, lines 640 to 644 and
674 to 678; `name` is the property "connection" of the watcher), the call
`m_handler->updateConnection` (line 965), and the notification FailedToGetSecrets (lines
970 to 975 and 999 to 1004). -/
inductive ItemEffect where
  | secrets (connection settingName name : String) (slot : ReplySlot)
  | updateConnection (connection : String)
  | notification (title text : String)
  deriving DecidableEq, Repr

/-- The loop of NetworkModelItem::initPassword and NetworkModelItem::updateConnection
(lines 627 to 636 and 661 to 670): the value of `requestSecrets` after the required
secrets have been visited. The secret flags None and AgentOwned of the library are 0
and 1. -/
def requestSecrets (setting : List (String × Int)) (requiredSecrets : List String) : Bool :=
  requiredSecrets.foldl
    (fun (requestSecrets : Bool) (secret : String) =>
      match setting.lookup (secret ++ "-flags") with
      | some secretFlag => if secretFlag == 0 || secretFlag == 1 then true else requestSecrets
      | none => true)
    false

/-- The function NetworkModelItem::initPassword (networkmodelitem.cpp, lines 614 to 646):
the item after the call and the calls it has made. The result is `none` when the source
dereferences a null WirelessSecurity setting (line 622). -/
def NetworkModelItem.initPassword (nm : Manager) (item : NetworkModelItem) :
    Option (NetworkModelItem × List ItemEffect) :=
  match nm.findConnection item.connectionPath with
  | none => some (item, [])
  | some connection =>
    match connection.settings.wirelessSecurity with
    | none => none
    | some wifiSecurity =>
      let settingName := "802-11-wireless-security"
      if requestSecrets wifiSecurity.map wifiSecurity.needSecrets then
        some (item, [ItemEffect.secrets connection.path settingName connection.name
          ReplySlot.replyFinishedPassword])
      else some (item, [])

/-- The function NetworkModelItem::updateConnection (networkmodelitem.cpp, lines 648 to
680): the item after the call and the calls it has made. The result is `none` when the
source dereferences a null WirelessSecurity setting (line 656). -/
def NetworkModelItem.updateConnection (nm : Manager) (item : NetworkModelItem) :
    Option (NetworkModelItem × List ItemEffect) :=
  match nm.findConnection item.connectionPath with
  | none => some (item, [])
  | some connection =>
    match connection.settings.wirelessSecurity with
    | none => none
    | some wifiSecurity =>
      let settingName := "802-11-wireless-security"
      if requestSecrets wifiSecurity.map wifiSecurity.needSecrets then
        some (item, [ItemEffect.secrets connection.path settingName connection.name
          ReplySlot.replyFinished])
      else some (item, [])

/-- A finished secrets call as the reply slots of the item read it: whether the reply is
valid, its value as the list of setting names with their secrets in the order of
`QMap::keys()`, the message of its error, and the properties "connection" and
"settingName" of the watcher. -/
structure Watcher where
  isValid : Bool
  secrets : List (String × List (String × String))
  errorMessage : String
  connection : String
  settingName : String
  deriving DecidableEq, Repr

/-- The expression `connection->settings()->setting(Setting::typeFromString(key))` cast to
a WirelessSecuritySetting (lines 908 and 912, 990 and 993). The watchers are made for the
setting name "802-11-wireless-security" only (lines 624 and 658); for any other name the
setting counts as absent here. -/
def settingFromString (settings : ConnectionSettings) (key : String) :
    Option WirelessSecuritySetting :=
  if key == "802-11-wireless-security" then settings.wirelessSecurity else none

/-- The value of `psk()` after `secretsFromMap(secrets)`: the library takes the entry
"psk" of the secrets when there is one. -/
def WirelessSecuritySetting.pskFromMap (setting : WirelessSecuritySetting)
    (secrets : List (String × String)) : String :=
  match secrets.lookup "psk" with
  | some psk => psk
  | none => setting.psk

/-- The notification FailedToGetSecrets that both reply slots send for a reply that is not
valid (lines 970 to 975 and 999 to 1004). -/
def failedToGetSecrets (watcher : Watcher) : ItemEffect :=
  ItemEffect.notification ("Failed to get secrets for " ++ watcher.connection)
    watcher.errorMessage

/-- The function NetworkModelItem::replyFinished (networkmodelitem.cpp, lines 897 to 979):
the item after the call and the calls it has made. The connection found at the connection
path is dereferenced without a test (line 908), and so is the Ipv4 setting (line 919): the
result is `none` for a null pointer there. The settings map handed to
`m_handler->updateConnection` is not part of the model. -/
def NetworkModelItem.replyFinished (nm : Manager) (item : NetworkModelItem)
    (watcher : Watcher) : Option (NetworkModelItem × List ItemEffect) :=
  if watcher.isValid then
    watcher.secrets.foldlM
      (fun (acc : NetworkModelItem × List ItemEffect)
          (entry : String × List (String × String)) =>
        if entry.1 == watcher.settingName then
          match nm.findConnection acc.1.connectionPath with
          | none => none
          | some connection =>
            match settingFromString connection.settings entry.1 with
            | some _ =>
              if connection.settings.hasIpv4 then
                some (acc.1, acc.2 ++ [ItemEffect.updateConnection connection.path])
              else none
            | none => some acc
        else some acc)
      (item, [])
  else some (item, [failedToGetSecrets watcher])

/-- The function NetworkModelItem::replyFinishedPassword (networkmodelitem.cpp, lines 981
to 1008): the item after the call and the calls it has made. The connection found at the
connection path is dereferenced without a test (line 990): the result is `none` for a null
pointer there. -/
def NetworkModelItem.replyFinishedPassword (nm : Manager) (item : NetworkModelItem)
    (watcher : Watcher) : Option (NetworkModelItem × List ItemEffect) :=
  if watcher.isValid then
    watcher.secrets.foldlM
      (fun (acc : NetworkModelItem × List ItemEffect)
          (entry : String × List (String × String)) =>
        if entry.1 == watcher.settingName then
          match nm.findConnection acc.1.connectionPath with
          | none => none
          | some connection =>
            match settingFromString connection.settings entry.1 with
            | some wifiSecurity =>
              some ({ acc.1 with password := wifiSecurity.pskFromMap entry.2 }, acc.2)
            | none => some acc
        else some acc)
      (item, [])
  else some (item, [failedToGetSecrets watcher])

/-! ## NetworkModel -/

/-- The address of a NetworkModelItem object. -/
abbrev Ptr := Nat

/-- What the model does that its view can observe, in the order it happens: the signals
of QAbstractListModel it emits and the changes it makes to its item list. -/
inductive Event where
  | beginInsertRows (first last : Nat)
  | insertItem (item : Ptr)
  | endInsertRows
  | beginRemoveRows (first last : Nat)
  | removeItem (item : Ptr)
  | deleteLater (item : Ptr)
  | endRemoveRows
  | dataChanged (row : Nat) (roles : List ItemRole)
  | wirelessNetworkDisappearedChanged (ssid : String)
  deriving DecidableEq, Repr

/-- The state of a NetworkModel: the item objects by address (`heap`, where the addresses
below `next` are the ones handed out so far), the item list `m_list` as the list of the
addresses of its items in row order, and the events so far, oldest first. -/
structure NetworkModel where
  heap : Ptr → NetworkModelItem
  next : Ptr
  list : List Ptr
  trace : List Event

/-- The enumeration NetworkItemsList::FilterType, as far as it filters on a string. -/
inductive FilterType where
  | ActiveConnection | Connection | Device | Name | Ssid | Uuid
  deriving DecidableEq, Repr

/-- Modelled from the spec: the class NetworkItemsList (networkitemslist.cpp) is not among
the sources. The field of an item that an index of the collection is keyed on: connection
id, device id, SSID, active-connection id, name or uuid. -/
def filterKey (type : FilterType) (item : NetworkModelItem) : String :=
  match type with
  | FilterType.ActiveConnection => item.activeConnectionPath
  | FilterType.Connection => item.connectionPath
  | FilterType.Device => item.devicePath
  | FilterType.Name => item.name
  | FilterType.Ssid => item.ssid
  | FilterType.Uuid => item.uuid

/-- How a call of a member function of the list model ends: it returns, or it dereferences
a null pointer and goes no further; `m` is the state of the model at that point. -/
inductive Outcome where
  | returned (m : NetworkModel)
  | nullDereference (m : NetworkModel)

/-- The state of the model at the end of a call. -/
def Outcome.state : Outcome → NetworkModel
  | Outcome.returned m => m
  | Outcome.nullDereference m => m

/-- Whether the call has returned. -/
def Outcome.hasReturned : Outcome → Bool
  | Outcome.returned _ => true
  | Outcome.nullDereference _ => false

/-- The statements that follow a call: they run when the call has returned. -/
def Outcome.andThen (o : Outcome) (f : NetworkModel → Outcome) : Outcome :=
  match o with
  | Outcome.returned m => f m
  | Outcome.nullDereference m => Outcome.nullDereference m

/-- A range-based `for` loop whose body may dereference a null pointer: the body runs for
each element in turn as long as it returns. -/
def Outcome.forEach {α : Type} (body : NetworkModel → α → Outcome) :
    List α → NetworkModel → Outcome
  | [], m => Outcome.returned m
  | x :: rest, m => (body m x).andThen (Outcome.forEach body rest)

namespace NetworkModel

/-- The model with no item and no event. -/
def empty (unset : Unset) : NetworkModel :=
  { heap := fun _ => NetworkModelItem.new unset, next := 0, list := [], trace := [] }

/-- A call of a member function on the item object at address `item`. -/
def modify (m : NetworkModel) (item : Ptr) (f : NetworkModelItem → NetworkModelItem) :
    NetworkModel :=
  { m with heap := Function.update m.heap item (f (m.heap item)) }

/-- The expression `new NetworkModelItem(...)`: the object is placed at a fresh address. -/
def alloc (m : NetworkModel) (item : NetworkModelItem) : NetworkModel × Ptr :=
  ({ m with heap := Function.update m.heap m.next item, next := m.next + 1 }, m.next)

/-- Emission of a signal. -/
def emit (m : NetworkModel) (e : Event) : NetworkModel :=
  { m with trace := m.trace ++ [e] }

/-- Modelled from the spec: NetworkItemsList::count, the number of items of the ordered
collection. -/
def count (m : NetworkModel) : Nat := m.list.length

/-- Modelled from the spec: NetworkItemsList::returnItems(type, parameter), the filtered
iteration of the ordered collection: the items whose indexed field equals the parameter,
in insertion order. -/
def returnItems (m : NetworkModel) (type : FilterType) (parameter : String) : List Ptr :=
  m.list.filter (fun p => filterKey type (m.heap p) == parameter)

/-- Modelled from the spec: NetworkItemsList::contains(type, parameter), the membership
test of the collection: some item has the parameter as its indexed field. -/
def contains (m : NetworkModel) (type : FilterType) (parameter : String) : Bool :=
  m.list.any (fun p => filterKey type (m.heap p) == parameter)

/-- Modelled from the spec: NetworkItemsList::indexOf, the row of an item of the ordered
collection, `none` (the source has -1) when the item is not in it. -/
def indexOf (m : NetworkModel) (item : Ptr) : Option Nat :=
  m.list.indexOf? item

/-- Modelled from the spec: NetworkItemsList::insertItem; order is insertion order, the
item becomes the last one. -/
def insertItem (m : NetworkModel) (item : Ptr) : NetworkModel :=
  { m with list := m.list ++ [item], trace := m.trace ++ [Event.insertItem item] }

/-- Modelled from the spec: NetworkItemsList::removeItem; the item is taken out of the
collection, the other items keep their order. -/
def removeItem (m : NetworkModel) (item : Ptr) : NetworkModel :=
  { m with list := m.list.filter (fun p => p != item),
           trace := m.trace ++ [Event.removeItem item] }

/-- The function NetworkModel::updateItem (networkmodel.cpp, lines 654 to 664). -/
def updateItem (m : NetworkModel) (item : Ptr) : NetworkModel :=
  match m.indexOf item with
  | some row =>
    let m1 := m.modify item NetworkModelItem.invalidateDetails
    let m2 := m1.emit (Event.dataChanged row (m1.heap item).changedRoles)
    m2.modify item NetworkModelItem.clearChangedRoles
  | none => m

/-- The block that takes an item out of the list, as written at lines 442 to 449, 799 to
806, 857 to 864 and 1099 to 1106: the row of the item is looked up and, when it is in the
list, its removal is bracketed by beginRemoveRows and endRemoveRows. -/
def removeRow (m : NetworkModel) (item : Ptr) : NetworkModel :=
  match m.indexOf item with
  | some row =>
    let m1 := m.emit (Event.beginRemoveRows row row)
    let m2 := m1.removeItem item
    let m3 := m2.emit (Event.deleteLater item)
    m3.emit Event.endRemoveRows
  | none => m

/-- The block that appends an item to the list, as written at lines 511 to 514, 604 to
607 and 630 to 633. -/
def insertRow (m : NetworkModel) (item : Ptr) : NetworkModel :=
  let index := m.count
  let m1 := m.emit (Event.beginInsertRows index index)
  let m2 := m1.insertItem item
  m2.emit Event.endInsertRows

/-- The function NetworkModel::addConnection (networkmodel.cpp, lines 468 to 516). The
Vpn setting and the Wireless setting are dereferenced without a test in the source; the
library creates them with a connection of that type. -/
def addConnection (unset : Unset) (m : NetworkModel) (connection : Connection) :
    NetworkModel :=
  if isEmpty connection.name || isEmpty connection.uuid then m
  else
    let settings := connection.settings
    if m.contains FilterType.Connection connection.path then m
    else
      let item := NetworkModelItem.new unset
      let item := item.setConnectionPath connection.path
      let item := item.setName settings.id
      let item := item.setTimestamp settings.timestamp
      let item := item.setType settings.connectionType
      let item := item.setUuid settings.uuid
      let item := item.setSlave settings.isSlave
      let item :=
        if item.type == ConnectionType.Vpn then
          item.setVpnType (lastSection settings.vpnServiceType)
        else if item.type == ConnectionType.Wireless then
          match settings.wirelessSetting with
          | some wirelessSetting =>
            let item := item.setMode wirelessSetting.mode
            let item := item.setSecurityType settings.securityType
            item.setSsid wirelessSetting.ssid
          | none => item
        else item
      let item := item.invalidateDetails
      let (m1, p) := m.alloc item
      m1.insertRow p

/-- The body of the loop of NetworkModel::addActiveConnection (lines 372 to 399) for one
item; `device` is the device found for the active connection, if any. -/
def addActiveConnectionItem (activeConnection : ActiveConnection) (device : Option Device)
    (m : NetworkModel) (item : Ptr) : NetworkModel :=
  let onDevice : Bool :=
    match device with
    | some d => d.uni == (m.heap item).devicePath
    | none => false
  let m :=
    if (onDevice || isEmpty (m.heap item).devicePath) ||
        (m.heap item).type == ConnectionType.Vpn then
      let m := m.modify item (fun i => i.setActiveConnectionPath activeConnection.path)
      let m := m.modify item (fun i => i.setConnectionState activeConnection.state)
      let m :=
        if activeConnection.vpn then
          let state := activeConnection.vpnState
          let m :=
            if state == VpnState.Prepare ||
                state == VpnState.NeedAuth ||
                state == VpnState.Connecting ||
                state == VpnState.GettingIpConfig then
              m.modify item (fun i => i.setConnectionState State.Activating)
            else if state == VpnState.Activated then
              m.modify item (fun i => i.setConnectionState State.Activated)
            else
              m.modify item (fun i => i.setConnectionState State.Deactivated)
          m.modify item (fun i => i.setVpnState state)
        else m
      let m := m.modify item NetworkModelItem.invalidateDetails
      match device with
      | some d =>
        if d.uni == (m.heap item).devicePath then
          let m := m.modify item (fun i => i.setRxBytes d.rxBytes)
          m.modify item (fun i => i.setTxBytes d.txBytes)
        else m
      | none => m
    else m
  m.updateItem item

/-- The function NetworkModel::addActiveConnection (networkmodel.cpp, lines 353 to 401). -/
def addActiveConnection (nm : Manager) (unset : Unset) (m : NetworkModel)
    (activeConnection : ActiveConnection) : NetworkModel :=
  let connection := activeConnection.connection
  let device : Option Device :=
    match activeConnection.devices with
    | first :: _ => if !activeConnection.vpn then nm.findNetworkInterface first else none
    | [] => none
  let m1 :=
    if !m.contains FilterType.Uuid connection.uuid then addConnection unset m connection
    else m
  (m1.returnItems FilterType.Uuid connection.uuid).foldl
    (addActiveConnectionItem activeConnection device) m1

/-- The body of the loop of NetworkModel::activeVpnConnectionStateChanged (lines 727 to
738) for one item. -/
def activeVpnConnectionStateChangedItem (state : VpnState) (m : NetworkModel) (item : Ptr) :
    NetworkModel :=
  let m :=
    if state == VpnState.Prepare ||
        state == VpnState.NeedAuth ||
        state == VpnState.Connecting ||
        state == VpnState.GettingIpConfig then
      m.modify item (fun i => i.setConnectionState State.Activating)
    else if state == VpnState.Activated then
      m.modify item (fun i => i.setConnectionState State.Activated)
    else
      m.modify item (fun i => i.setConnectionState State.Deactivated)
  let m := m.modify item (fun i => i.setVpnState state)
  m.updateItem item

/-- The function NetworkModel::activeVpnConnectionStateChanged (networkmodel.cpp, lines
717 to 741); `sender` is the active connection that sent the signal, when the sender is
one, given by its path. -/
def activeVpnConnectionStateChanged (m : NetworkModel) (sender : Option String)
    (state : VpnState) : NetworkModel :=
  match sender with
  | none => m
  | some path =>
    (m.returnItems FilterType.ActiveConnection path).foldl
      (activeVpnConnectionStateChangedItem state) m

/-- The loop of NetworkModel::checkAndCreateDuplicate (lines 613 to 624): the flag
`createDuplicate` and the pointer `originalItem` after the items have been visited. -/
def checkAndCreateDuplicateScan (status : Status) (m : NetworkModel) (deviceUni : String)
    (items : List Ptr) : Bool × Option Ptr :=
  items.foldl
    (fun (acc : Bool × Option Ptr) (item : Ptr) =>
      let originalItem : Option Ptr :=
        if !(m.heap item).duplicate then some item else acc.2
      let createDuplicate : Bool :=
        if !(m.heap item).duplicate &&
            (m.heap item).itemType status == ItemType.AvailableConnection &&
            ((m.heap item).devicePath != deviceUni && !isEmpty (m.heap item).devicePath) then
          true
        else acc.1
      (createDuplicate, originalItem))
    (false, none)

/-- The function NetworkModel::checkAndCreateDuplicate (networkmodel.cpp, lines 611 to
635). When `createDuplicate` is set, `originalItem` has been set by the same item, so the
copy constructor always has an item to copy. -/
def checkAndCreateDuplicate (status : Status) (unset : Unset) (m : NetworkModel)
    (connection deviceUni : String) : NetworkModel :=
  match checkAndCreateDuplicateScan status m deviceUni
      (m.returnItems FilterType.Connection connection) with
  | (true, some originalItem) =>
    let (m1, duplicatedItem) := m.alloc (NetworkModelItem.copy (m.heap originalItem) unset)
    let m2 := m1.modify duplicatedItem NetworkModelItem.invalidateDetails
    m2.insertRow duplicatedItem
  | _ => m

/-- The function NetworkModel::updateFromWirelessNetwork (networkmodel.cpp, lines 1181 to
1213). Line 1206 reads the reference access point without a test; with no reference
access point the specific path is left as it is here. -/
def updateFromWirelessNetwork (nm : Manager) (m : NetworkModel) (item : Ptr)
    (network : WirelessNetwork) : NetworkModel :=
  let securityType : WirelessSecurityType :=
    match network.referenceAccessPoint with
    | some ap =>
      if ap.privacy then network.bestSecurity else WirelessSecurityType.UnknownSecurity
    | none => WirelessSecurityType.UnknownSecurity
  let m :=
    match nm.findConnection (m.heap item).connectionPath with
    | some connection =>
      match connection.settings.wirelessSetting with
      | some wirelessSetting =>
        if !isEmpty wirelessSetting.bssid then
          network.accessPoints.foldl
            (fun (m : NetworkModel) (ap : AccessPoint) =>
              if ap.hardwareAddress == wirelessSetting.bssid then
                let m := m.modify item (fun i => i.setSignal ap.signalStrength)
                m.modify item (fun i => i.setSpecificPath ap.uni)
              else m)
            m
        else
          let m := m.modify item (fun i => i.setSignal network.signalStrength)
          match network.referenceAccessPoint with
          | some ap => m.modify item (fun i => i.setSpecificPath ap.uni)
          | none => m
      | none => m
    | none => m
  let m := m.modify item (fun i => i.setSecurityType securityType)
  m.updateItem item

/-- The inner loop of NetworkModel::addAvailableConnection (lines 440 to 452): the first
of the items with the SSID of `item` that is an available access point on the device of
`item` is taken out of the list, and the loop ends there. -/
def mergeAccessPoint (status : Status) (item : Ptr) : List Ptr → NetworkModel → NetworkModel
  | [], m => m
  | secondItem :: rest, m =>
    if (m.heap secondItem).itemType status == ItemType.AvailableAccessPoint &&
        (m.heap secondItem).devicePath == (m.heap item).devicePath then
      m.removeRow secondItem
    else mergeAccessPoint status item rest m

/-- The first statements of the body of the loop of NetworkModel::addAvailableConnection
(lines 417 to 437): the item gets the name, the path and the state of the device and, for
a modem, its signal. -/
def setDeviceOfItem (device : Device) (m : NetworkModel) (item : Ptr) : NetworkModel :=
  let m :=
    if isEmpty device.ipInterfaceName then
      m.modify item (fun i => i.setDeviceName device.interfaceName)
    else
      m.modify item (fun i => i.setDeviceName device.ipInterfaceName)
  let m := m.modify item (fun i => i.setDevicePath device.uni)
  let m := m.modify item (fun i => i.setDeviceState device.state)
  match device.modemSignal with
  | some signal => m.modify item (fun i => i.setSignal signal)
  | none => m

/-- The body of the loop of NetworkModel::addAvailableConnection for an item that has no
device yet (lines 417 to 464). -/
def attachDevice (nm : Manager) (device : Device) (m : NetworkModel) (item : Ptr) :
    NetworkModel :=
  let m := setDeviceOfItem device m item
  let m :=
    if (m.heap item).type == ConnectionType.Wireless &&
        (m.heap item).mode == NetworkMode.Infrastructure then
      let m := mergeAccessPoint nm.status item
        (m.returnItems FilterType.Ssid (m.heap item).ssid) m
      match device.wireless with
      | some networks =>
        match findNetwork networks (m.heap item).ssid with
        | some wifiNetwork => updateFromWirelessNetwork nm m item wifiNetwork
        | none => m
      | none => m
    else m
  m.updateItem item

/-- The outer loop of NetworkModel::addAvailableConnection (lines 411 to 465): items that
already have a device are skipped, the first item without one gets the device, and the
loop ends there. -/
def addAvailableConnectionLoop (nm : Manager) (device : Device) :
    List Ptr → NetworkModel → NetworkModel
  | [], m => m
  | item :: rest, m =>
    if !isEmpty (m.heap item).devicePath then addAvailableConnectionLoop nm device rest m
    else attachDevice nm device m item

/-- The function NetworkModel::addAvailableConnection (networkmodel.cpp, lines 403 to
466); `device` is `none` for a null device pointer. -/
def addAvailableConnection (nm : Manager) (unset : Unset) (m : NetworkModel)
    (connection : String) (device : Option Device) : NetworkModel :=
  match device with
  | none => m
  | some device =>
    let m1 := checkAndCreateDuplicate nm.status unset m connection device.uni
    addAvailableConnectionLoop nm device (m1.returnItems FilterType.Connection connection) m1

/-- Modelled from the spec: NetworkItemsList::returnItems(type, parameter,
additionalParameter), the filtered iteration of the ordered collection over two indexes:
the items whose indexed field equals the parameter and whose device id equals the
additional parameter, in insertion order. -/
def returnItemsOn (m : NetworkModel) (type : FilterType) (parameter additionalParameter : String) :
    List Ptr :=
  m.list.filter (fun p =>
    filterKey type (m.heap p) == parameter && (m.heap p).devicePath == additionalParameter)

/-- Modelled from the spec: NetworkItemsList::returnItems(Type, type), the filtered
iteration of the ordered collection on the connection type of the items. -/
def returnItemsOfType (m : NetworkModel) (type : ConnectionType) : List Ptr :=
  m.list.filter (fun p => (m.heap p).type == type)

/-- Modelled from the spec: NetworkItemsList::items, all items of the ordered collection
in insertion order. -/
def items (m : NetworkModel) : List Ptr := m.list

/-- The loop of NetworkModel::addWirelessNetwork (lines 554 to 571): the first available
wireless connection whose stored SSID, BSSID and hardware address fit the network is
updated from the network, and the function returns there (`some` of a returned call);
with no such item the loop runs to its end (`none`). The connection found for an available
wireless item is dereferenced without a test (line 558): when the connection path of such
an item resolves to no connection the call ends there (`some` of a null dereference). The
wireless setting of a wireless connection is dereferenced without a test too; the library
creates it with the connection, and an item whose connection lacks it is passed over
here. -/
def addWirelessNetworkMerge (nm : Manager) (network : WirelessNetwork) (device : Device) :
    List Ptr → NetworkModel → Option Outcome
  | [], _ => none
  | item :: rest, m =>
    if (m.heap item).itemType nm.status != ItemType.AvailableConnection then
      addWirelessNetworkMerge nm network device rest m
    else
      match nm.findConnection (m.heap item).connectionPath with
      | some connection =>
        if connection.settings.connectionType == ConnectionType.Wireless then
          match connection.settings.wirelessSetting with
          | some wirelessSetting =>
            if wirelessSetting.ssid == network.ssid then
              let bssid := wirelessSetting.bssid
              let restrictedHw := wirelessSetting.macAddress
              if (isEmpty bssid || bssid == network.referenceHardwareAddress) &&
                  (isEmpty restrictedHw || restrictedHw == device.hardwareAddress) then
                some (Outcome.returned (updateFromWirelessNetwork nm m item network))
              else addWirelessNetworkMerge nm network device rest m
            else addWirelessNetworkMerge nm network device rest m
          | none => addWirelessNetworkMerge nm network device rest m
        else addWirelessNetworkMerge nm network device rest m
      | none => some (Outcome.nullDereference m)

/-- The test at the head of NetworkModel::addWirelessNetwork (lines 539 to 546): the
network is the one created by the hotspot of this machine. -/
def isHotspotNetwork (nm : Manager) (network : WirelessNetwork) : Bool :=
  if !isEmpty nm.hotspotConnectionPath then
    match nm.findActiveConnection nm.hotspotConnectionPath with
    | some activeConnection => activeConnection.specificObject == network.referenceUni
    | none => false
  else false

/-- The item that NetworkModel::addWirelessNetwork builds for a network that no connection
absorbs (lines 573 to 603). -/
def newWirelessItem (unset : Unset) (network : WirelessNetwork) (device : Device) :
    NetworkModelItem :=
  let mode : NetworkMode :=
    match network.referenceAccessPoint with
    | some ap =>
      if ap.privacy || ap.wpaFlags || ap.rsnFlags then
        if ap.mode == OperationMode.Infra then NetworkMode.Infrastructure
        else if ap.mode == OperationMode.Adhoc then NetworkMode.Adhoc
        else if ap.mode == OperationMode.ApMode then NetworkMode.Ap
        else NetworkMode.Infrastructure
      else NetworkMode.Infrastructure
    | none => NetworkMode.Infrastructure
  let securityType : WirelessSecurityType :=
    match network.referenceAccessPoint with
    | some ap =>
      if ap.privacy || ap.wpaFlags || ap.rsnFlags then network.bestSecurity
      else WirelessSecurityType.UnknownSecurity
    | none => WirelessSecurityType.UnknownSecurity
  let item := NetworkModelItem.new unset
  let item :=
    if isEmpty device.ipInterfaceName then item.setDeviceName device.interfaceName
    else item.setDeviceName device.ipInterfaceName
  let item := item.setDevicePath device.uni
  let item := item.setMode mode
  let item := item.setName network.ssid
  let item := item.setSignal network.signalStrength
  let item := item.setSpecificPath network.referenceUni
  let item := item.setSsid network.ssid
  let item := item.setType ConnectionType.Wireless
  let item := item.setSecurityType securityType
  item.invalidateDetails

/-- The function NetworkModel::addWirelessNetwork (networkmodel.cpp, lines 534 to 609). -/
def addWirelessNetwork (nm : Manager) (unset : Unset) (m : NetworkModel)
    (network : WirelessNetwork) (device : Device) : Outcome :=
  if isHotspotNetwork nm network then Outcome.returned m
  else
    match addWirelessNetworkMerge nm network device
        (m.returnItemsOfType ConnectionType.Wireless) m with
    | some merged => merged
    | none =>
      let (m1, p) := m.alloc (newWirelessItem unset network device)
      Outcome.returned (m1.insertRow p)

/-- The function NetworkModel::addDevice (networkmodel.cpp, lines 518 to 532). -/
def addDevice (nm : Manager) (unset : Unset) (m : NetworkModel) (device : Device) :
    Outcome :=
  let networksAdded : Outcome :=
    match device.wireless with
    | some networks =>
      Outcome.forEach
        (fun (m : NetworkModel) (wifiNetwork : WirelessNetwork) =>
          addWirelessNetwork nm unset m wifiNetwork device)
        networks m
    | none => Outcome.returned m
  networksAdded.andThen (fun m =>
    Outcome.returned
      (device.availableConnections.foldl
        (fun (m : NetworkModel) (connection : String) =>
          addAvailableConnection nm unset m connection (some device))
        m))

/-- The function NetworkModel::deviceAdded (networkmodel.cpp, lines 899 to 905). -/
def deviceAdded (nm : Manager) (unset : Unset) (m : NetworkModel) (device : String) :
    Outcome :=
  match nm.findNetworkInterface device with
  | some dev => addDevice nm unset m dev
  | none => Outcome.returned m

/-- The function NetworkModel::connectionAdded (networkmodel.cpp, lines 815 to 821). -/
def connectionAdded (nm : Manager) (unset : Unset) (m : NetworkModel) (connection : String) :
    NetworkModel :=
  match nm.findConnection connection with
  | some newConnection => addConnection unset m newConnection
  | none => m

/-- The function NetworkModel::availableConnectionAppeared (networkmodel.cpp, lines 743 to
751); `sender` is the path of the device that sent the signal. -/
def availableConnectionAppeared (nm : Manager) (unset : Unset) (m : NetworkModel)
    (sender connection : String) : NetworkModel :=
  match nm.findNetworkInterface sender with
  | none => m
  | some device => addAvailableConnection nm unset m connection (some device)

/-- The function NetworkModel::wirelessNetworkAppeared (networkmodel.cpp, lines 1074 to
1086); `sender` is the path of the device that sent the signal. -/
def wirelessNetworkAppeared (nm : Manager) (unset : Unset) (m : NetworkModel)
    (sender ssid : String) : Outcome :=
  match nm.findNetworkInterface sender with
  | some device =>
    match device.wireless with
    | some networks =>
      match findNetwork networks ssid with
      | some network => addWirelessNetwork nm unset m network device
      | none => Outcome.returned m
    | none => Outcome.returned m
  | none => Outcome.returned m

/-- The body of the loop of NetworkModel::wirelessNetworkDisappeared (lines 1097 to 1117)
for one item. -/
def wirelessNetworkDisappearedItem (status : Status) (m : NetworkModel) (item : Ptr) :
    NetworkModel :=
  if (m.heap item).itemType status == ItemType.AvailableAccessPoint ||
      (m.heap item).duplicate then
    m.removeRow item
  else
    let m :=
      if (m.heap item).mode == NetworkMode.Infrastructure then
        let m := m.modify item (fun i => i.setDeviceName "")
        let m := m.modify item (fun i => i.setDevicePath "")
        m.modify item (fun i => i.setSpecificPath "")
      else m
    let m := m.modify item (fun i => i.setSignal 0)
    m.updateItem item

/-- The function NetworkModel::wirelessNetworkDisappeared (networkmodel.cpp, lines 1088 to
1119); `sender` is the path of the device that sent the signal. -/
def wirelessNetworkDisappeared (nm : Manager) (m : NetworkModel) (sender ssid : String) :
    NetworkModel :=
  let m := m.emit (Event.wirelessNetworkDisappearedChanged ssid)
  match nm.findNetworkInterface sender with
  | none => m
  | some device =>
    (m.returnItemsOn FilterType.Ssid ssid device.uni).foldl
      (wirelessNetworkDisappearedItem nm.status) m

/-- The inner loop of NetworkModel::connectionRemoved (lines 829 to 841): the value of
`remove` after the items of the list have been visited. -/
def connectionRemovedScan (m : NetworkModel) (item : Ptr) : List Ptr → Bool
  | [] => false
  | secondItem :: rest =>
    if (m.heap item).mode != NetworkMode.Infrastructure ||
        ((m.heap item).connectionPath != (m.heap secondItem).connectionPath &&
          (m.heap item).devicePath == (m.heap secondItem).devicePath &&
          (m.heap item).mode == (m.heap secondItem).mode &&
          (m.heap item).securityType == (m.heap secondItem).securityType &&
          (m.heap item).ssid == (m.heap secondItem).ssid) then
      true
    else connectionRemovedScan m item rest

/-- The body of the loop of NetworkModel::connectionRemoved (lines 827 to 866) for one
item. -/
def connectionRemovedItem (m : NetworkModel) (item : Ptr) : NetworkModel :=
  if (m.heap item).type == ConnectionType.Wireless && !isEmpty (m.heap item).devicePath then
    let remove := connectionRemovedScan m item m.items
    if !remove then
      let m := m.modify item (fun i => i.setConnectionPath "")
      let m := m.modify item (fun i => i.setName i.ssid)
      let m := m.modify item (fun i => i.setSlave false)
      let m := m.modify item (fun i => i.setTimestamp none)
      let m := m.modify item (fun i => i.setUuid "")
      m.updateItem item
    else m.removeRow item
  else m.removeRow item

/-- The function NetworkModel::connectionRemoved (networkmodel.cpp, lines 823 to 868). -/
def connectionRemoved (m : NetworkModel) (connection : String) : NetworkModel :=
  (m.returnItems FilterType.Connection connection).foldl connectionRemovedItem m

/-- The body of the loop of NetworkModel::availableConnectionDisappeared (lines 756 to
811) for one item. -/
def availableConnectionDisappearedItem (nm : Manager) (unset : Unset) (m : NetworkModel)
    (item : Ptr) : Outcome :=
  let devicePath := (m.heap item).devicePath
  let specificPath := (m.heap item).specificPath
  let device := nm.findNetworkInterface devicePath
  let available : Bool :=
    match device with
    | some d => d.availableConnections.any (fun path => path == (m.heap item).connectionPath)
    | none => false
  if !available then
    let m := m.modify item (fun i => i.setDeviceName "")
    let m := m.modify item (fun i => i.setDevicePath "")
    let m := m.modify item (fun i => i.setDeviceState DeviceState.UnknownState)
    let m := m.modify item (fun i => i.setSignal 0)
    let networkAdded : Outcome :=
      if (m.heap item).type == ConnectionType.Wireless && !isEmpty specificPath then
        match device with
        | some d =>
          match d.wireless with
          | some networks =>
            match findAccessPoint networks specificPath with
            | some ap =>
              match findNetwork networks ap.ssid with
              | some network => addWirelessNetwork nm unset m network d
              | none => Outcome.returned m
            | none => Outcome.returned m
          | none => Outcome.returned m
        | none => Outcome.returned m
      else Outcome.returned m
    networkAdded.andThen (fun m =>
      if (m.heap item).duplicate then Outcome.returned (m.removeRow item)
      else Outcome.returned (m.updateItem item))
  else Outcome.returned m

/-- The function NetworkModel::availableConnectionDisappeared (networkmodel.cpp, lines 753
to 813). -/
def availableConnectionDisappeared (nm : Manager) (unset : Unset) (m : NetworkModel)
    (connection : String) : Outcome :=
  Outcome.forEach (availableConnectionDisappearedItem nm unset)
    (m.returnItems FilterType.Connection connection) m

/-- The function NetworkModel::deviceRemoved (networkmodel.cpp, lines 907 to 913). -/
def deviceRemoved (nm : Manager) (unset : Unset) (m : NetworkModel) (device : String) :
    Outcome :=
  Outcome.forEach
    (fun (m : NetworkModel) (item : Ptr) =>
      availableConnectionDisappeared nm unset m (m.heap item).connectionPath)
    (m.returnItems FilterType.Device device) m

end NetworkModel

/-! ## Role values of the list model -/

/-- Modelled from the spec: NetworkItemsList::itemAt, the item at a row of the ordered
collection. -/
def NetworkModel.itemAt (m : NetworkModel) (row : Nat) : Option Ptr :=
  m.list[row]?

/-- The function NetworkModel::getSavedCount (networkmodel.cpp, lines 1221 to 1234). The
counter is an `int`; it is at most the row count, which is an `int` too, so it does not
wrap. -/
def NetworkModel.getSavedCount (m : NetworkModel) : Int :=
  (List.range m.count).foldl
    (fun (count : Int) (row : Nat) =>
      match m.itemAt row with
      | some item =>
        if (m.heap item).type == ConnectionType.Wireless &&
            !isEmpty (m.heap item).connectionPath &&
            (m.heap item).connectionState != State.Activated then
          count + 1
        else count
      | none => count)
    0

/-- The function NetworkModel::data (networkmodel.cpp, lines 95 to 191) for the role
ItemUniqueNameRole (lines 119 to 124); `none` is the invalid QVariant of line 190. -/
def NetworkModel.dataItemUniqueNameRole (m : NetworkModel) (row : Int) : Option String :=
  if row ≥ 0 && row < m.count then
    match m.itemAt row.toNat with
    | some item =>
      if (m.returnItems FilterType.Name (m.heap item).name).length > 1 then
        some (m.heap item).originalName
      else some (m.heap item).name
    | none => none
  else none

/-- The function NetworkModel::data (networkmodel.cpp, lines 95 to 191) for the role
SavedCountRole (lines 182 to 183); `none` is the invalid QVariant of line 190. -/
def NetworkModel.dataSavedCountRole (m : NetworkModel) (row : Int) : Option Int :=
  if row ≥ 0 && row < m.count then
    match m.itemAt row.toNat with
    | some _ => some m.getSavedCount
    | none => none
  else none

/-! ## The wording of the specification and concrete inputs -/

/-- The coarse state of the specification for a VPN connection state: activating for
Prepare, NeedAuth, Connecting and GettingIpConfig, activated for Activated, deactivated
for every other state. -/
def coarseVpnState : VpnState → State
  | VpnState.Prepare => State.Activating
  | VpnState.NeedAuth => State.Activating
  | VpnState.Connecting => State.Activating
  | VpnState.GettingIpConfig => State.Activating
  | VpnState.Activated => State.Activated
  | VpnState.Unknown => State.Deactivated
  | VpnState.Failed => State.Deactivated
  | VpnState.Disconnected => State.Deactivated

/-- The condition of the specification under which a duplicate row is made for a
connection that becomes available on a device: some non-duplicate row with that connection
path has item type AvailableConnection and a non-empty device path different from the
device. -/
def NetworkModel.reachableFromOtherDevice (status : Status) (m : NetworkModel)
    (connection deviceUni : String) : Prop :=
  ∃ p ∈ m.list, (m.heap p).connectionPath = connection ∧ (m.heap p).duplicate = false ∧
    (m.heap p).itemType status = ItemType.AvailableConnection ∧
    (m.heap p).devicePath ≠ "" ∧ (m.heap p).devicePath ≠ deviceUni

/-- The addresses of a model are in order: no item is listed twice and every listed item
has an address that has been handed out. -/
def NetworkModel.WellFormed (m : NetworkModel) : Prop :=
  m.list.Nodup ∧ ∀ p ∈ m.list, p < m.next

/-- A source row used as a concrete input: a wireless access point row named home. -/
def sampleRow : Row :=
  { slave := false, type := ConnectionType.Wireless,
    itemType := ItemType.AvailableAccessPoint, connectionState := State.Deactivated,
    connectionPath := "", itemUniqueName := "home", name := "home", uuid := "",
    signal := 50, timeStamp := none }

/-- A reading of `QString::contains` for a filter whose pattern is a literal string: the
pattern occurs in the string as a run of characters. -/
def containsLiteral (s : String) (r : QRegExp) : Bool :=
  decide (r.pattern.toList <:+: s.toList)

/-- The fields of an item that tell which rows an active connection belongs to: its uuid,
its device path and its type. -/
def anchor (i : NetworkModelItem) : String × String × ConnectionType :=
  (i.uuid, i.devicePath, i.type)

/-- The fields of an item that decide which network it stands for and whether it is an
access point row: connection path, device path, type, SSID and mode. -/
def ident (i : NetworkModelItem) : String × String × ConnectionType × String × NetworkMode :=
  (i.connectionPath, i.devicePath, i.type, i.ssid, i.mode)

/-- A step from `m` to `r` that works on the item at `item` only: the list is the same,
every other item is the same, and the item keeps the fields of `ident`. -/
def OnlyTouches (item : Ptr) (m r : NetworkModel) : Prop :=
  r.list = m.list ∧ (∀ p, p ≠ item → r.heap p = m.heap p) ∧
    ident (r.heap item) = ident (m.heap item)

/-- The row of the specification that a connection row absorbs: an available access
point row with the given SSID on the given device. -/
def isAccessPointRow (status : Status) (ssid devicePath : String) (i : NetworkModelItem) :
    Bool :=
  i.ssid == ssid && i.itemType status == ItemType.AvailableAccessPoint &&
    i.devicePath == devicePath

/-- Values for the member variables that the constructors leave unset. -/
def sampleUnset : Unset :=
  { deviceState := DeviceState.UnknownState, signal := 0, autoConnect := false,
    keyMgmtType := KeyMgmt.Unknown }

/-- A VPN connection item that belongs to the active connection at /ac/1. -/
def sampleVpnItem : NetworkModelItem :=
  { NetworkModelItem.new sampleUnset with
    connectionPath := "/c/9", name := "office", uuid := "u9",
    type := ConnectionType.Vpn, activeConnectionPath := "/ac/1" }

/-- A model whose list holds the VPN item as its only row. -/
def sampleVpnModel : NetworkModel :=
  { heap := fun _ => sampleVpnItem, next := 1, list := [0], trace := [] }

/-- A VPN active connection for the VPN item, in VPN state NeedAuth. -/
def sampleVpnActive : ActiveConnection :=
  { path := "/ac/1", state := State.Activating, vpn := true, vpnState := VpnState.NeedAuth,
    devices := [],
    connection :=
      { path := "/c/9", name := "office", uuid := "u9",
        settings :=
          { id := "office", uuid := "u9", timestamp := none,
            connectionType := ConnectionType.Vpn, isSlave := false,
            vpnServiceType := "org.freedesktop.NetworkManager.openvpn",
            wirelessSetting := none,
            securityType := WirelessSecurityType.UnknownSecurity } } }

/-- A manager that knows no connection and no device. -/
def sampleManager : Manager :=
  { status := Status.Connected, findConnection := fun _ => none,
    findNetworkInterface := fun _ => none }

/-- A stored wireless connection for the network home that has no device yet. -/
def sampleStored (mode : NetworkMode) : NetworkModelItem :=
  { NetworkModelItem.new sampleUnset with
    connectionPath := "/c/1", name := "home", uuid := "u1",
    type := ConnectionType.Wireless, ssid := "home", mode := mode }

/-- An access point row for the network home seen by the device at /d/0. -/
def sampleAccessPoint : NetworkModelItem :=
  { NetworkModelItem.new sampleUnset with
    name := "home", type := ConnectionType.Wireless, ssid := "home",
    devicePath := "/d/0", deviceName := "wlan0", specificPath := "/ap/7", signal := 60 }

/-- A model with two rows: the stored connection at row 0 and the access point at
row 1. -/
def sampleModel (mode : NetworkMode) : NetworkModel :=
  { heap := fun p => if p = 0 then sampleStored mode else sampleAccessPoint,
    next := 2, list := [0, 1], trace := [] }

/-- The wireless device at /d/0. -/
def sampleDevice : Device :=
  { uni := "/d/0", interfaceName := "wlan0", ipInterfaceName := "",
    state := DeviceState.Disconnected, modemSignal := none, wireless := some [],
    rxBytes := 0, txBytes := 0 }

/-- A stored connection for the network home that is available on the device at /d/1. -/
def sampleOnOtherDevice : NetworkModelItem :=
  { sampleStored NetworkMode.Infrastructure with devicePath := "/d/1", deviceName := "wlan1" }

/-- A model whose only row is the stored connection on the device at /d/1. -/
def sampleOtherDeviceModel : NetworkModel :=
  { heap := fun _ => sampleOnOtherDevice, next := 1, list := [0], trace := [] }

/-- The fields of a row that the specification speaks of: what the row stands for (paths,
name, uuid, SSID, type, mode, security, duplicate flag) and what it shows (states, signal,
timestamp, slave flag); the dirty-role set, the icon and the detail strings are left
out. -/
structure RowFields where
  connectionPath : String
  name : String
  uuid : String
  type : ConnectionType
  timestamp : QDateTime
  slave : Bool
  connectionState : State
  devicePath : String
  deviceName : String
  specificPath : String
  signal : Int
  ssid : String
  mode : NetworkMode
  securityType : WirelessSecurityType
  duplicate : Bool
  deriving DecidableEq, Repr

/-- The fields of an item that `RowFields` collects. -/
def rowFields (i : NetworkModelItem) : RowFields :=
  { connectionPath := i.connectionPath, name := i.name, uuid := i.uuid, type := i.type,
    timestamp := i.timestamp, slave := i.slave, connectionState := i.connectionState,
    devicePath := i.devicePath, deviceName := i.deviceName, specificPath := i.specificPath,
    signal := i.signal, ssid := i.ssid, mode := i.mode, securityType := i.securityType,
    duplicate := i.duplicate }

/-- The bracket protocol of the specification, read off a run of events against the item
list: an insertion is `beginInsertRows n n` with `n` the row count, then one `insertItem`,
then `endInsertRows`; a removal is `beginRemoveRows r r` with `r` the row of the item,
then the removal of that item, then `endRemoveRows`; row changed notifications and other
signals go between the brackets. The result is the list after the run, or `none` when the
run breaks the protocol. -/
def replay : List Ptr → List Event → Option (List Ptr)
  | l, [] => some l
  | l, Event.beginInsertRows first last :: Event.insertItem p :: Event.endInsertRows ::
      rest =>
    if first = l.length ∧ last = l.length then replay (l ++ [p]) rest else none
  | l, Event.beginRemoveRows first last :: Event.removeItem p :: Event.deleteLater q ::
      Event.endRemoveRows :: rest =>
    if first = last ∧ l[first]? = some p ∧ q = p then replay (l.eraseIdx first) rest
    else none
  | l, Event.dataChanged _ _ :: rest => replay l rest
  | l, Event.wirelessNetworkDisappearedChanged _ :: rest => replay l rest
  | _, _ => none

/-- A step of the model from `m` to `r` that keeps the bracket protocol: when the
addresses of `m` are in order so are those of `r`, no address is handed out twice, and the
events added by the step are a run of the protocol that leads from the list of `m` to the
list of `r`. -/
def Bracketed (m r : NetworkModel) : Prop :=
  m.WellFormed →
    r.WellFormed ∧ m.next ≤ r.next ∧
      ∃ t, r.trace = m.trace ++ t ∧ replay m.list t = some r.list

/-- The model `r` has its addresses in order and continues the event trace of the model
`m` by events that keep to the bracket protocol of the view and that lead from the list of
`m` to the list of `r`. -/
def KeepsProtocol (m r : NetworkModel) : Prop :=
  r.WellFormed ∧ ∃ t, r.trace = m.trace ++ t ∧ replay m.list t = some r.list

/-- The deduplication invariant of the specification: no two rows have the same non-empty
connection path together with the same non-empty device path. -/
def NetworkModel.Deduplicated (m : NetworkModel) : Prop :=
  m.list.Pairwise (fun p q =>
    ¬ ((m.heap p).connectionPath ≠ "" ∧ (m.heap p).devicePath ≠ "" ∧
      (m.heap p).connectionPath = (m.heap q).connectionPath ∧
      (m.heap p).devicePath = (m.heap q).devicePath))

instance (m : NetworkModel) : Decidable m.Deduplicated := by
  unfold NetworkModel.Deduplicated
  infer_instance

/-- What the body of the loop of wirelessNetworkDisappeared does to the item it visits:
an access point or a duplicate is left as it is (and taken out of the list), any other item
loses its signal and, in Infrastructure mode, its device and specific path. -/
def DisappearedStep (status : Status) (i j : NetworkModelItem) : Prop :=
  ((i.itemType status == ItemType.AvailableAccessPoint || i.duplicate) = true → j = i) ∧
  ((i.itemType status == ItemType.AvailableAccessPoint || i.duplicate) = false →
    rowFields j =
      if i.mode = NetworkMode.Infrastructure then
        { rowFields i with deviceName := "", devicePath := "", specificPath := "", signal := 0 }
      else { rowFields i with signal := 0 })

/-- A stored wired connection. -/
def sampleWired : Connection :=
  { path := "/c/2", name := "office lan", uuid := "u2",
    settings :=
      { id := "office lan", uuid := "u2", timestamp := none,
        connectionType := ConnectionType.Wired, isSlave := false, vpnServiceType := "",
        wirelessSetting := none, securityType := WirelessSecurityType.UnknownSecurity } }

/-- The wired device at /d/1. -/
def sampleEth0 : Device :=
  { uni := "/d/1", interfaceName := "eth0", ipInterfaceName := "",
    state := DeviceState.Disconnected, modemSignal := none, wireless := none,
    rxBytes := 0, txBytes := 0 }

/-- The wired device at /d/2. -/
def sampleEth1 : Device :=
  { uni := "/d/2", interfaceName := "eth1", ipInterfaceName := "",
    state := DeviceState.Disconnected, modemSignal := none, wireless := none,
    rxBytes := 0, txBytes := 0 }

/-- A manager that knows the two wired devices and no connection. -/
def sampleEthManager : Manager :=
  { status := Status.Connected, findConnection := fun _ => none,
    findNetworkInterface := fun uni =>
      if uni = "/d/1" then some sampleEth0 else if uni = "/d/2" then some sampleEth1 else none }

/-- The model after the wired connection has been added and has become available on the
device at /d/1 and then on the device at /d/2. -/
def sampleTwoDevices : NetworkModel :=
  NetworkModel.addAvailableConnection sampleEthManager sampleUnset
    (NetworkModel.addAvailableConnection sampleEthManager sampleUnset
      (NetworkModel.addConnection sampleUnset (NetworkModel.empty sampleUnset) sampleWired)
      "/c/2" (some sampleEth0))
    "/c/2" (some sampleEth1)

/-- A manager that knows the wireless device at /d/0 and no connection. -/
def sampleWifiManager : Manager :=
  { status := Status.Connected, findConnection := fun _ => none,
    findNetworkInterface := fun uni => if uni = "/d/0" then some sampleDevice else none }

/-- The model after the stored connection home has become available on the device at
/d/0: the access point row has been merged into the row of the connection. -/
def sampleAttachedModel : NetworkModel :=
  NetworkModel.addAvailableConnection sampleManager sampleUnset (sampleModel NetworkMode.Infrastructure)
    "/c/1" (some sampleDevice)

/-- A stored wireless connection for the network home whose passphrase is kept by the
service: the secret psk is required and its flag is None. -/
def sampleSecured : Connection :=
  { path := "/c/1", name := "home", uuid := "u1",
    settings :=
      { id := "home", uuid := "u1", timestamp := none,
        connectionType := ConnectionType.Wireless, isSlave := false, vpnServiceType := "",
        wirelessSetting := none, securityType := WirelessSecurityType.Wpa2Psk,
        wirelessSecurity := some { needSecrets := ["psk"], map := [("psk-flags", 0)] } } }

/-- A manager that knows the stored wireless connection at /c/1 and no device. -/
def sampleSecretsManager : Manager :=
  { status := Status.Connected,
    findConnection := fun path => if path = "/c/1" then some sampleSecured else none,
    findNetworkInterface := fun _ => none }

/-- The rows that the specification counts as saved: type Wireless, a non-empty connection
path, and a connection state that is not Activated. -/
def isSavedRow (i : NetworkModelItem) : Bool :=
  decide (i.type = ConnectionType.Wireless ∧ i.connectionPath ≠ "" ∧
    i.connectionState ≠ State.Activated)

/-- Some row other than `row` has the name `name`. -/
def NetworkModel.otherRowNamed (m : NetworkModel) (row : Nat) (name : String) : Prop :=
  ∃ j p, j ≠ row ∧ m.list[j]? = some p ∧ (m.heap p).name = name

/-- A consistent three-way comparison: swapping the arguments swaps the sign, and both
"greater" and "equal" are transitive. -/
def ConsistentCompare (cmp : String → String → Int) : Prop :=
  (∀ a b, cmp a b > 0 ↔ cmp b a < 0) ∧
  (∀ a b c, cmp a b > 0 → cmp b c > 0 → cmp a c > 0) ∧
  (∀ a b c, cmp a b = 0 → cmp b c = 0 → cmp a c = 0)

/-- A three-way comparison of strings used as a concrete input: by length. -/
def sampleCompare (a b : String) : Int := (a.length : Int) - (b.length : Int)

/-- An item whose connection path resolves to no connection of the sample manager. -/
def sampleOrphan : NetworkModelItem :=
  sampleStored NetworkMode.Infrastructure

/-- A finished secrets call with a valid reply that holds the passphrase of the wireless
security setting. -/
def sampleWatcher : Watcher :=
  { isValid := true,
    secrets := [("802-11-wireless-security", [("psk", "secret")])],
    errorMessage := "", connection := "home", settingName := "802-11-wireless-security" }

/-- The access point of the network cafe. -/
def sampleCafeAccessPoint : AccessPoint :=
  { uni := "/ap/9", hardwareAddress := "00:11:22:33:44:55", signalStrength := 40,
    privacy := false, ssid := "cafe" }

/-- The network cafe, seen by the wireless device at /d/5. -/
def sampleCafeNetwork : WirelessNetwork :=
  { ssid := "cafe", signalStrength := 40, referenceAccessPoint := some sampleCafeAccessPoint,
    accessPoints := [sampleCafeAccessPoint],
    bestSecurity := WirelessSecurityType.NoneSecurity }

/-- The wireless device at /d/5, which sees the network cafe and has no available
connection. -/
def sampleWlan1 : Device :=
  { uni := "/d/5", interfaceName := "wlan1", ipInterfaceName := "",
    state := DeviceState.Disconnected, modemSignal := none,
    wireless := some [sampleCafeNetwork], rxBytes := 0, txBytes := 0 }

/-- An access point row for the network cafe seen by the device at /d/5. -/
def sampleCafeRow : NetworkModelItem :=
  { NetworkModelItem.new sampleUnset with
    name := "cafe", type := ConnectionType.Wireless, ssid := "cafe",
    devicePath := "/d/5", deviceName := "wlan1", specificPath := "/ap/9", signal := 40 }

/-- A model with two access point rows: the network home on the device at /d/0 at row 0
and the network cafe on the device at /d/5 at row 1. -/
def sampleTwoWifiModel : NetworkModel :=
  { heap := fun p => if p = 0 then sampleAccessPoint else sampleCafeRow,
    next := 2, list := [0, 1], trace := [] }

/-- The manager after the device at /d/0 has gone: it knows the wireless device at /d/5
only, and no connection. -/
def sampleWlan1Manager : Manager :=
  { status := Status.Connected, findConnection := fun _ => none,
    findNetworkInterface := fun uni => if uni = "/d/5" then some sampleWlan1 else none }

/-- Two items stand for the same network on the same device in the sense of
connectionRemoved (lines 833 to 836): they have the same device path, mode, security type
and SSID. -/
def sameNetwork (i j : NetworkModelItem) : Prop :=
  i.devicePath = j.devicePath ∧ i.mode = j.mode ∧ i.securityType = j.securityType ∧
    i.ssid = j.ssid

instance (i j : NetworkModelItem) : Decidable (sameNetwork i j) := by
  unfold sameNetwork
  infer_instance

/-- The rows that the specification lets connectionRemoved keep: a Wireless row in
Infrastructure mode with a non-empty device path for which no row with a connection path
other than `connection` is on the same network and device. -/
def NetworkModel.keepsAsAccessPoint (m : NetworkModel) (connection : String) (p : Ptr) :
    Prop :=
  (m.heap p).type = ConnectionType.Wireless ∧
  (m.heap p).mode = NetworkMode.Infrastructure ∧
  (m.heap p).devicePath ≠ "" ∧
  ∀ q ∈ m.list, (m.heap q).connectionPath ≠ connection →
    ¬ sameNetwork (m.heap p) (m.heap q)

instance (m : NetworkModel) (connection : String) (p : Ptr) :
    Decidable (m.keepsAsAccessPoint connection p) := by
  unfold NetworkModel.keepsAsAccessPoint
  infer_instance

/-- The row at `p` is the first one among the given rows that is Wireless and on the same
network and device as `p`. -/
def NetworkModel.firstOnNetwork (m : NetworkModel) (rows : List Ptr) (p : Ptr) : Prop :=
  rows.find? (fun q => decide ((m.heap q).type = ConnectionType.Wireless ∧
    sameNetwork (m.heap p) (m.heap q))) = some p

instance (m : NetworkModel) (rows : List Ptr) (p : Ptr) :
    Decidable (m.firstOnNetwork rows p) := by
  unfold NetworkModel.firstOnNetwork
  infer_instance

/-- The rows among `rows` that connectionRemoved keeps when it visits `rows` in order: the
rows that the specification lets it keep, and of several such rows on the same network and
device the first one only, unless the connection path is empty. -/
def NetworkModel.keptAmong (m : NetworkModel) (connection : String) (rows : List Ptr)
    (p : Ptr) : Prop :=
  m.keepsAsAccessPoint connection p ∧ (connection = "" ∨ m.firstOnNetwork rows p)

instance (m : NetworkModel) (connection : String) (rows : List Ptr) (p : Ptr) :
    Decidable (m.keptAmong connection rows p) := by
  unfold NetworkModel.keptAmong
  infer_instance

/-- The rows with connection path `connection` that connectionRemoved keeps. -/
def NetworkModel.keptOnRemoval (m : NetworkModel) (connection : String) (p : Ptr) : Prop :=
  m.keptAmong connection (m.returnItems FilterType.Connection connection) p

instance (m : NetworkModel) (connection : String) (p : Ptr) :
    Decidable (m.keptOnRemoval connection p) := by
  unfold NetworkModel.keptOnRemoval
  infer_instance

/-- The fields of a row after connectionRemoved has turned it into an access point row:
connection path and uuid empty, the SSID as name, not a slave, no timestamp. -/
def asAccessPoint (f : RowFields) : RowFields :=
  { f with
    connectionPath := ""
    name := f.ssid
    slave := false
    timestamp := (none : QDateTime)
    uuid := "" }

/-- A stored wireless connection for the network home, in Infrastructure mode. -/
def sampleHomeWifi : Connection :=
  { path := "/c/1", name := "home", uuid := "u1",
    settings :=
      { id := "home", uuid := "u1", timestamp := none,
        connectionType := ConnectionType.Wireless, isSlave := false, vpnServiceType := "",
        wirelessSetting :=
          some { mode := NetworkMode.Infrastructure, ssid := "home", bssid := "",
                 macAddress := "" },
        securityType := WirelessSecurityType.Wpa2Psk } }

/-- The wireless device at /d/1, which sees no network. -/
def sampleWlanA : Device :=
  { uni := "/d/1", interfaceName := "wlan0", ipInterfaceName := "",
    state := DeviceState.Disconnected, modemSignal := none, wireless := some [],
    rxBytes := 0, txBytes := 0 }

/-- The wireless device at /d/2, which sees no network. -/
def sampleWlanB : Device :=
  { uni := "/d/2", interfaceName := "wlan1", ipInterfaceName := "",
    state := DeviceState.Disconnected, modemSignal := none, wireless := some [],
    rxBytes := 0, txBytes := 0 }

/-- The model after the wireless connection home has been added, has become available on
the device at /d/1, and has been announced twice as available on the device at /d/2: the
row of the connection on /d/1 and two duplicate rows on /d/2. -/
def sampleTwinModel : NetworkModel :=
  NetworkModel.addAvailableConnection sampleManager sampleUnset
    (NetworkModel.addAvailableConnection sampleManager sampleUnset
      (NetworkModel.addAvailableConnection sampleManager sampleUnset
        (NetworkModel.addConnection sampleUnset (NetworkModel.empty sampleUnset)
          sampleHomeWifi)
        "/c/1" (some sampleWlanA))
      "/c/1" (some sampleWlanB))
    "/c/1" (some sampleWlanB)

/-- The model `r` is the model `m` with one new row: the new item, at the address handed
out last, sits at index rowCount, every row that was there keeps its index, and the
insertion was announced for index rowCount. -/
def AppendsRow (m r : NetworkModel) : Prop :=
  r.list = m.list ++ [m.next] ∧
  r.list[m.count]? = some m.next ∧
  (∀ row, row < m.count → r.list[row]? = m.list[row]?) ∧
  r.trace = m.trace ++
    [Event.beginInsertRows m.count m.count, Event.insertItem m.next, Event.endInsertRows]

/-- The stored connection fits the network on the device in the sense of
addWirelessNetwork (lines 559 to 566): it is a wireless connection for the SSID of the
network whose BSSID, when it has one, is the hardware address of the reference access
point and whose MAC address, when it has one, is the hardware address of the device. -/
def fitsNetwork (network : WirelessNetwork) (device : Device) (connection : Connection) :
    Prop :=
  connection.settings.connectionType = ConnectionType.Wireless ∧
  ∃ wirelessSetting, connection.settings.wirelessSetting = some wirelessSetting ∧
    wirelessSetting.ssid = network.ssid ∧
    (wirelessSetting.bssid = "" ∨ wirelessSetting.bssid = network.referenceHardwareAddress) ∧
    (wirelessSetting.macAddress = "" ∨ wirelessSetting.macAddress = device.hardwareAddress)

/-- No row absorbs the network: the network is not the one of the hotspot of this machine,
and every available wireless connection row has a connection that resolves and does not
fit the network. -/
def NetworkModel.needsRowFor (nm : Manager) (m : NetworkModel) (network : WirelessNetwork)
    (device : Device) : Prop :=
  NetworkModel.isHotspotNetwork nm network = false ∧
  ∀ p ∈ m.list, (m.heap p).type = ConnectionType.Wireless →
    (m.heap p).itemType nm.status = ItemType.AvailableConnection →
    ∃ connection, nm.findConnection (m.heap p).connectionPath = some connection ∧
      ¬ fitsNetwork network device connection

/-- Every available wireless connection row has a connection path that resolves to a
connection. -/
def NetworkModel.Resolves (nm : Manager) (m : NetworkModel) : Prop :=
  ∀ p ∈ m.list, (m.heap p).type = ConnectionType.Wireless →
    (m.heap p).itemType nm.status = ItemType.AvailableConnection →
    nm.findConnection (m.heap p).connectionPath ≠ none

/-- A manager that knows the stored wireless connection home at /c/1 and the wireless
device at /d/5. -/
def sampleHomeManager : Manager :=
  { status := Status.Connected,
    findConnection := fun path => if path = "/c/1" then some sampleHomeWifi else none,
    findNetworkInterface := fun uni => if uni = "/d/5" then some sampleWlan1 else none }

/-- Every row that has a connection path stands for a connection that the manager knows:
the connection path resolves. -/
def NetworkModel.StoredResolve (nm : Manager) (m : NetworkModel) : Prop :=
  ∀ p ∈ m.list, (m.heap p).connectionPath ≠ "" →
    nm.findConnection (m.heap p).connectionPath ≠ none

/-! ## Theorems: AppletProxyModel -/

theorem isEmpty_iff (s : String) : isEmpty s = true ↔ s = "" := by
  simp [isEmpty]

theorem State.toUInt_injective (a b : State) (h : a.toUInt = b.toUInt) : a = b := by
  cases a <;> cases b <;> simp [State.toUInt] at h <;> rfl

/-- C1: a source row whose TypeRole is not Wireless is rejected by filterAcceptsRow, for
every search term and every value of the other fields of the row. -/
theorem filterAcceptsRow_not_wireless (contains : String → QRegExp → Bool)
    (findConnection : String → Option ConnectionType) (filterRegExp : QRegExp) (row : Row)
    (h : row.type ≠ ConnectionType.Wireless) :
    filterAcceptsRow contains findConnection filterRegExp row = false := by
  unfold filterAcceptsRow
  split
  · rfl
  · simp [h]

theorem filterAcceptsRow_not_wireless_witness :
    ({ sampleRow with type := ConnectionType.Wired } : Row).type ≠ ConnectionType.Wireless ∧
    filterAcceptsRow containsLiteral (fun _ => none) (QRegExp.mk "home")
      { sampleRow with type := ConnectionType.Wired } = false :=
  ⟨by decide, filterAcceptsRow_not_wireless _ _ _ _ (by decide)⟩

/-- C2: with an empty search term, filterAcceptsRow rejects every row whose item type is
AvailableConnection and whose connection state is Activated or Activating. -/
theorem filterAcceptsRow_active_available (contains : String → QRegExp → Bool)
    (findConnection : String → Option ConnectionType) (filterRegExp : QRegExp) (row : Row)
    (hempty : filterRegExp.isEmpty = true)
    (htype : row.itemType = ItemType.AvailableConnection)
    (hstate : row.connectionState = State.Activated ∨
      row.connectionState = State.Activating) :
    filterAcceptsRow contains findConnection filterRegExp row = false := by
  unfold filterAcceptsRow
  rcases hstate with hs | hs <;> simp [hempty, htype, hs]

theorem filterAcceptsRow_active_available_witness :
    (QRegExp.mk "").isEmpty = true ∧
    filterAcceptsRow containsLiteral (fun _ => none) (QRegExp.mk "")
      { sampleRow with itemType := ItemType.AvailableConnection,
                       connectionState := State.Activating } = false :=
  ⟨by decide,
    filterAcceptsRow_active_available _ _ _ _ (by decide) (by decide)
      (Or.inr (by decide))⟩

/-- C3: filterAcceptsRow rejects every row whose item type is UnavailableConnection, for
every search term, empty or not, and every connection state. -/
theorem filterAcceptsRow_unavailable (contains : String → QRegExp → Bool)
    (findConnection : String → Option ConnectionType) (filterRegExp : QRegExp) (row : Row)
    (htype : row.itemType = ItemType.UnavailableConnection) :
    filterAcceptsRow contains findConnection filterRegExp row = false := by
  unfold filterAcceptsRow
  simp [htype]

theorem filterAcceptsRow_unavailable_witness :
    filterAcceptsRow containsLiteral (fun _ => none) (QRegExp.mk "home")
      { sampleRow with itemType := ItemType.UnavailableConnection } = false :=
  filterAcceptsRow_unavailable _ _ _ _ (by decide)

/-- C4, as stated, fails: with the search term home set, the wireless row named home whose
item type is AvailableConnection and whose state is Activated is not an
UnavailableConnection and its unique name contains the search term, yet filterAcceptsRow
rejects it. -/
theorem filterAcceptsRow_search_counterexample :
    ¬ (∀ (contains : String → QRegExp → Bool)
        (findConnection : String → Option ConnectionType) (filterRegExp : QRegExp)
        (row : Row),
        filterRegExp.isEmpty = false →
        row.type = ConnectionType.Wireless →
        row.itemType ≠ ItemType.UnavailableConnection →
        (filterAcceptsRow contains findConnection filterRegExp row = true ↔
          contains row.itemUniqueName filterRegExp = true)) := by
  intro h
  have h1 := h containsLiteral (fun _ => none) (QRegExp.mk "home")
    { sampleRow with itemType := ItemType.AvailableConnection,
                     connectionState := State.Activated }
    (by decide) (by decide) (by decide)
  revert h1
  decide

/-- C4, amended: with a non-empty search term set, a Wireless row that is neither an
UnavailableConnection nor an AvailableConnection in state Activated or Activating is
accepted exactly when its ItemUniqueNameRole string matches the search term; an
AvailableConnection row in state Activated or Activating is rejected also while
searching. -/
theorem filterAcceptsRow_search (contains : String → QRegExp → Bool)
    (findConnection : String → Option ConnectionType) (filterRegExp : QRegExp) (row : Row)
    (hsearch : filterRegExp.isEmpty = false)
    (hwireless : row.type = ConnectionType.Wireless)
    (htype : row.itemType ≠ ItemType.UnavailableConnection) :
    (¬ (row.itemType = ItemType.AvailableConnection ∧
        (row.connectionState = State.Activated ∨
          row.connectionState = State.Activating)) →
      (filterAcceptsRow contains findConnection filterRegExp row = true ↔
        contains row.itemUniqueName filterRegExp = true)) ∧
    (row.itemType = ItemType.AvailableConnection ∧
        (row.connectionState = State.Activated ∨
          row.connectionState = State.Activating) →
      filterAcceptsRow contains findConnection filterRegExp row = false) := by
  unfold filterAcceptsRow
  constructor
  · intro hex
    cases hit : row.itemType
    · exact absurd hit htype
    · have hs : ¬ (row.connectionState = State.Activated ∨
          row.connectionState = State.Activating) := fun hc => hex ⟨hit, hc⟩
      simp [hsearch, hwireless, hit, hs]
    · simp [hsearch, hwireless, hit]
  · rintro ⟨hit, hs⟩
    rcases hs with hs | hs <;> simp [hsearch, hwireless, hit, hs]

theorem filterAcceptsRow_search_witness :
    (filterAcceptsRow containsLiteral (fun _ => none) (QRegExp.mk "om") sampleRow = true ↔
      containsLiteral sampleRow.itemUniqueName (QRegExp.mk "om") = true) :=
  (filterAcceptsRow_search containsLiteral (fun _ => none) (QRegExp.mk "om") sampleRow
    (by decide) (by decide) (by decide)).1 (by decide)

/-- C5: lessThan is the lexicographic comparison of the rows on the six sort keys of the
specification in their priority order: connection state (the greater numeric state is
less), availability flag (false is less than true), signal strength (smaller is less),
uuid presence (empty is less than non-empty), timestamp (earlier is less) and name (left
is less iff localeAwareCompare is positive), a later key deciding only when all earlier
keys are equal. -/
theorem lessThan_eq_lexLess (localeAwareCompare : String → String → Int) (left right : Row) :
    lessThan localeAwareCompare left right
      = lexLess (sortKeys localeAwareCompare) left right := by
  unfold lessThan sortKeys
  simp only [lexLess, keyAscending]
  by_cases h1 : right.connectionState.toUInt < left.connectionState.toUInt
  · simp only [h1, gt_iff_lt, if_true]
  · by_cases h2 : left.connectionState.toUInt < right.connectionState.toUInt
    · simp only [h1, h2, gt_iff_lt, if_true, if_false]
    · simp only [h1, h2, gt_iff_lt, if_true, if_false]
      have hav : ∀ x y : Bool, (x.toNat < y.toNat ↔ x < y) := by decide
      have hb : ∀ x : ItemType, (x == ItemType.AvailableConnection)
          = decide (x = ItemType.AvailableConnection) := by
        intro x; cases x <;> rfl
      simp only [hb, hav]
      by_cases h3 : decide (left.itemType = ItemType.AvailableConnection) <
          decide (right.itemType = ItemType.AvailableConnection)
      · simp only [h3, if_true]
      · by_cases h4 : decide (right.itemType = ItemType.AvailableConnection) <
            decide (left.itemType = ItemType.AvailableConnection)
        · simp only [h3, h4, if_true, if_false]
        · simp only [h3, h4, if_true, if_false]
          by_cases h5 : left.signal < right.signal
          · simp only [h5, if_true]
          · by_cases h6 : right.signal < left.signal
            · simp only [h5, h6, if_true, if_false]
            · simp only [h5, h6, if_true, if_false]
              have hu : ∀ x y : String,
                  ((isEmpty x && !isEmpty y) = true ↔ decide (x ≠ "") < decide (y ≠ "")) := by
                intro x y
                by_cases hx : x = "" <;> by_cases hy : y = "" <;> simp [isEmpty, hx, hy]
              have hu2 : ∀ x y : String,
                  ((!isEmpty x && isEmpty y) = true ↔ decide (y ≠ "") < decide (x ≠ "")) := by
                intro x y
                by_cases hx : x = "" <;> by_cases hy : y = "" <;> simp [isEmpty, hx, hy]
              simp only [hu, hu2]
              by_cases h7 : decide (left.uuid ≠ "") < decide (right.uuid ≠ "")
              · simp only [h7, if_true]
              · by_cases h8 : decide (right.uuid ≠ "") < decide (left.uuid ≠ "")
                · simp only [h7, h8, if_true, if_false]
                · simp only [h7, h8, if_true, if_false]
                  by_cases h9 : right.timeStamp.msecs < left.timeStamp.msecs
                  · have h10 : ¬ left.timeStamp.msecs < right.timeStamp.msecs := by omega
                    simp only [h9, h10, if_true, if_false]
                  · by_cases h10 : left.timeStamp.msecs < right.timeStamp.msecs
                    · simp only [h9, h10, if_true, if_false]
                    · simp only [h9, h10, if_true, if_false]
                      by_cases h11 : 0 < localeAwareCompare left.name right.name
                      · simp only [h11, if_true]
                      · simp only [h11, if_false]

/-- C6: for two rows whose connection states differ, lessThan holds exactly when the
numeric connection state of the left row is greater than that of the right row, whatever
their availability, signal, uuid, timestamp and name. -/
theorem lessThan_state_differs (localeAwareCompare : String → String → Int)
    (left right : Row) (h : left.connectionState ≠ right.connectionState) :
    lessThan localeAwareCompare left right
      = decide (left.connectionState.toUInt > right.connectionState.toUInt) := by
  have hne : left.connectionState.toUInt ≠ right.connectionState.toUInt :=
    fun he => h (State.toUInt_injective _ _ he)
  unfold lessThan
  by_cases h1 : left.connectionState.toUInt > right.connectionState.toUInt
  · simp only [h1, if_true, decide_True]
  · have h2 : left.connectionState.toUInt < right.connectionState.toUInt := by omega
    simp only [h1, h2, if_true, if_false, decide_False]

theorem lessThan_state_differs_witness :
    lessThan (fun _ _ => 0) { sampleRow with connectionState := State.Activated }
        { sampleRow with signal := 90 }
      = decide (State.Activated.toUInt > State.Deactivated.toUInt) :=
  lessThan_state_differs (fun _ _ => 0) { sampleRow with connectionState := State.Activated }
    { sampleRow with signal := 90 } (by decide)

/-- C7: for two rows with equal connection state, equal availability flag and equal
signal, a row without a uuid sorts lower than one with a uuid: lessThan is true when the
uuid of the left row is empty and that of the right row is not, and false when the uuid
of the left row is non-empty and that of the right row is empty, whatever their
timestamps and names. -/
theorem lessThan_uuid_presence (localeAwareCompare : String → String → Int)
    (left right : Row)
    (hstate : left.connectionState = right.connectionState)
    (havail : (left.itemType = ItemType.AvailableConnection ↔
      right.itemType = ItemType.AvailableConnection))
    (hsignal : left.signal = right.signal) :
    (left.uuid = "" ∧ right.uuid ≠ "" → lessThan localeAwareCompare left right = true) ∧
    (left.uuid ≠ "" ∧ right.uuid = "" → lessThan localeAwareCompare left right = false) := by
  have hb : (left.itemType == ItemType.AvailableConnection)
      = (right.itemType == ItemType.AvailableConnection) := by
    by_cases hl : left.itemType = ItemType.AvailableConnection
    · have hr := havail.1 hl
      simp [hl, hr]
    · have hr : ¬ right.itemType = ItemType.AvailableConnection := fun hr => hl (havail.2 hr)
      simp [hl, hr]
  unfold lessThan
  simp only [hstate, hb, hsignal, gt_iff_lt, lt_self_iff_false, if_false]
  constructor
  · rintro ⟨hl, hr⟩
    simp [isEmpty, hl, hr]
  · rintro ⟨hl, hr⟩
    simp [isEmpty, hl, hr]

theorem lessThan_uuid_presence_witness :
    lessThan (fun _ _ => 1) { sampleRow with uuid := "u1", timeStamp := some 5 }
      { sampleRow with name := "a" } = false :=
  (lessThan_uuid_presence (fun _ _ => 1) { sampleRow with uuid := "u1", timeStamp := some 5 }
    { sampleRow with name := "a" } rfl Iff.rfl rfl).2 ⟨by decide, by decide⟩

/-! ## Theorems: NetworkModel -/

open NetworkModel NetworkModelItem

theorem scan_foldl (c nd : Ptr → Bool) (items : List Ptr) (b : Bool) (o : Option Ptr) :
    items.foldl
      (fun (acc : Bool × Option Ptr) (item : Ptr) =>
        ((if c item then true else acc.1), (if nd item then some item else acc.2)))
      (b, o)
    = (b || items.any c, ((items.filter nd).getLast?).or o) := by
  induction items generalizing b o with
  | nil => simp
  | cons x xs ih =>
    rw [List.foldl_cons, ih]
    refine Prod.ext ?_ ?_
    · cases hc : c x <;> simp [hc]
    · cases hn : nd x
      · simp [hn]
      · simp only [if_true, List.filter_cons, hn, List.getLast?_cons]
        cases (List.filter nd xs).getLast? <;> simp

theorem checkAndCreateDuplicateScan_eq (status : Status) (m : NetworkModel)
    (deviceUni : String) (items : List Ptr) :
    checkAndCreateDuplicateScan status m deviceUni items
    = (items.any (fun item => !(m.heap item).duplicate &&
          (m.heap item).itemType status == ItemType.AvailableConnection &&
          ((m.heap item).devicePath != deviceUni && !isEmpty (m.heap item).devicePath)),
       (items.filter (fun item => !(m.heap item).duplicate)).getLast?) := by
  unfold checkAndCreateDuplicateScan
  have h := scan_foldl
    (fun item => !(m.heap item).duplicate &&
          (m.heap item).itemType status == ItemType.AvailableConnection &&
          ((m.heap item).devicePath != deviceUni && !isEmpty (m.heap item).devicePath))
    (fun item => !(m.heap item).duplicate) items false none
  simp only [Bool.false_or, Option.or_none] at h
  exact h

theorem mem_returnItems (m : NetworkModel) (type : FilterType) (parameter : String) (p : Ptr) :
    p ∈ m.returnItems type parameter ↔ p ∈ m.list ∧ filterKey type (m.heap p) = parameter := by
  simp [NetworkModel.returnItems]

theorem scan_any_iff (status : Status) (m : NetworkModel) (connection deviceUni : String) :
    (m.returnItems FilterType.Connection connection).any
        (fun item => !(m.heap item).duplicate &&
          (m.heap item).itemType status == ItemType.AvailableConnection &&
          ((m.heap item).devicePath != deviceUni && !isEmpty (m.heap item).devicePath)) = true
      ↔ m.reachableFromOtherDevice status connection deviceUni := by
  simp only [List.any_eq_true, mem_returnItems, filterKey, NetworkModel.reachableFromOtherDevice,
    Bool.and_eq_true, Bool.not_eq_true', beq_iff_eq, bne_iff_ne, ne_eq, isEmpty]
  constructor
  · rintro ⟨p, ⟨hp, hc⟩, ⟨hd, ht⟩, hne, hem⟩
    exact ⟨p, hp, hc, hd, ht, by simpa using hem, hne⟩
  · rintro ⟨p, hp, hc, hd, ht, hem, hne⟩
    exact ⟨p, ⟨hp, hc⟩, ⟨hd, ht⟩, hne, by simpa using hem⟩

theorem checkAndCreateDuplicate_of_not (status : Status) (unset : Unset) (m : NetworkModel)
    (connection deviceUni : String)
    (h : ¬ m.reachableFromOtherDevice status connection deviceUni) :
    checkAndCreateDuplicate status unset m connection deviceUni = m := by
  unfold NetworkModel.checkAndCreateDuplicate
  rw [checkAndCreateDuplicateScan_eq]
  have hany := scan_any_iff status m connection deviceUni
  cases hb : (m.returnItems FilterType.Connection connection).any
        (fun item => !(m.heap item).duplicate &&
          (m.heap item).itemType status == ItemType.AvailableConnection &&
          ((m.heap item).devicePath != deviceUni && !isEmpty (m.heap item).devicePath))
  · rfl
  · exact absurd (hany.1 hb) h

theorem checkAndCreateDuplicate_of_reachable (status : Status) (unset : Unset)
    (m : NetworkModel) (connection deviceUni : String)
    (h : m.reachableFromOtherDevice status connection deviceUni) :
    ∃ original,
      ((m.returnItems FilterType.Connection connection).filter
        (fun p => !(m.heap p).duplicate)).getLast? = some original ∧
      original ∈ m.list ∧ (m.heap original).duplicate = false ∧
      (m.heap original).connectionPath = connection ∧
      checkAndCreateDuplicate status unset m connection deviceUni =
        (((m.alloc (NetworkModelItem.copy (m.heap original) unset)).1.modify m.next
          NetworkModelItem.invalidateDetails).insertRow m.next) := by
  have hany := (scan_any_iff status m connection deviceUni).2 h
  obtain ⟨p, hp, hc, hd, -⟩ := h
  have hmem : p ∈ (m.returnItems FilterType.Connection connection).filter
      (fun p => !(m.heap p).duplicate) := by
    simp [mem_returnItems, filterKey, hp, hc, hd]
  cases hl : ((m.returnItems FilterType.Connection connection).filter
      (fun p => !(m.heap p).duplicate)).getLast? with
  | none =>
    rw [List.getLast?_eq_none_iff] at hl
    rw [hl] at hmem
    exact absurd hmem (List.not_mem_nil _)
  | some original =>
    have ho := List.mem_of_getLast?_eq_some hl
    simp only [List.mem_filter, mem_returnItems, filterKey, Bool.not_eq_true'] at ho
    refine ⟨original, rfl, ho.1.1, ho.2, ho.1.2, ?_⟩
    unfold NetworkModel.checkAndCreateDuplicate
    rw [checkAndCreateDuplicateScan_eq, hany, hl]
    rfl

/-- C10: checkAndCreateDuplicate(c, d) appends exactly one new row if and only if some
non-duplicate row with connection path c has item type AvailableConnection and a
non-empty device path different from d; otherwise the list is unchanged. The new row is a
duplicate, copies connection path, name, uuid, ssid, type, mode, security type, slave flag
and timestamp of the original, which is the last non-duplicate row with connection path c,
and has connection state Deactivated and an empty device path. -/
theorem checkAndCreateDuplicate_spec (status : Status) (unset : Unset) (m : NetworkModel)
    (connection deviceUni : String) :
    ((∃ item, (checkAndCreateDuplicate status unset m connection deviceUni).list
        = m.list ++ [item]) ↔ m.reachableFromOtherDevice status connection deviceUni) ∧
    (¬ m.reachableFromOtherDevice status connection deviceUni →
      (checkAndCreateDuplicate status unset m connection deviceUni).list = m.list) ∧
    (m.reachableFromOtherDevice status connection deviceUni →
      ∃ original,
        ((m.returnItems FilterType.Connection connection).filter
          (fun p => !(m.heap p).duplicate)).getLast? = some original ∧
        original ∈ m.list ∧ (m.heap original).duplicate = false ∧
        (m.heap original).connectionPath = connection ∧
        (checkAndCreateDuplicate status unset m connection deviceUni).list
          = m.list ++ [m.next] ∧
        (∀ p, p ≠ m.next →
          (checkAndCreateDuplicate status unset m connection deviceUni).heap p = m.heap p) ∧
        ((checkAndCreateDuplicate status unset m connection deviceUni).heap m.next).duplicate
          = true ∧
        ((checkAndCreateDuplicate status unset m connection deviceUni).heap
          m.next).connectionPath = (m.heap original).connectionPath ∧
        ((checkAndCreateDuplicate status unset m connection deviceUni).heap m.next).name
          = (m.heap original).name ∧
        ((checkAndCreateDuplicate status unset m connection deviceUni).heap m.next).uuid
          = (m.heap original).uuid ∧
        ((checkAndCreateDuplicate status unset m connection deviceUni).heap m.next).ssid
          = (m.heap original).ssid ∧
        ((checkAndCreateDuplicate status unset m connection deviceUni).heap m.next).type
          = (m.heap original).type ∧
        ((checkAndCreateDuplicate status unset m connection deviceUni).heap m.next).mode
          = (m.heap original).mode ∧
        ((checkAndCreateDuplicate status unset m connection deviceUni).heap
          m.next).securityType = (m.heap original).securityType ∧
        ((checkAndCreateDuplicate status unset m connection deviceUni).heap m.next).slave
          = (m.heap original).slave ∧
        ((checkAndCreateDuplicate status unset m connection deviceUni).heap m.next).timestamp
          = (m.heap original).timestamp ∧
        ((checkAndCreateDuplicate status unset m connection deviceUni).heap
          m.next).connectionState = State.Deactivated ∧
        ((checkAndCreateDuplicate status unset m connection deviceUni).heap m.next).devicePath
          = "") := by
  refine ⟨?_, ?_, ?_⟩
  · constructor
    · rintro ⟨item, hitem⟩
      by_contra hn
      rw [checkAndCreateDuplicate_of_not status unset m connection deviceUni hn] at hitem
      have hlen := congrArg List.length hitem
      simp at hlen
    · intro h
      obtain ⟨original, -, -, -, -, heq⟩ :=
        checkAndCreateDuplicate_of_reachable status unset m connection deviceUni h
      exact ⟨m.next, by rw [heq]; rfl⟩
  · intro hn
    rw [checkAndCreateDuplicate_of_not status unset m connection deviceUni hn]
  · intro h
    obtain ⟨original, hlast, hmem, hdup, hpath, heq⟩ :=
      checkAndCreateDuplicate_of_reachable status unset m connection deviceUni h
    refine ⟨original, hlast, hmem, hdup, hpath, ?_⟩
    rw [heq]
    refine ⟨rfl, ?_, ?_⟩
    · intro p hp
      simp [NetworkModel.insertRow, NetworkModel.emit, NetworkModel.insertItem,
        NetworkModel.modify, NetworkModel.alloc, Function.update_noteq hp]
    · simp [NetworkModel.insertRow, NetworkModel.emit, NetworkModel.insertItem,
        NetworkModel.modify, NetworkModel.alloc, NetworkModelItem.copy,
        NetworkModelItem.invalidateDetails]

/-! ### Frame lemmas for the heap -/

@[simp] theorem modify_list (m : NetworkModel) (q : Ptr) (f : NetworkModelItem → NetworkModelItem) :
    (m.modify q f).list = m.list := rfl

@[simp] theorem modify_next (m : NetworkModel) (q : Ptr) (f : NetworkModelItem → NetworkModelItem) :
    (m.modify q f).next = m.next := rfl

@[simp] theorem modify_heap_self (m : NetworkModel) (q : Ptr)
    (f : NetworkModelItem → NetworkModelItem) :
    (m.modify q f).heap q = f (m.heap q) := by
  simp [NetworkModel.modify]

theorem modify_heap_ne (m : NetworkModel) (q p : Ptr) (f : NetworkModelItem → NetworkModelItem)
    (h : p ≠ q) : (m.modify q f).heap p = m.heap p := by
  simp [NetworkModel.modify, Function.update_noteq h]

@[simp] theorem modify_indexOf (m : NetworkModel) (q p : Ptr)
    (f : NetworkModelItem → NetworkModelItem) :
    (m.modify q f).indexOf p = m.indexOf p := rfl

@[simp] theorem updateItem_list (m : NetworkModel) (q : Ptr) :
    (m.updateItem q).list = m.list := by
  unfold NetworkModel.updateItem
  cases m.indexOf q <;> rfl

@[simp] theorem updateItem_next (m : NetworkModel) (q : Ptr) :
    (m.updateItem q).next = m.next := by
  unfold NetworkModel.updateItem
  cases m.indexOf q <;> rfl

theorem updateItem_heap_ne (m : NetworkModel) (q p : Ptr) (h : p ≠ q) :
    (m.updateItem q).heap p = m.heap p := by
  unfold NetworkModel.updateItem
  cases m.indexOf q with
  | none => rfl
  | some row =>
    simp [NetworkModel.modify, NetworkModel.emit, Function.update_noteq h]

theorem updateItem_heap_self (m : NetworkModel) (q : Ptr) :
    (m.updateItem q).heap q = m.heap q ∨
    (m.updateItem q).heap q = (m.heap q).invalidateDetails.clearChangedRoles := by
  unfold NetworkModel.updateItem
  cases m.indexOf q with
  | none => exact Or.inl rfl
  | some row =>
    right
    simp [NetworkModel.modify, NetworkModel.emit]

/-- A field of an item that `updateItem` leaves alone has the same value afterwards. -/
theorem updateItem_field {α : Type} (g : NetworkModelItem → α)
    (hg : ∀ i : NetworkModelItem, g i.invalidateDetails.clearChangedRoles = g i)
    (m : NetworkModel) (q p : Ptr) :
    g ((m.updateItem q).heap p) = g (m.heap p) := by
  by_cases h : p = q
  · subst h
    rcases updateItem_heap_self m p with h1 | h1
    · rw [h1]
    · rw [h1, hg]
  · rw [updateItem_heap_ne m q p h]

/-- A loop over a snapshot of items whose body touches only the item it visits leaves the
items outside the snapshot as they were. -/
theorem foldl_heap_of_not_mem (f : NetworkModel → Ptr → NetworkModel)
    (hframe : ∀ m q p, p ≠ q → (f m q).heap p = m.heap p)
    (items : List Ptr) (m : NetworkModel) (p : Ptr) (hp : p ∉ items) :
    (items.foldl f m).heap p = m.heap p := by
  induction items generalizing m with
  | nil => rfl
  | cons q rest ih =>
    rw [List.foldl_cons]
    have hpq : p ≠ q := fun h => hp (h ▸ List.mem_cons_self _ _)
    have hrest : p ∉ rest := fun h => hp (List.mem_cons_of_mem _ h)
    rw [ih _ hrest, hframe m q p hpq]

/-- A loop over a snapshot of items whose body touches only the item it visits and
establishes a property of that item establishes it for every item of the snapshot. -/
theorem foldl_heap_of_mem (f : NetworkModel → Ptr → NetworkModel)
    (P : NetworkModelItem → Prop)
    (hframe : ∀ m q p, p ≠ q → (f m q).heap p = m.heap p)
    (hest : ∀ m q, P ((f m q).heap q))
    (items : List Ptr) (m : NetworkModel) (p : Ptr) (hp : p ∈ items) :
    P ((items.foldl f m).heap p) := by
  induction items generalizing m with
  | nil => exact absurd hp (List.not_mem_nil _)
  | cons q rest ih =>
    rw [List.foldl_cons]
    by_cases hrest : p ∈ rest
    · exact ih _ hrest
    · have hpq : p = q := by
        rcases List.mem_cons.1 hp with h | h
        · exact h
        · exact absurd h hrest
      subst hpq
      rw [foldl_heap_of_not_mem f hframe rest _ p hrest]
      exact hest m p

/-- A loop whose body keeps a field of every item keeps it. -/
theorem foldl_field {α : Type} (f : NetworkModel → Ptr → NetworkModel)
    (g : NetworkModelItem → α)
    (hkeep : ∀ m q p, g ((f m q).heap p) = g (m.heap p))
    (items : List Ptr) (m : NetworkModel) (p : Ptr) :
    g ((items.foldl f m).heap p) = g (m.heap p) := by
  induction items generalizing m with
  | nil => rfl
  | cons q rest ih =>
    rw [List.foldl_cons, ih, hkeep]

/-- A loop whose body keeps the item list keeps it. -/
theorem foldl_list (f : NetworkModel → Ptr → NetworkModel)
    (hkeep : ∀ m q, (f m q).list = m.list)
    (items : List Ptr) (m : NetworkModel) :
    (items.foldl f m).list = m.list := by
  induction items generalizing m with
  | nil => rfl
  | cons q rest ih =>
    rw [List.foldl_cons, ih, hkeep]

/-! ### The VPN state mapping -/

theorem setConnectionState_connectionState (i : NetworkModelItem) (s : State) :
    (i.setConnectionState s).connectionState = s := by
  unfold NetworkModelItem.setConnectionState NetworkModelItem.refreshIcon
    NetworkModelItem.setIcon
  by_cases h : i.connectionState = s
  · simp [h]
  · simp only [bne_iff_ne, ne_eq, h, not_false_eq_true, if_true]
    split <;> rfl

theorem setVpnState_connectionState (i : NetworkModelItem) (s : VpnState) :
    (i.setVpnState s).connectionState = i.connectionState := by
  unfold NetworkModelItem.setVpnState
  split <;> rfl

theorem activeVpnConnectionStateChangedItem_list (state : VpnState) (m : NetworkModel)
    (q : Ptr) : (activeVpnConnectionStateChangedItem state m q).list = m.list := by
  unfold NetworkModel.activeVpnConnectionStateChangedItem
  simp only [updateItem_list, modify_list]
  split_ifs <;> rfl

theorem activeVpnConnectionStateChangedItem_heap_ne (state : VpnState) (m : NetworkModel)
    (q p : Ptr) (h : p ≠ q) :
    (activeVpnConnectionStateChangedItem state m q).heap p = m.heap p := by
  unfold NetworkModel.activeVpnConnectionStateChangedItem
  simp only [updateItem_heap_ne _ _ _ h, modify_heap_ne _ _ _ _ h]
  split_ifs <;> simp only [modify_heap_ne _ _ _ _ h]

theorem activeVpnConnectionStateChangedItem_state (state : VpnState) (m : NetworkModel)
    (q : Ptr) :
    ((activeVpnConnectionStateChangedItem state m q).heap q).connectionState
      = coarseVpnState state := by
  unfold NetworkModel.activeVpnConnectionStateChangedItem
  rw [updateItem_field (fun i => i.connectionState) (fun _ => rfl)]
  simp only [modify_heap_self, setVpnState_connectionState]
  cases state <;> simp [setConnectionState_connectionState, coarseVpnState]

theorem setConnectionState_activeConnectionPath (i : NetworkModelItem) (s : State) :
    (i.setConnectionState s).activeConnectionPath = i.activeConnectionPath := by
  unfold NetworkModelItem.setConnectionState NetworkModelItem.refreshIcon
    NetworkModelItem.setIcon
  split_ifs <;> rfl

theorem setVpnState_activeConnectionPath (i : NetworkModelItem) (s : VpnState) :
    (i.setVpnState s).activeConnectionPath = i.activeConnectionPath := by
  unfold NetworkModelItem.setVpnState
  split <;> rfl

theorem activeVpnConnectionStateChangedItem_path (state : VpnState) (m : NetworkModel)
    (q p : Ptr) :
    ((activeVpnConnectionStateChangedItem state m q).heap p).activeConnectionPath
      = (m.heap p).activeConnectionPath := by
  by_cases h : p = q
  · subst h
    unfold NetworkModel.activeVpnConnectionStateChangedItem
    rw [updateItem_field (fun i => i.activeConnectionPath) (fun _ => rfl)]
    simp only [modify_heap_self, setVpnState_activeConnectionPath]
    split_ifs <;>
      simp only [modify_heap_self, setConnectionState_activeConnectionPath]
  · rw [activeVpnConnectionStateChangedItem_heap_ne state m q p h]

theorem anchor_setConnectionState (i : NetworkModelItem) (s : State) :
    anchor (i.setConnectionState s) = anchor i := by
  unfold NetworkModelItem.setConnectionState NetworkModelItem.refreshIcon
    NetworkModelItem.setIcon
  split_ifs <;> rfl

theorem anchor_setVpnState (i : NetworkModelItem) (s : VpnState) :
    anchor (i.setVpnState s) = anchor i := by
  unfold NetworkModelItem.setVpnState
  split <;> rfl

theorem anchor_setRxBytes (i : NetworkModelItem) (n : Nat) :
    anchor (i.setRxBytes n) = anchor i := by
  unfold NetworkModelItem.setRxBytes
  split <;> rfl

theorem anchor_setTxBytes (i : NetworkModelItem) (n : Nat) :
    anchor (i.setTxBytes n) = anchor i := by
  unfold NetworkModelItem.setTxBytes
  split <;> rfl

theorem anchor_modify (m : NetworkModel) (q p : Ptr) (f : NetworkModelItem → NetworkModelItem)
    (hf : ∀ i, anchor (f i) = anchor i) :
    anchor ((m.modify q f).heap p) = anchor (m.heap p) := by
  by_cases h : p = q
  · subst h
    rw [modify_heap_self, hf]
  · rw [modify_heap_ne m q p f h]

theorem anchor_updateItem (m : NetworkModel) (q p : Ptr) :
    anchor ((m.updateItem q).heap p) = anchor (m.heap p) :=
  updateItem_field anchor (fun _ => rfl) m q p

theorem addActiveConnectionItem_list (activeConnection : ActiveConnection)
    (device : Option Device) (m : NetworkModel) (q : Ptr) :
    (addActiveConnectionItem activeConnection device m q).list = m.list := by
  unfold NetworkModel.addActiveConnectionItem
  simp only [updateItem_list]
  split_ifs <;> first | rfl | (cases device <;> simp only [modify_list] <;> split_ifs <;> rfl)

theorem addActiveConnectionItem_heap_ne (activeConnection : ActiveConnection)
    (device : Option Device) (m : NetworkModel) (q p : Ptr) (h : p ≠ q) :
    (addActiveConnectionItem activeConnection device m q).heap p = m.heap p := by
  unfold NetworkModel.addActiveConnectionItem
  simp only [updateItem_heap_ne _ _ _ h]
  split_ifs <;>
    first
    | rfl
    | (cases device <;> simp only [modify_heap_ne _ _ _ _ h] <;> split_ifs <;>
        simp only [modify_heap_ne _ _ _ _ h])

theorem addActiveConnectionItem_anchor (activeConnection : ActiveConnection)
    (device : Option Device) (m : NetworkModel) (q p : Ptr) :
    anchor ((addActiveConnectionItem activeConnection device m q).heap p)
      = anchor (m.heap p) := by
  have h1 : ∀ (m : NetworkModel) (s : State),
      anchor ((m.modify q (fun i => i.setConnectionState s)).heap p) = anchor (m.heap p) :=
    fun m s => anchor_modify m q p _ (fun i => anchor_setConnectionState i s)
  have h2 : ∀ (m : NetworkModel) (s : VpnState),
      anchor ((m.modify q (fun i => i.setVpnState s)).heap p) = anchor (m.heap p) :=
    fun m s => anchor_modify m q p _ (fun i => anchor_setVpnState i s)
  have h3 : ∀ (m : NetworkModel) (s : String),
      anchor ((m.modify q (fun i => i.setActiveConnectionPath s)).heap p)
        = anchor (m.heap p) :=
    fun m s => anchor_modify m q p _ (fun _ => rfl)
  have h4 : ∀ (m : NetworkModel),
      anchor ((m.modify q NetworkModelItem.invalidateDetails).heap p) = anchor (m.heap p) :=
    fun m => anchor_modify m q p _ (fun _ => rfl)
  have h5 : ∀ (m : NetworkModel) (n : Nat),
      anchor ((m.modify q (fun i => i.setRxBytes n)).heap p) = anchor (m.heap p) :=
    fun m n => anchor_modify m q p _ (fun i => anchor_setRxBytes i n)
  have h6 : ∀ (m : NetworkModel) (n : Nat),
      anchor ((m.modify q (fun i => i.setTxBytes n)).heap p) = anchor (m.heap p) :=
    fun m n => anchor_modify m q p _ (fun i => anchor_setTxBytes i n)
  unfold NetworkModel.addActiveConnectionItem
  simp only [anchor_updateItem]
  split_ifs <;>
    first
    | rfl
    | (cases device <;> simp only [h1, h2, h3, h4, h5, h6] <;> split_ifs <;>
        simp only [h1, h2, h3, h4, h5, h6])

theorem addActiveConnectionItem_vpn_state (activeConnection : ActiveConnection)
    (m : NetworkModel) (q : Ptr) (hvpn : activeConnection.vpn = true)
    (hguard : (m.heap q).devicePath = "" ∨ (m.heap q).type = ConnectionType.Vpn) :
    ((addActiveConnectionItem activeConnection none m q).heap q).connectionState
      = coarseVpnState activeConnection.vpnState := by
  have hg : ((false || isEmpty (m.heap q).devicePath) ||
      (m.heap q).type == ConnectionType.Vpn) = true := by
    rcases hguard with h | h
    · simp [isEmpty, h]
    · simp [h]
  unfold NetworkModel.addActiveConnectionItem
  rw [updateItem_field (fun i => i.connectionState) (fun _ => rfl)]
  simp only [hg, hvpn, if_true, modify_heap_self, setVpnState_connectionState]
  have hinv : ∀ i : NetworkModelItem, i.invalidateDetails.connectionState
      = i.connectionState := fun _ => rfl
  rw [hinv, setVpnState_connectionState]
  cases activeConnection.vpnState <;>
    simp [setConnectionState_connectionState, coarseVpnState]

/-- C8: the connection state stored for a VPN connection state s is one of three values,
Activating for Prepare, NeedAuth, Connecting and GettingIpConfig, Activated for Activated
and Deactivated for every other s (the mapping `coarseVpnState`); after
activeVpnConnectionStateChanged every row of the active connection has that state, and
after addActiveConnection for a VPN active connection in VPN state s every row of its
connection that has no device or is of type Vpn has that state. -/
theorem vpn_state_collapsed (s : VpnState) :
    (coarseVpnState s = State.Activating ∨ coarseVpnState s = State.Activated ∨
      coarseVpnState s = State.Deactivated) ∧
    (∀ (m : NetworkModel) (path : String) (p : Ptr),
      p ∈ (activeVpnConnectionStateChanged m (some path) s).list →
      ((activeVpnConnectionStateChanged m (some path) s).heap p).activeConnectionPath = path →
      ((activeVpnConnectionStateChanged m (some path) s).heap p).connectionState
        = coarseVpnState s) ∧
    (∀ (nm : Manager) (unset : Unset) (m : NetworkModel) (activeConnection : ActiveConnection)
      (p : Ptr),
      activeConnection.vpn = true → activeConnection.vpnState = s →
      p ∈ (addActiveConnection nm unset m activeConnection).list →
      ((addActiveConnection nm unset m activeConnection).heap p).uuid
        = activeConnection.connection.uuid →
      (((addActiveConnection nm unset m activeConnection).heap p).devicePath = "" ∨
        ((addActiveConnection nm unset m activeConnection).heap p).type
          = ConnectionType.Vpn) →
      ((addActiveConnection nm unset m activeConnection).heap p).connectionState
        = coarseVpnState s) := by
  refine ⟨by cases s <;> simp [coarseVpnState], ?_, ?_⟩
  · intro m path p hp hpath
    unfold NetworkModel.activeVpnConnectionStateChanged at hp hpath ⊢
    simp only at hp hpath ⊢
    rw [foldl_list _ (activeVpnConnectionStateChangedItem_list s)] at hp
    rw [foldl_field _ (fun i => i.activeConnectionPath)
      (activeVpnConnectionStateChangedItem_path s)] at hpath
    have hmem : p ∈ m.returnItems FilterType.ActiveConnection path :=
      (mem_returnItems m _ _ p).2 ⟨hp, hpath⟩
    exact foldl_heap_of_mem _ (fun i => i.connectionState = coarseVpnState s)
      (activeVpnConnectionStateChangedItem_heap_ne s)
      (activeVpnConnectionStateChangedItem_state s) _ m p hmem
  · intro nm unset m activeConnection p hvpn hs hp huuid hguard
    have hdev : (match activeConnection.devices with
        | first :: _ =>
          if !activeConnection.vpn then nm.findNetworkInterface first else none
        | [] => none) = (none : Option Device) := by
      cases activeConnection.devices <;> simp [hvpn]
    unfold NetworkModel.addActiveConnection at hp huuid hguard ⊢
    simp only [hdev] at hp huuid hguard ⊢
    generalize (if (!m.contains FilterType.Uuid activeConnection.connection.uuid) = true
      then addConnection unset m activeConnection.connection else m) = m1
      at hp huuid hguard ⊢
    rw [foldl_list _ (addActiveConnectionItem_list activeConnection none)] at hp
    have hanchor := foldl_field _ anchor
      (addActiveConnectionItem_anchor activeConnection none)
      (m1.returnItems FilterType.Uuid activeConnection.connection.uuid) m1 p
    have hmem : p ∈ m1.returnItems FilterType.Uuid activeConnection.connection.uuid := by
      refine (mem_returnItems m1 _ _ p).2 ⟨hp, ?_⟩
      have := congrArg Prod.fst hanchor
      simp only [anchor] at this
      simp only [filterKey]
      rw [← this]
      exact huuid
    have hP := foldl_heap_of_mem _
      (fun i => (i.devicePath = "" ∨ i.type = ConnectionType.Vpn) →
        i.connectionState = coarseVpnState s)
      (addActiveConnectionItem_heap_ne activeConnection none)
      (fun m q hg => by
        have ha := addActiveConnectionItem_anchor activeConnection none m q q
        have h1 := congrArg (fun a => a.2.1) ha
        have h2 := congrArg (fun a => a.2.2) ha
        simp only [anchor] at h1 h2
        rw [h1, h2] at hg
        rw [← hs]
        exact addActiveConnectionItem_vpn_state activeConnection m q hvpn hg)
      _ m1 p hmem
    exact hP hguard

theorem vpn_state_collapsed_witness :
    ((activeVpnConnectionStateChanged sampleVpnModel (some "/ac/1")
        VpnState.Connecting).heap 0).connectionState = State.Activating ∧
    ((addActiveConnection sampleManager sampleUnset sampleVpnModel sampleVpnActive).heap
        0).connectionState = State.Activating :=
  ⟨(vpn_state_collapsed VpnState.Connecting).2.1 sampleVpnModel "/ac/1" 0
      (by decide) (by decide),
   (vpn_state_collapsed VpnState.NeedAuth).2.2 sampleManager sampleUnset sampleVpnModel
      sampleVpnActive 0 rfl rfl (by decide) (by decide) (Or.inl (by decide))⟩

/-! ### Merging an access point row into a connection row -/

theorem ident_setDeviceName (i : NetworkModelItem) (s : String) :
    ident (i.setDeviceName s) = ident i := by
  unfold NetworkModelItem.setDeviceName
  split <;> rfl

theorem ident_setDeviceState (i : NetworkModelItem) (s : DeviceState) :
    ident (i.setDeviceState s) = ident i := by
  unfold NetworkModelItem.setDeviceState
  split <;> rfl

theorem ident_setSpecificPath (i : NetworkModelItem) (s : String) :
    ident (i.setSpecificPath s) = ident i := by
  unfold NetworkModelItem.setSpecificPath
  split <;> rfl

theorem ident_setSignal (i : NetworkModelItem) (s : Int) :
    ident (i.setSignal s) = ident i := by
  unfold NetworkModelItem.setSignal NetworkModelItem.refreshIcon NetworkModelItem.setIcon
  split_ifs <;> rfl

theorem ident_setSecurityType (i : NetworkModelItem) (s : WirelessSecurityType) :
    ident (i.setSecurityType s) = ident i := by
  unfold NetworkModelItem.setSecurityType NetworkModelItem.refreshIcon
    NetworkModelItem.setIcon
  split_ifs <;> rfl

theorem ident_setDevicePath (i : NetworkModelItem) (d : String) :
    ident (i.setDevicePath d) = (i.connectionPath, d, i.type, i.ssid, i.mode) := by
  unfold NetworkModelItem.setDevicePath
  by_cases h : i.devicePath = d
  · simp [h, ident]
  · simp [h, ident]

theorem onlyTouches_refl (item : Ptr) (m : NetworkModel) : OnlyTouches item m m :=
  ⟨rfl, fun _ _ => rfl, rfl⟩

theorem onlyTouches_trans {item : Ptr} {a b c : NetworkModel}
    (h1 : OnlyTouches item a b) (h2 : OnlyTouches item b c) : OnlyTouches item a c :=
  ⟨h2.1.trans h1.1, fun p hp => (h2.2.1 p hp).trans (h1.2.1 p hp), h2.2.2.trans h1.2.2⟩

theorem onlyTouches_modify (item : Ptr) (m : NetworkModel)
    (f : NetworkModelItem → NetworkModelItem) (hf : ∀ i, ident (f i) = ident i) :
    OnlyTouches item m (m.modify item f) :=
  ⟨rfl, fun p hp => modify_heap_ne m item p f hp, by rw [modify_heap_self, hf]⟩

theorem onlyTouches_updateItem (item : Ptr) (m : NetworkModel) :
    OnlyTouches item m (m.updateItem item) :=
  ⟨updateItem_list m item, fun p hp => updateItem_heap_ne m item p hp,
    updateItem_field ident (fun _ => rfl) m item item⟩

theorem onlyTouches_foldl {β : Type} (item : Ptr) (g : NetworkModel → β → NetworkModel)
    (hg : ∀ m b, OnlyTouches item m (g m b)) (l : List β) (m : NetworkModel) :
    OnlyTouches item m (l.foldl g m) := by
  induction l generalizing m with
  | nil => exact onlyTouches_refl item m
  | cons b rest ih => exact onlyTouches_trans (hg m b) (ih (g m b))

theorem onlyTouches_updateFromWirelessNetwork (nm : Manager) (m : NetworkModel) (item : Ptr)
    (network : WirelessNetwork) :
    OnlyTouches item m (updateFromWirelessNetwork nm m item network) := by
  unfold NetworkModel.updateFromWirelessNetwork
  refine onlyTouches_trans ?_ (onlyTouches_updateItem item _)
  refine onlyTouches_trans ?_
    (onlyTouches_modify item _ _ (fun i => ident_setSecurityType i _))
  split
  · split
    · split_ifs
      · refine onlyTouches_foldl item _ ?_ _ m
        intro m1 ap
        split_ifs
        · exact onlyTouches_trans (onlyTouches_modify item m1 _ (fun i => ident_setSignal i _))
            (onlyTouches_modify item _ _ (fun i => ident_setSpecificPath i _))
        · exact onlyTouches_refl item m1
      · split
        · exact onlyTouches_trans (onlyTouches_modify item m _ (fun i => ident_setSignal i _))
            (onlyTouches_modify item _ _ (fun i => ident_setSpecificPath i _))
        · exact onlyTouches_modify item m _ (fun i => ident_setSignal i _)
    · exact onlyTouches_refl item m
  · exact onlyTouches_refl item m

theorem setDeviceOfItem_list (device : Device) (m : NetworkModel) (item : Ptr) :
    (setDeviceOfItem device m item).list = m.list := by
  unfold NetworkModel.setDeviceOfItem
  cases device.modemSignal <;> simp only [modify_list] <;> split_ifs <;> rfl

theorem setDeviceOfItem_heap_ne (device : Device) (m : NetworkModel) (item p : Ptr)
    (h : p ≠ item) : (setDeviceOfItem device m item).heap p = m.heap p := by
  unfold NetworkModel.setDeviceOfItem
  cases device.modemSignal <;> simp only [modify_heap_ne _ _ _ _ h] <;> split_ifs <;>
    simp only [modify_heap_ne _ _ _ _ h]

theorem setDeviceOfItem_ident (device : Device) (m : NetworkModel) (item : Ptr) :
    ident ((setDeviceOfItem device m item).heap item)
      = ((m.heap item).connectionPath, device.uni, (m.heap item).type, (m.heap item).ssid,
          (m.heap item).mode) := by
  have hn : ∀ (i : NetworkModelItem) (s : String),
      (i.setDeviceName s).connectionPath = i.connectionPath ∧
      (i.setDeviceName s).type = i.type ∧ (i.setDeviceName s).ssid = i.ssid ∧
      (i.setDeviceName s).mode = i.mode := by
    intro i s
    have h := ident_setDeviceName i s
    simp only [ident, Prod.mk.injEq] at h
    exact ⟨h.1, h.2.2.1, h.2.2.2.1, h.2.2.2.2⟩
  unfold NetworkModel.setDeviceOfItem
  cases device.modemSignal <;>
    simp only [modify_heap_self, ident_setSignal, ident_setDeviceState, ident_setDevicePath] <;>
    split_ifs <;>
    simp only [modify_heap_self, hn]

theorem removeRow_heap (m : NetworkModel) (a : Ptr) : (m.removeRow a).heap = m.heap := by
  unfold NetworkModel.removeRow
  cases m.indexOf a <;> rfl

theorem removeRow_list (m : NetworkModel) (a : Ptr) :
    (m.removeRow a).list = m.list.filter (fun p => p != a) := by
  unfold NetworkModel.removeRow
  cases h : m.indexOf a with
  | some row => rfl
  | none =>
    simp only [NetworkModel.indexOf, List.indexOf?_eq_none_iff] at h
    symm
    rw [List.filter_eq_self]
    intro x hx
    simpa using h x hx

theorem mergeAccessPoint_eq (status : Status) (item : Ptr) (items : List Ptr)
    (m : NetworkModel) :
    mergeAccessPoint status item items m =
      match items.find? (fun q =>
          (m.heap q).itemType status == ItemType.AvailableAccessPoint &&
            (m.heap q).devicePath == (m.heap item).devicePath) with
      | some a => m.removeRow a
      | none => m := by
  induction items with
  | nil => rfl
  | cons q rest ih =>
    unfold NetworkModel.mergeAccessPoint
    by_cases h : ((m.heap q).itemType status == ItemType.AvailableAccessPoint &&
        (m.heap q).devicePath == (m.heap item).devicePath) = true
    · simp only [h, if_true, List.find?_cons_of_pos]
    · simp only [Bool.not_eq_true] at h
      simp only [h, Bool.false_eq_true, if_false, List.find?_cons_of_neg, not_false_eq_true]
      exact ih

theorem addAvailableConnectionLoop_eq (nm : Manager) (device : Device) (items : List Ptr)
    (m : NetworkModel) :
    addAvailableConnectionLoop nm device items m =
      match items.find? (fun p => isEmpty (m.heap p).devicePath) with
      | some item => attachDevice nm device m item
      | none => m := by
  induction items with
  | nil => rfl
  | cons q rest ih =>
    unfold NetworkModel.addAvailableConnectionLoop
    by_cases h : isEmpty (m.heap q).devicePath = true
    · simp [h]
    · simp only [Bool.not_eq_true] at h
      simp only [h, Bool.not_false, if_true, List.find?_cons_of_neg, Bool.false_eq_true,
        not_false_eq_true]
      exact ih

theorem itemType_accessPoint_iff (status : Status) (i : NetworkModelItem) :
    i.itemType status = ItemType.AvailableAccessPoint ↔
      i.devicePath ≠ "" ∧ i.connectionPath = "" ∧ i.type = ConnectionType.Wireless := by
  unfold NetworkModelItem.itemType
  by_cases hw : i.type = ConnectionType.Wireless
  · by_cases hd : i.devicePath = "" <;> by_cases hc : i.connectionPath = "" <;>
      simp [hw, hd, hc, isEmpty]
  · constructor
    · intro h
      split_ifs at h with h1 h2
      · simp only [Bool.and_eq_true, beq_iff_eq] at h2
        exact absurd h2.2 hw
    · intro h
      exact absurd h.2.2 hw

theorem find?_congr_mem {α : Type} (l : List α) (f g : α → Bool)
    (h : ∀ x ∈ l, f x = g x) : l.find? f = l.find? g := by
  induction l with
  | nil => rfl
  | cons x xs ih =>
    have hx := h x (List.mem_cons_self _ _)
    have hxs : ∀ y ∈ xs, f y = g y := fun y hy => h y (List.mem_cons_of_mem _ hy)
    simp only [List.find?_cons, hx, ih hxs]

theorem isAccessPointRow_false_of_path (status : Status) (ssid devicePath : String)
    (i : NetworkModelItem) (h : i.connectionPath ≠ "") :
    isAccessPointRow status ssid devicePath i = false := by
  have hn : ¬ i.itemType status = ItemType.AvailableAccessPoint := by
    intro ha
    exact h ((itemType_accessPoint_iff status i).1 ha).2.1
  simp [isAccessPointRow, hn]

theorem isAccessPointRow_ident (status : Status) (ssid devicePath : String)
    (i j : NetworkModelItem) (h : ident i = ident j) :
    isAccessPointRow status ssid devicePath i = isAccessPointRow status ssid devicePath j := by
  simp only [ident, Prod.mk.injEq] at h
  obtain ⟨h1, h2, h3, h4, -⟩ := h
  simp only [isAccessPointRow, NetworkModelItem.itemType, h1, h2, h3, h4]

/-- What attaching a device does to the list when the item is a stored wireless connection
in Infrastructure mode and `a` is the first access point row for its SSID on the device:
that row is taken out, the item gets the device, the other items stay as they are. -/
theorem attachDevice_merge (nm : Manager) (device : Device) (m : NetworkModel)
    (item a : Ptr) (hpath : (m.heap item).connectionPath ≠ "")
    (htype : (m.heap item).type = ConnectionType.Wireless)
    (hmode : (m.heap item).mode = NetworkMode.Infrastructure)
    (ha : m.list.find? (fun p =>
      isAccessPointRow nm.status (m.heap item).ssid device.uni (m.heap p)) = some a) :
    (attachDevice nm device m item).list = m.list.filter (fun p => p != a) ∧
    (∀ p, p ≠ item → (attachDevice nm device m item).heap p = m.heap p) ∧
    ident ((attachDevice nm device m item).heap item)
      = ((m.heap item).connectionPath, device.uni, (m.heap item).type, (m.heap item).ssid,
          (m.heap item).mode) := by
  have hl2 := setDeviceOfItem_list device m item
  have hh2 := setDeviceOfItem_heap_ne device m item
  have hi2 := setDeviceOfItem_ident device m item
  unfold NetworkModel.attachDevice
  generalize setDeviceOfItem device m item = m2 at hl2 hh2 hi2 ⊢
  have hid := hi2
  simp only [ident, Prod.mk.injEq] at hid
  obtain ⟨hcp, hdp, hty, hss, hmo⟩ := hid
  have hcond : ((m2.heap item).type == ConnectionType.Wireless &&
      (m2.heap item).mode == NetworkMode.Infrastructure) = true := by
    simp [hty, hmo, htype, hmode]
  have hfind : (m2.returnItems FilterType.Ssid (m2.heap item).ssid).find? (fun q =>
      (m2.heap q).itemType nm.status == ItemType.AvailableAccessPoint &&
        (m2.heap q).devicePath == (m2.heap item).devicePath) = some a := by
    unfold NetworkModel.returnItems
    rw [List.find?_filter, hl2, ← ha]
    apply find?_congr_mem
    intro p _
    by_cases hp : p = item
    · subst hp
      have h1 : isAccessPointRow nm.status (m.heap p).ssid device.uni (m.heap p) = false :=
        isAccessPointRow_false_of_path _ _ _ _ hpath
      have h2 : ¬ (m2.heap p).itemType nm.status = ItemType.AvailableAccessPoint := by
        intro hap
        have := ((itemType_accessPoint_iff nm.status _).1 hap).2.1
        rw [hcp] at this
        exact hpath this
      simp [h1, h2]
    · rw [hh2 p hp, hss, hdp]
      simp only [filterKey, isAccessPointRow, Bool.and_assoc, Bool.decide_and,
        Bool.decide_eq_true]
  simp only [hcond, if_true]
  rw [mergeAccessPoint_eq, hfind]
  simp only
  have hl3 : (m2.removeRow a).list = m.list.filter (fun p => p != a) := by
    rw [removeRow_list, hl2]
  have hh3 : (m2.removeRow a).heap = m2.heap := removeRow_heap m2 a
  generalize m2.removeRow a = m3 at hl3 hh3 ⊢
  have hstep : ∃ m4, OnlyTouches item m3 m4 ∧
      (match device.wireless with
        | some networks =>
          match findNetwork networks (m3.heap item).ssid with
          | some wifiNetwork => updateFromWirelessNetwork nm m3 item wifiNetwork
          | none => m3
        | none => m3) = m4 := by
    refine ⟨_, ?_, rfl⟩
    split
    · split
      · exact onlyTouches_updateFromWirelessNetwork nm m3 item _
      · exact onlyTouches_refl item m3
    · exact onlyTouches_refl item m3
  obtain ⟨m4, h4, heq⟩ := hstep
  rw [heq]
  have h5 := onlyTouches_trans h4 (onlyTouches_updateItem item m4)
  obtain ⟨h5l, h5h, h5i⟩ := h5
  refine ⟨by rw [h5l, hl3], ?_, ?_⟩
  · intro p hp
    rw [h5h p hp, hh3, hh2 p hp]
  · rw [h5i, hh3, hi2]

theorem checkAndCreateDuplicate_extends (status : Status) (unset : Unset) (m : NetworkModel)
    (connection deviceUni : String) (hwf : m.WellFormed) :
    ∃ extra, (checkAndCreateDuplicate status unset m connection deviceUni).list
        = m.list ++ extra ∧
      (∀ p ∈ extra, ((checkAndCreateDuplicate status unset m connection deviceUni).heap
        p).connectionPath = connection) ∧
      (∀ p ∈ m.list,
        (checkAndCreateDuplicate status unset m connection deviceUni).heap p = m.heap p) := by
  by_cases h : m.reachableFromOtherDevice status connection deviceUni
  · obtain ⟨original, -, -, -, hpath, heq⟩ :=
      checkAndCreateDuplicate_of_reachable status unset m connection deviceUni h
    rw [heq]
    refine ⟨[m.next], rfl, ?_, ?_⟩
    · intro p hp
      rw [List.mem_singleton] at hp
      subst hp
      simp [NetworkModel.insertRow, NetworkModel.emit, NetworkModel.insertItem,
        NetworkModel.modify, NetworkModel.alloc, NetworkModelItem.copy,
        NetworkModelItem.invalidateDetails, hpath]
    · intro p hp
      have hne : p ≠ m.next := Nat.ne_of_lt (hwf.2 p hp)
      simp [NetworkModel.insertRow, NetworkModel.emit, NetworkModel.insertItem,
        NetworkModel.modify, NetworkModel.alloc, Function.update_noteq hne]
  · rw [checkAndCreateDuplicate_of_not status unset m connection deviceUni h]
    exact ⟨[], by simp, by simp, fun _ _ => rfl⟩

/-- C9, amended: when addAvailableConnection attaches device d to a stored wireless
connection item in Infrastructure mode with SSID s (the first row with the connection path
and no device, once the duplicate check has run) while the list holds an
AvailableAccessPoint row with SSID s and device path d, the first such row is taken out of
the list and the connection item stays, now with device path d; when that row is the only
access point row with SSID s and device path d, none remains afterwards. -/
theorem addAvailableConnection_merge (nm : Manager) (unset : Unset) (m m1 : NetworkModel)
    (connection ssid : String) (device : Device) (item : Ptr)
    (hwf : m.WellFormed) (hconnection : connection ≠ "")
    (hm1 : m1 = checkAndCreateDuplicate nm.status unset m connection device.uni)
    (hitem : (m1.returnItems FilterType.Connection connection).find?
      (fun p => isEmpty (m1.heap p).devicePath) = some item)
    (htype : (m1.heap item).type = ConnectionType.Wireless)
    (hmode : (m1.heap item).mode = NetworkMode.Infrastructure)
    (hssid : (m1.heap item).ssid = ssid)
    (hap : ∃ p ∈ m.list, isAccessPointRow nm.status ssid device.uni (m.heap p) = true) :
    ∃ a, m.list.find? (fun p => isAccessPointRow nm.status ssid device.uni (m.heap p))
        = some a ∧
      (addAvailableConnection nm unset m connection (some device)).list
        = m1.list.filter (fun p => p != a) ∧
      a ∉ (addAvailableConnection nm unset m connection (some device)).list ∧
      item ∈ (addAvailableConnection nm unset m connection (some device)).list ∧
      ((addAvailableConnection nm unset m connection (some device)).heap item).connectionPath
        = connection ∧
      ((addAvailableConnection nm unset m connection (some device)).heap item).devicePath
        = device.uni ∧
      ((∀ b ∈ m.list, isAccessPointRow nm.status ssid device.uni (m.heap b) = true → b = a) →
        ∀ p ∈ (addAvailableConnection nm unset m connection (some device)).list,
          isAccessPointRow nm.status ssid device.uni
            ((addAvailableConnection nm unset m connection (some device)).heap p) = false) := by
  obtain ⟨extra, hlist, hextra, hsame⟩ :=
    checkAndCreateDuplicate_extends nm.status unset m connection device.uni hwf
  rw [← hm1] at hlist hextra hsame
  -- the first access point row of the list
  have hsome : (m.list.find?
      (fun p => isAccessPointRow nm.status ssid device.uni (m.heap p))).isSome = true := by
    rw [List.find?_isSome]
    obtain ⟨p, hp, hrow⟩ := hap
    exact ⟨p, hp, hrow⟩
  obtain ⟨a, ha⟩ := Option.isSome_iff_exists.1 hsome
  have hamem : a ∈ m.list := List.mem_of_find?_eq_some ha
  have harow : isAccessPointRow nm.status ssid device.uni (m.heap a) = true :=
    List.find?_some (p := fun p => isAccessPointRow nm.status ssid device.uni (m.heap p)) ha
  -- the item that gets the device
  have himem := List.mem_of_find?_eq_some hitem
  rw [mem_returnItems] at himem
  obtain ⟨hil, hipath⟩ := himem
  simp only [filterKey] at hipath
  have hipath1 : (m1.heap item).connectionPath ≠ "" := by rw [hipath]; exact hconnection
  have hne : item ≠ a := by
    intro he
    have h1 := isAccessPointRow_false_of_path nm.status ssid device.uni _ hipath1
    rw [he, hsame a hamem, harow] at h1
    exact Bool.noConfusion h1
  -- the same row is the first access point row after the duplicate check
  have ha1 : m1.list.find? (fun p =>
      isAccessPointRow nm.status (m1.heap item).ssid device.uni (m1.heap p)) = some a := by
    rw [hssid, hlist, List.find?_append]
    have : m.list.find? (fun p => isAccessPointRow nm.status ssid device.uni (m1.heap p))
        = some a := by
      rw [← ha]
      exact find?_congr_mem _ _ _ (fun p hp => by rw [hsame p hp])
    rw [this]
    rfl
  obtain ⟨hrl, hrh, hri⟩ :=
    attachDevice_merge nm device m1 item a hipath1 htype hmode ha1
  have hrun : addAvailableConnection nm unset m connection (some device)
      = attachDevice nm device m1 item := by
    unfold NetworkModel.addAvailableConnection
    simp only
    rw [← hm1, addAvailableConnectionLoop_eq, hitem]
  rw [hrun]
  simp only [ident, Prod.mk.injEq] at hri
  obtain ⟨hrc, hrd, -, -, -⟩ := hri
  refine ⟨a, ha, hrl, ?_, ?_, ?_, hrd, ?_⟩
  · rw [hrl]
    simp
  · rw [hrl, List.mem_filter]
    exact ⟨hil, by simpa using hne⟩
  · rw [hrc, hipath]
  · intro huniq p hp
    rw [hrl, List.mem_filter] at hp
    obtain ⟨hpl, hpa⟩ := hp
    have hpa1 : p ≠ a := by simpa using hpa
    by_cases hpi : p = item
    · subst hpi
      apply isAccessPointRow_false_of_path
      rw [hrc]
      exact hipath1
    · rw [hrh p hpi]
      rw [hlist, List.mem_append] at hpl
      rcases hpl with hpm | hpe
      · rw [hsame p hpm]
        cases hrow : isAccessPointRow nm.status ssid device.uni (m.heap p)
        · rfl
        · exact absurd (huniq p hpm hrow) hpa1
      · apply isAccessPointRow_false_of_path
        rw [hextra p hpe]
        exact hconnection

/-- C9, as stated, fails: the stored wireless connection home in Adhoc mode gets the
device /d/0 while the list holds exactly one access point row with SSID home on /d/0,
and that access point row is still in the list afterwards. -/
theorem addAvailableConnection_merge_counterexample :
    ¬ (∀ (nm : Manager) (unset : Unset) (m m1 : NetworkModel) (connection ssid : String)
        (device : Device) (item : Ptr),
        m.WellFormed → connection ≠ "" →
        m1 = checkAndCreateDuplicate nm.status unset m connection device.uni →
        (m1.returnItems FilterType.Connection connection).find?
          (fun p => isEmpty (m1.heap p).devicePath) = some item →
        (m1.heap item).type = ConnectionType.Wireless →
        (m1.heap item).ssid = ssid →
        (∃ a ∈ m.list, isAccessPointRow nm.status ssid device.uni (m.heap a) = true ∧
          ∀ b ∈ m.list, isAccessPointRow nm.status ssid device.uni (m.heap b) = true → b = a) →
        ∀ p ∈ (addAvailableConnection nm unset m connection (some device)).list,
          isAccessPointRow nm.status ssid device.uni
            ((addAvailableConnection nm unset m connection (some device)).heap p) = false) := by
  intro h
  have h1 := h sampleManager sampleUnset (sampleModel NetworkMode.Adhoc)
    (sampleModel NetworkMode.Adhoc) "/c/1" "home" sampleDevice 0
    ⟨by decide, by decide⟩ (by decide) rfl (by decide) (by decide) (by decide)
    ⟨1, by decide, by decide, by decide⟩ 1 (by decide)
  revert h1
  decide

theorem addAvailableConnection_merge_witness :
    (addAvailableConnection sampleManager sampleUnset (sampleModel NetworkMode.Infrastructure)
      "/c/1" (some sampleDevice)).list = [0] ∧
    ((addAvailableConnection sampleManager sampleUnset (sampleModel NetworkMode.Infrastructure)
      "/c/1" (some sampleDevice)).heap 0).devicePath = "/d/0" := by
  obtain ⟨a, ha, hl, -, -, -, hd, -⟩ :=
    addAvailableConnection_merge sampleManager sampleUnset
      (sampleModel NetworkMode.Infrastructure) (sampleModel NetworkMode.Infrastructure)
      "/c/1" "home" sampleDevice 0
      ⟨by decide, by decide⟩ (by decide) rfl (by decide) (by decide) (by decide)
      (by decide) ⟨1, by decide, by decide⟩
  have h1 : (sampleModel NetworkMode.Infrastructure).list.find?
      (fun p => isAccessPointRow sampleManager.status "home" sampleDevice.uni
        ((sampleModel NetworkMode.Infrastructure).heap p)) = some 1 := by decide
  rw [h1] at ha
  have ha1 : a = 1 := (Option.some.inj ha).symm
  subst ha1
  exact ⟨by rw [hl]; decide, hd⟩

theorem checkAndCreateDuplicate_spec_witness :
    (checkAndCreateDuplicate Status.Connected sampleUnset sampleOtherDeviceModel "/c/1"
      "/d/0").list = [0, 1] ∧
    ((checkAndCreateDuplicate Status.Connected sampleUnset sampleOtherDeviceModel "/c/1"
      "/d/0").heap 1).duplicate = true ∧
    ((checkAndCreateDuplicate Status.Connected sampleUnset sampleOtherDeviceModel "/c/1"
      "/d/0").heap 1).devicePath = "" := by
  obtain ⟨original, -, -, -, -, hl, -, hdup, -, -, -, -, -, -, -, -, -, -, hdev⟩ :=
    (checkAndCreateDuplicate_spec Status.Connected sampleUnset sampleOtherDeviceModel "/c/1"
      "/d/0").2.2 ⟨0, by decide, by decide, by decide, by decide, by decide, by decide⟩
  exact ⟨hl, hdup, hdev⟩

theorem itemType_unavailable_iff (status : Status) (i : NetworkModelItem) :
    i.itemType status = ItemType.UnavailableConnection ↔
      i.devicePath = "" ∧ i.type ≠ ConnectionType.Bond ∧ i.type ≠ ConnectionType.Bridge ∧
      i.type ≠ ConnectionType.Vlan ∧ i.type ≠ ConnectionType.Team ∧
      ¬ ((i.type = ConnectionType.Vpn ∨ i.type = ConnectionType.WireGuard) ∧
        (status = Status.Connected ∨ status = Status.ConnectedLinkLocal ∨
          status = Status.ConnectedSiteOnly)) := by
  unfold NetworkModelItem.itemType
  by_cases hd : i.devicePath = ""
  · cases ht : i.type <;> cases status <;> simp [hd, isEmpty]
  · have hb : (i.devicePath == "") = false := by simpa using hd
    simp only [isEmpty, hb, Bool.not_false, Bool.true_or, if_true, hd, false_and, iff_false]
    split <;> simp

/-- C19: the derived item type is a function of device path, connection path, type and
manager status: it is AvailableAccessPoint exactly when the device path is non-empty, the
connection path is empty and the type is Wireless; it is UnavailableConnection exactly
when the device path is empty, the type is none of Bond, Bridge, Vlan and Team, and it is
not the case that the type is Vpn or WireGuard while the manager status is Connected,
ConnectedLinkLocal or ConnectedSiteOnly; it is AvailableConnection in every other case. -/
theorem itemType_spec (status : Status) (i : NetworkModelItem) :
    (i.itemType status = ItemType.AvailableAccessPoint ↔
      i.devicePath ≠ "" ∧ i.connectionPath = "" ∧ i.type = ConnectionType.Wireless) ∧
    (i.itemType status = ItemType.UnavailableConnection ↔
      i.devicePath = "" ∧ i.type ≠ ConnectionType.Bond ∧ i.type ≠ ConnectionType.Bridge ∧
      i.type ≠ ConnectionType.Vlan ∧ i.type ≠ ConnectionType.Team ∧
      ¬ ((i.type = ConnectionType.Vpn ∨ i.type = ConnectionType.WireGuard) ∧
        (status = Status.Connected ∨ status = Status.ConnectedLinkLocal ∨
          status = Status.ConnectedSiteOnly))) ∧
    (i.itemType status = ItemType.AvailableConnection ↔
      ¬ (i.devicePath ≠ "" ∧ i.connectionPath = "" ∧ i.type = ConnectionType.Wireless) ∧
      ¬ (i.devicePath = "" ∧ i.type ≠ ConnectionType.Bond ∧ i.type ≠ ConnectionType.Bridge ∧
        i.type ≠ ConnectionType.Vlan ∧ i.type ≠ ConnectionType.Team ∧
        ¬ ((i.type = ConnectionType.Vpn ∨ i.type = ConnectionType.WireGuard) ∧
          (status = Status.Connected ∨ status = Status.ConnectedLinkLocal ∨
            status = Status.ConnectedSiteOnly)))) ∧
    (∀ j : NetworkModelItem, j.devicePath = i.devicePath →
      j.connectionPath = i.connectionPath → j.type = i.type →
      j.itemType status = i.itemType status) := by
  have hap := itemType_accessPoint_iff status i
  have hun := itemType_unavailable_iff status i
  refine ⟨hap, hun, ?_, ?_⟩
  · rw [← hap, ← hun]
    cases i.itemType status <;> simp
  · intro j h1 h2 h3
    unfold NetworkModelItem.itemType
    rw [h1, h2, h3]

/-- C16: calling a change-tracking setter with the value the field already holds leaves
the whole item unchanged: no role is added to the dirty-role set and the icon is not
changed. -/
theorem setter_same_value (i : NetworkModelItem) :
    i.setConnectionPath i.connectionPath = i ∧
    i.setConnectionState i.connectionState = i ∧
    i.setDeviceName i.deviceName = i ∧
    i.setDevicePath i.devicePath = i ∧
    i.setDeviceState i.deviceState = i ∧
    i.setName i.name = i ∧
    i.setSecurityType i.securityType = i ∧
    i.setSignal i.signal = i ∧
    i.setSlave i.slave = i ∧
    i.setSpecificPath i.specificPath = i ∧
    i.setSsid i.ssid = i ∧
    i.setTimestamp i.timestamp = i ∧
    i.setType i.type = i ∧
    i.setUuid i.uuid = i ∧
    i.setVpnState i.vpnState = i ∧
    i.setVpnType i.vpnType = i ∧
    i.setRxBytes i.rxBytes = i ∧
    i.setTxBytes i.txBytes = i ∧
    i.setMode i.mode = i := by
  refine ⟨?_, ?_, ?_, ?_, ?_, ?_, ?_, ?_, ?_, ?_, ?_, ?_, ?_, ?_, ?_, ?_, ?_, ?_, ?_⟩
  · simp [NetworkModelItem.setConnectionPath]
  · simp [NetworkModelItem.setConnectionState]
  · simp [NetworkModelItem.setDeviceName]
  · simp [NetworkModelItem.setDevicePath]
  · simp [NetworkModelItem.setDeviceState]
  · simp [NetworkModelItem.setName]
  · simp [NetworkModelItem.setSecurityType]
  · simp [NetworkModelItem.setSignal]
  · simp [NetworkModelItem.setSlave]
  · simp [NetworkModelItem.setSpecificPath]
  · simp [NetworkModelItem.setSsid]
  · simp [NetworkModelItem.setTimestamp]
  · simp [NetworkModelItem.setType]
  · simp [NetworkModelItem.setUuid]
  · simp [NetworkModelItem.setVpnState]
  · simp [NetworkModelItem.setVpnType]
  · simp [NetworkModelItem.setRxBytes]
  · simp [NetworkModelItem.setTxBytes]
  · simp [NetworkModelItem.setMode]

/-- C15 fails on the code: for the stored wireless connection home on the device /d/1,
with an empty dirty-role set, setConnectionPath with the empty path changes the item type
from AvailableConnection to AvailableAccessPoint and leaves ItemTypeRole out of the
dirty-role set, and setUuid with the empty uuid changes uni() and leaves UniRole out of
it. -/
theorem dirty_roles_incomplete :
    sampleOnOtherDevice.changedRoles = [] ∧
    sampleOnOtherDevice.itemType Status.Connected = ItemType.AvailableConnection ∧
    (sampleOnOtherDevice.setConnectionPath "").itemType Status.Connected
      = ItemType.AvailableAccessPoint ∧
    (sampleOnOtherDevice.setConnectionPath "").changedRoles
      = [ItemRole.ConnectionPathRole, ItemRole.UniRole] ∧
    ItemRole.ItemTypeRole ∉ (sampleOnOtherDevice.setConnectionPath "").changedRoles ∧
    sampleOnOtherDevice.uni = "/c/1%/d/1" ∧
    (sampleOnOtherDevice.setUuid "").uni = "home%/d/1" ∧
    (sampleOnOtherDevice.setUuid "").changedRoles = [ItemRole.UuidRole] ∧
    ItemRole.UniRole ∉ (sampleOnOtherDevice.setUuid "").changedRoles := by
  decide

theorem indexOf_eq_some_iff (m : NetworkModel) (item : Ptr) (row : Nat) :
    m.indexOf item = some row ↔
      m.list[row]? = some item ∧ ∀ j, j < row → m.list[j]? ≠ some item := by
  unfold NetworkModel.indexOf List.indexOf?
  rw [List.findIdx?_eq_some_iff_getElem]
  constructor
  · rintro ⟨h, hp, hlt⟩
    refine ⟨?_, ?_⟩
    · rw [List.getElem?_eq_getElem h]
      simpa using hp
    · intro j hj hc
      have hjl : j < m.list.length := Nat.lt_trans hj h
      rw [List.getElem?_eq_getElem hjl] at hc
      exact hlt j hj (by simpa using hc)
  · rintro ⟨hrow, hlt⟩
    obtain ⟨h, hget⟩ := List.getElem?_eq_some_iff.1 hrow
    refine ⟨h, by simpa using hget, ?_⟩
    intro j hj hc
    have hjl : j < m.list.length := Nat.lt_trans hj h
    apply hlt j hj
    rw [List.getElem?_eq_getElem hjl]
    simpa using hc

theorem indexOf_isSome_of_mem (m : NetworkModel) (item : Ptr) (h : item ∈ m.list) :
    ∃ row, m.indexOf item = some row := by
  cases hi : m.indexOf item with
  | some row => exact ⟨row, rfl⟩
  | none =>
    simp only [NetworkModel.indexOf, List.indexOf?_eq_none_iff] at hi
    exact absurd (by simp) (hi item h)

theorem indexOf_eq_none_of_not_mem (m : NetworkModel) (item : Ptr) (h : item ∉ m.list) :
    m.indexOf item = none := by
  simp only [NetworkModel.indexOf, List.indexOf?_eq_none_iff]
  intro x hx hc
  have : x = item := by simpa using hc
  exact h (this ▸ hx)

/-- C14: updateItem for an item that is in the list emits one row-changed notification,
for the row of that item, whose role set is the dirty-role set of the item with
ConnectionDetailsRole added by the invalidation, and leaves the item with an empty
dirty-role set; for an item that is not in the list it emits nothing and leaves the item,
its dirty-role set and its details-valid flag included, as it is. -/
theorem updateItem_spec (m : NetworkModel) (item : Ptr) :
    (item ∈ m.list →
      ∃ row, m.list[row]? = some item ∧
        (m.updateItem item).trace = m.trace ++
          [Event.dataChanged row
            ((m.heap item).changedRoles ++ [ItemRole.ConnectionDetailsRole])] ∧
        ((m.updateItem item).heap item).changedRoles = [] ∧
        (m.updateItem item).list = m.list) ∧
    (item ∉ m.list →
      (m.updateItem item).trace = m.trace ∧
      (m.updateItem item).heap item = m.heap item ∧
      ((m.updateItem item).heap item).changedRoles = (m.heap item).changedRoles ∧
      ((m.updateItem item).heap item).detailsValid = (m.heap item).detailsValid ∧
      (m.updateItem item).list = m.list) := by
  constructor
  · intro h
    obtain ⟨row, hrow⟩ := indexOf_isSome_of_mem m item h
    refine ⟨row, ((indexOf_eq_some_iff m item row).1 hrow).1, ?_, ?_, ?_⟩
    · unfold NetworkModel.updateItem
      rw [hrow]
      simp [NetworkModel.modify, NetworkModel.emit, NetworkModelItem.invalidateDetails]
    · unfold NetworkModel.updateItem
      rw [hrow]
      simp [NetworkModel.modify, NetworkModel.emit, NetworkModelItem.clearChangedRoles]
    · exact updateItem_list m item
  · intro h
    have hnone := indexOf_eq_none_of_not_mem m item h
    unfold NetworkModel.updateItem
    rw [hnone]
    exact ⟨rfl, rfl, rfl, rfl, rfl⟩

theorem updateItem_spec_witness :
    ((sampleModel NetworkMode.Infrastructure).updateItem 1).trace
      = [Event.dataChanged 1 [ItemRole.ConnectionDetailsRole]] ∧
    ((sampleModel NetworkMode.Infrastructure).updateItem 5).trace = [] := by
  obtain ⟨row, hrow, htrace, -, -⟩ :=
    (updateItem_spec (sampleModel NetworkMode.Infrastructure) 1).1 (by decide)
  have h5 := (updateItem_spec (sampleModel NetworkMode.Infrastructure) 5).2 (by decide)
  refine ⟨?_, h5.1⟩
  have hr : row = 1 := by
    have hlt : row < 2 := by
      have := (List.getElem?_eq_some_iff.1 hrow).1
      simpa [sampleModel] using this
    interval_cases row
    · exact absurd hrow (by decide)
    · rfl
  rw [htrace, hr]
  rfl

theorem rowFields_setIcon (i : NetworkModelItem) (p : String) :
    rowFields (i.setIcon p) = rowFields i := by
  unfold NetworkModelItem.setIcon
  split <;> rfl

theorem rowFields_refreshIcon (i : NetworkModelItem) :
    rowFields i.refreshIcon = rowFields i :=
  rowFields_setIcon i _

theorem rowFields_invalidateDetails (i : NetworkModelItem) :
    rowFields i.invalidateDetails = rowFields i := rfl

theorem rowFields_clearChangedRoles (i : NetworkModelItem) :
    rowFields i.clearChangedRoles = rowFields i := rfl

theorem rowFields_setConnectionPath (i : NetworkModelItem) (p : String) :
    rowFields (i.setConnectionPath p) = { rowFields i with connectionPath := p } := by
  unfold NetworkModelItem.setConnectionPath
  by_cases h : i.connectionPath = p
  · simp [h, rowFields]
  · simp [h, rowFields]

theorem rowFields_setName (i : NetworkModelItem) (p : String) :
    rowFields (i.setName p) = { rowFields i with name := p } := by
  unfold NetworkModelItem.setName
  by_cases h : i.name = p
  · simp [h, rowFields]
  · simp [h, rowFields]

theorem rowFields_setTimestamp (i : NetworkModelItem) (p : QDateTime) :
    rowFields (i.setTimestamp p) = { rowFields i with timestamp := p } := by
  unfold NetworkModelItem.setTimestamp
  by_cases h : i.timestamp = p
  · simp [h, rowFields]
  · simp [h, rowFields]

theorem rowFields_setType (i : NetworkModelItem) (p : ConnectionType) :
    rowFields (i.setType p) = { rowFields i with type := p } := by
  unfold NetworkModelItem.setType
  by_cases h : i.type = p
  · simp [h, rowFields]
  · simp only [bne_iff_ne, ne_eq, h, not_false_eq_true, if_true, rowFields_refreshIcon]
    rfl

theorem rowFields_setUuid (i : NetworkModelItem) (p : String) :
    rowFields (i.setUuid p) = { rowFields i with uuid := p } := by
  unfold NetworkModelItem.setUuid
  by_cases h : i.uuid = p
  · simp [h, rowFields]
  · simp [h, rowFields]

theorem rowFields_setSlave (i : NetworkModelItem) (p : Bool) :
    rowFields (i.setSlave p) = { rowFields i with slave := p } := by
  unfold NetworkModelItem.setSlave
  by_cases h : i.slave = p
  · simp [h, rowFields]
  · simp [h, rowFields]

theorem rowFields_setVpnType (i : NetworkModelItem) (p : String) :
    rowFields (i.setVpnType p) = rowFields i := by
  unfold NetworkModelItem.setVpnType
  split <;> rfl

theorem rowFields_setMode (i : NetworkModelItem) (p : NetworkMode) :
    rowFields (i.setMode p) = { rowFields i with mode := p } := by
  unfold NetworkModelItem.setMode
  by_cases h : i.mode = p
  · simp [h, rowFields]
  · simp only [bne_iff_ne, ne_eq, h, not_false_eq_true, if_true, rowFields_refreshIcon]
    rfl

theorem rowFields_setSecurityType (i : NetworkModelItem) (p : WirelessSecurityType) :
    rowFields (i.setSecurityType p) = { rowFields i with securityType := p } := by
  unfold NetworkModelItem.setSecurityType
  by_cases h : i.securityType = p
  · simp [h, rowFields]
  · simp only [bne_iff_ne, ne_eq, h, not_false_eq_true, if_true, rowFields_refreshIcon]
    rfl

theorem rowFields_setSsid (i : NetworkModelItem) (p : String) :
    rowFields (i.setSsid p) = { rowFields i with ssid := p } := by
  unfold NetworkModelItem.setSsid
  by_cases h : i.ssid = p
  · simp [h, rowFields]
  · simp [h, rowFields]

theorem rowFields_setSignal (i : NetworkModelItem) (p : Int) :
    rowFields (i.setSignal p) = { rowFields i with signal := p } := by
  unfold NetworkModelItem.setSignal
  by_cases h : i.signal = p
  · simp [h, rowFields]
  · simp only [bne_iff_ne, ne_eq, h, not_false_eq_true, if_true, rowFields_refreshIcon]
    rfl

theorem rowFields_setDeviceName (i : NetworkModelItem) (p : String) :
    rowFields (i.setDeviceName p) = { rowFields i with deviceName := p } := by
  unfold NetworkModelItem.setDeviceName
  by_cases h : i.deviceName = p
  · simp [h, rowFields]
  · simp [h, rowFields]

theorem rowFields_setDevicePath (i : NetworkModelItem) (p : String) :
    rowFields (i.setDevicePath p) = { rowFields i with devicePath := p } := by
  unfold NetworkModelItem.setDevicePath
  by_cases h : i.devicePath = p
  · simp [h, rowFields]
  · simp [h, rowFields]

theorem rowFields_setSpecificPath (i : NetworkModelItem) (p : String) :
    rowFields (i.setSpecificPath p) = { rowFields i with specificPath := p } := by
  unfold NetworkModelItem.setSpecificPath
  by_cases h : i.specificPath = p
  · simp [h, rowFields]
  · simp [h, rowFields]

theorem rowFields_setDeviceState (i : NetworkModelItem) (p : DeviceState) :
    rowFields (i.setDeviceState p) = rowFields i := by
  unfold NetworkModelItem.setDeviceState
  split <;> rfl

theorem rowFields_setConnectionState (i : NetworkModelItem) (p : State) :
    rowFields (i.setConnectionState p) = { rowFields i with connectionState := p } := by
  unfold NetworkModelItem.setConnectionState
  by_cases h : i.connectionState = p
  · simp [h, rowFields]
  · simp only [bne_iff_ne, ne_eq, h, not_false_eq_true, if_true, rowFields_refreshIcon]
    rfl

/-- The item type of an item is decided by its row fields. -/
theorem itemType_rowFields (status : Status) (i j : NetworkModelItem)
    (h1 : (rowFields j).devicePath = (rowFields i).devicePath)
    (h2 : (rowFields j).connectionPath = (rowFields i).connectionPath)
    (h3 : (rowFields j).type = (rowFields i).type) :
    j.itemType status = i.itemType status := by
  simp only [rowFields] at h1 h2 h3
  unfold NetworkModelItem.itemType
  rw [h1, h2, h3]

theorem contains_eq_true_iff (m : NetworkModel) (type : FilterType) (parameter : String) :
    m.contains type parameter = true ↔
      ∃ p ∈ m.list, filterKey type (m.heap p) = parameter := by
  simp [NetworkModel.contains]

theorem addConnection_of_new (unset : Unset) (m : NetworkModel) (connection : Connection)
    (h1 : isEmpty connection.name = false) (h2 : isEmpty connection.uuid = false)
    (h3 : m.contains FilterType.Connection connection.path = false) :
    ∃ item, (rowFields item).connectionPath = connection.path ∧
      (rowFields item).name = connection.settings.id ∧
      (rowFields item).uuid = connection.settings.uuid ∧
      (rowFields item).type = connection.settings.connectionType ∧
      (rowFields item).timestamp = connection.settings.timestamp ∧
      (rowFields item).slave = connection.settings.isSlave ∧
      (rowFields item).connectionState = State.Deactivated ∧
      (rowFields item).devicePath = "" ∧
      (rowFields item).duplicate = false ∧
      addConnection unset m connection = (m.alloc item).1.insertRow m.next := by
  unfold NetworkModel.addConnection
  simp only [h1, h2, h3, Bool.or_self, Bool.false_eq_true, if_false]
  generalize hI : ((((((NetworkModelItem.new unset).setConnectionPath connection.path).setName
    connection.settings.id).setTimestamp connection.settings.timestamp).setType
    connection.settings.connectionType).setUuid connection.settings.uuid).setSlave
    connection.settings.isSlave = i
  have hi : rowFields i =
      { rowFields (NetworkModelItem.new unset) with
        connectionPath := connection.path, name := connection.settings.id,
        timestamp := connection.settings.timestamp,
        type := connection.settings.connectionType, uuid := connection.settings.uuid,
        slave := connection.settings.isSlave } := by
    rw [← hI]
    simp only [rowFields_setSlave, rowFields_setUuid, rowFields_setType,
      rowFields_setTimestamp, rowFields_setName, rowFields_setConnectionPath]
  refine ⟨_, ?_, ?_, ?_, ?_, ?_, ?_, ?_, ?_, ?_, rfl⟩
  all_goals rw [rowFields_invalidateDetails]
  all_goals split_ifs
  all_goals first
    | (simp only [rowFields_setVpnType, hi] <;> rfl)
    | (split <;>
        simp only [rowFields_setSsid, rowFields_setSecurityType, rowFields_setMode, hi] <;>
        rfl)

/-- C12: addConnection leaves the model as it is when the name or the uuid of the
connection is empty or some row already has the path of the connection; in every other
case it adds exactly one row, as the last one, which carries the path of the connection,
the id of its settings as name, and the uuid, type, timestamp and slave flag of its
settings, with connection state Deactivated and an empty device path. -/
theorem addConnection_spec (unset : Unset) (m : NetworkModel) (connection : Connection) :
    ((connection.name = "" ∨ connection.uuid = "" ∨
        ∃ p ∈ m.list, (m.heap p).connectionPath = connection.path) →
      addConnection unset m connection = m) ∧
    (¬ (connection.name = "" ∨ connection.uuid = "" ∨
        ∃ p ∈ m.list, (m.heap p).connectionPath = connection.path) →
      (addConnection unset m connection).list = m.list ++ [m.next] ∧
      (∀ p, p ≠ m.next → (addConnection unset m connection).heap p = m.heap p) ∧
      ((addConnection unset m connection).heap m.next).connectionPath = connection.path ∧
      ((addConnection unset m connection).heap m.next).name = connection.settings.id ∧
      ((addConnection unset m connection).heap m.next).uuid = connection.settings.uuid ∧
      ((addConnection unset m connection).heap m.next).type
        = connection.settings.connectionType ∧
      ((addConnection unset m connection).heap m.next).timestamp
        = connection.settings.timestamp ∧
      ((addConnection unset m connection).heap m.next).slave = connection.settings.isSlave ∧
      ((addConnection unset m connection).heap m.next).connectionState = State.Deactivated ∧
      ((addConnection unset m connection).heap m.next).devicePath = "") := by
  constructor
  · intro h
    unfold NetworkModel.addConnection
    rcases h with h | h | h
    · simp [isEmpty, h]
    · simp [isEmpty, h]
    · have hc : m.contains FilterType.Connection connection.path = true :=
        (contains_eq_true_iff m _ _).2 h
      simp [hc]
  · intro h
    have h1 : isEmpty connection.name = false := by
      simp only [isEmpty, beq_eq_false_iff_ne, ne_eq]
      exact fun hn => h (Or.inl hn)
    have h2 : isEmpty connection.uuid = false := by
      simp only [isEmpty, beq_eq_false_iff_ne, ne_eq]
      exact fun hn => h (Or.inr (Or.inl hn))
    have h3 : m.contains FilterType.Connection connection.path = false := by
      cases hc : m.contains FilterType.Connection connection.path
      · rfl
      · exact absurd (Or.inr (Or.inr ((contains_eq_true_iff m _ _).1 hc))) h
    obtain ⟨item, f1, f2, f3, f4, f5, f6, f7, f8, -, heq⟩ :=
      addConnection_of_new unset m connection h1 h2 h3
    rw [heq]
    have hheap : ((m.alloc item).1.insertRow m.next).heap m.next = item := by
      simp [NetworkModel.insertRow, NetworkModel.emit, NetworkModel.insertItem,
        NetworkModel.alloc]
    refine ⟨rfl, ?_, ?_⟩
    · intro p hp
      simp [NetworkModel.insertRow, NetworkModel.emit, NetworkModel.insertItem,
        NetworkModel.alloc, Function.update_noteq hp]
    · rw [hheap]
      exact ⟨f1, f2, f3, f4, f5, f6, f7, f8⟩

theorem insertRow_list (m : NetworkModel) (p : Ptr) :
    (m.insertRow p).list = m.list ++ [p] := rfl

theorem addConnection_list (unset : Unset) (m : NetworkModel) (connection : Connection) :
    (addConnection unset m connection).list = m.list ∨
    (addConnection unset m connection).list = m.list ++ [m.next] := by
  unfold NetworkModel.addConnection
  split
  · exact Or.inl rfl
  · simp only
    split
    · exact Or.inl rfl
    · right
      rfl

theorem checkAndCreateDuplicate_list (status : Status) (unset : Unset) (m : NetworkModel)
    (connection deviceUni : String) :
    (checkAndCreateDuplicate status unset m connection deviceUni).list = m.list ∨
    (checkAndCreateDuplicate status unset m connection deviceUni).list
      = m.list ++ [m.next] := by
  unfold NetworkModel.checkAndCreateDuplicate
  split
  · right
    rfl
  · exact Or.inl rfl

theorem replay_append (l : List Ptr) (t1 t2 : List Event) (l1 : List Ptr)
    (h : replay l t1 = some l1) : replay l (t1 ++ t2) = replay l1 t2 := by
  induction l, t1 using replay.induct with
  | case1 l =>
    simp only [replay, Option.some.injEq] at h
    rw [← h]; rfl
  | case2 l first last p rest hc ih =>
    simp only [replay, hc, and_self, if_true] at h
    simp only [List.cons_append, replay, hc, and_self, if_true]
    exact ih h
  | case3 l first last p rest hc =>
    simp [replay, hc] at h
  | case4 l first last p q rest hc ih =>
    rw [replay, if_pos hc] at h
    rw [List.cons_append, List.cons_append, List.cons_append, List.cons_append, replay,
      if_pos hc]
    exact ih h
  | case5 l first last p q rest hc =>
    simp [replay, hc] at h
  | case6 l row roles rest ih =>
    simp only [replay] at h
    simp only [List.cons_append, replay]
    exact ih h
  | case7 l ssid rest ih =>
    simp only [replay] at h
    simp only [List.cons_append, replay]
    exact ih h
  | case8 l t h1 h2 h3 h4 h5 =>
    rw [replay] at h
    · exact absurd h (by simp)
    all_goals assumption

theorem bracketed_refl (m : NetworkModel) : Bracketed m m :=
  fun h => ⟨h, Nat.le_refl _, [], by simp, rfl⟩

theorem bracketed_trans {a b c : NetworkModel} (h1 : Bracketed a b) (h2 : Bracketed b c) :
    Bracketed a c := by
  intro ha
  obtain ⟨hb, hn1, t1, ht1, hr1⟩ := h1 ha
  obtain ⟨hc, hn2, t2, ht2, hr2⟩ := h2 hb
  refine ⟨hc, Nat.le_trans hn1 hn2, t1 ++ t2, ?_, ?_⟩
  · rw [ht2, ht1, List.append_assoc]
  · rw [replay_append _ _ _ _ hr1, hr2]

theorem bracketed_modify_of {m x : NetworkModel} (q : Ptr)
    (f : NetworkModelItem → NetworkModelItem) (h : Bracketed m x) :
    Bracketed m (x.modify q f) :=
  bracketed_trans h (fun hw => ⟨hw, Nat.le_refl _, [], by simp [NetworkModel.modify], rfl⟩)

theorem bracketed_emit_dataChanged_of {m x : NetworkModel} (row : Nat) (roles : List ItemRole)
    (h : Bracketed m x) : Bracketed m (x.emit (Event.dataChanged row roles)) :=
  bracketed_trans h
    (fun hw => ⟨hw, Nat.le_refl _, [Event.dataChanged row roles], rfl, rfl⟩)

theorem bracketed_emit_disappeared_of {m x : NetworkModel} (ssid : String)
    (h : Bracketed m x) :
    Bracketed m (x.emit (Event.wirelessNetworkDisappearedChanged ssid)) :=
  bracketed_trans h
    (fun hw => ⟨hw, Nat.le_refl _, [Event.wirelessNetworkDisappearedChanged ssid], rfl, rfl⟩)

theorem bracketed_updateItem_of {m x : NetworkModel} (q : Ptr) (h : Bracketed m x) :
    Bracketed m (x.updateItem q) := by
  unfold NetworkModel.updateItem
  split
  · exact bracketed_modify_of _ _ (bracketed_emit_dataChanged_of _ _ (bracketed_modify_of _ _ h))
  · exact h

theorem nodup_filter_ne_eq_eraseIdx (l : List Ptr) (p : Ptr) (row : Nat) (hn : l.Nodup)
    (hrow : l[row]? = some p) : l.filter (fun x => x != p) = l.eraseIdx row := by
  induction l generalizing row with
  | nil => simp at hrow
  | cons x xs ih =>
    rw [List.nodup_cons] at hn
    cases row with
    | zero =>
      simp only [List.getElem?_cons_zero, Option.some.injEq] at hrow
      subst hrow
      simp only [List.filter_cons, bne_self_eq_false, Bool.false_eq_true, if_false,
        List.eraseIdx_cons_zero]
      rw [List.filter_eq_self]
      intro y hy
      simp only [bne_iff_ne, ne_eq]
      intro hxy
      exact hn.1 (hxy ▸ hy)
    | succ k =>
      simp only [List.getElem?_cons_succ] at hrow
      have hne : x ≠ p := by
        intro hxp
        obtain ⟨hk, hget⟩ := List.getElem?_eq_some_iff.1 hrow
        have hmem : p ∈ xs := hget ▸ List.getElem_mem hk
        exact hn.1 (hxp ▸ hmem)
      simp only [List.filter_cons, bne_iff_ne, ne_eq, hne, not_false_eq_true, if_true,
        List.eraseIdx_cons_succ, decide_True]
      rw [ih k hn.2 hrow]

theorem bracketed_removeRow_of {m x : NetworkModel} (q : Ptr) (h : Bracketed m x) :
    Bracketed m (x.removeRow q) := by
  refine bracketed_trans h ?_
  intro hw
  unfold NetworkModel.removeRow
  cases hi : x.indexOf q with
  | none => exact ⟨hw, Nat.le_refl _, [], by simp, rfl⟩
  | some row =>
    have hrow := ((indexOf_eq_some_iff x q row).1 hi).1
    refine ⟨⟨hw.1.filter _, fun p hp => hw.2 p (List.mem_of_mem_filter hp)⟩, Nat.le_refl _,
      [Event.beginRemoveRows row row, Event.removeItem q, Event.deleteLater q,
        Event.endRemoveRows], ?_, ?_⟩
    · simp [NetworkModel.emit, NetworkModel.removeItem]
    · simp only [replay, hrow, and_self, if_true]
      show some _ = some (List.filter _ x.list)
      rw [nodup_filter_ne_eq_eraseIdx x.list q row hw.1 hrow]

/-- A fresh object put in the list as its last row keeps the bracket protocol. -/
theorem bracketed_insertRow_fresh {m x : NetworkModel} (hl : x.list = m.list)
    (ht : x.trace = m.trace) (hn : x.next = m.next + 1) :
    Bracketed m (x.insertRow m.next) := by
  intro hw
  refine ⟨⟨?_, ?_⟩, ?_, [Event.beginInsertRows m.list.length m.list.length,
    Event.insertItem m.next, Event.endInsertRows], ?_, ?_⟩
  · show (x.list ++ [m.next]).Nodup
    rw [hl]
    refine List.Nodup.append hw.1 (List.nodup_singleton _) ?_
    intro a ha hb
    rw [List.mem_singleton] at hb
    exact absurd (hw.2 a ha) (hb ▸ Nat.lt_irrefl _)
  · intro p hp
    have hp' : p ∈ x.list ++ [m.next] := hp
    rw [hl, List.mem_append, List.mem_singleton] at hp'
    show p < x.next
    rw [hn]
    rcases hp' with h | h
    · exact Nat.lt_succ_of_lt (hw.2 p h)
    · rw [h]
      exact Nat.lt_succ_self _
  · show m.next ≤ x.next
    rw [hn]
    exact Nat.le_succ _
  · simp [NetworkModel.insertRow, NetworkModel.emit, NetworkModel.insertItem,
      NetworkModel.count, ht, hl]
  · simp only [replay, and_self, if_true]
    show some _ = some (x.list ++ [m.next])
    rw [hl]

theorem bracketed_foldl {β : Type} (g : NetworkModel → β → NetworkModel)
    (hg : ∀ m b, Bracketed m (g m b)) (l : List β) (m : NetworkModel) :
    Bracketed m (l.foldl g m) := by
  induction l generalizing m with
  | nil => exact bracketed_refl m
  | cons b rest ih => exact bracketed_trans (hg m b) (ih (g m b))

theorem bracketed_updateFromWirelessNetwork (nm : Manager) (m : NetworkModel) (item : Ptr)
    (network : WirelessNetwork) :
    Bracketed m (updateFromWirelessNetwork nm m item network) := by
  unfold NetworkModel.updateFromWirelessNetwork
  apply bracketed_updateItem_of
  apply bracketed_modify_of
  split
  · split
    · split
      · refine bracketed_foldl _ ?_ _ m
        intro m1 ap
        split
        · exact bracketed_modify_of _ _ (bracketed_modify_of _ _ (bracketed_refl m1))
        · exact bracketed_refl m1
      · split
        · exact bracketed_modify_of _ _ (bracketed_modify_of _ _ (bracketed_refl m))
        · exact bracketed_modify_of _ _ (bracketed_refl m)
    · exact bracketed_refl m
  · exact bracketed_refl m

theorem bracketed_addConnection (unset : Unset) (m : NetworkModel) (connection : Connection) :
    Bracketed m (addConnection unset m connection) := by
  unfold NetworkModel.addConnection
  split
  · exact bracketed_refl m
  · simp only
    split
    · exact bracketed_refl m
    · exact bracketed_insertRow_fresh rfl rfl rfl

theorem bracketed_checkAndCreateDuplicate (status : Status) (unset : Unset)
    (m : NetworkModel) (connection deviceUni : String) :
    Bracketed m (checkAndCreateDuplicate status unset m connection deviceUni) := by
  unfold NetworkModel.checkAndCreateDuplicate
  split
  · exact bracketed_insertRow_fresh rfl rfl rfl
  · exact bracketed_refl m

theorem bracketed_mergeAccessPoint (status : Status) (item : Ptr) (items : List Ptr)
    (m : NetworkModel) : Bracketed m (mergeAccessPoint status item items m) := by
  rw [mergeAccessPoint_eq]
  split
  · exact bracketed_removeRow_of _ (bracketed_refl m)
  · exact bracketed_refl m

theorem bracketed_setDeviceOfItem (device : Device) (m : NetworkModel) (item : Ptr) :
    Bracketed m (setDeviceOfItem device m item) := by
  unfold NetworkModel.setDeviceOfItem
  repeat' (first
    | exact bracketed_refl _
    | refine bracketed_modify_of _ _ ?_
    | split)

theorem bracketed_attachDevice (nm : Manager) (device : Device) (m : NetworkModel)
    (item : Ptr) : Bracketed m (attachDevice nm device m item) := by
  unfold NetworkModel.attachDevice
  refine bracketed_updateItem_of _ ?_
  have h2 := bracketed_setDeviceOfItem device m item
  generalize setDeviceOfItem device m item = m2 at h2 ⊢
  simp only
  split
  · have h3 := bracketed_trans h2 (bracketed_mergeAccessPoint nm.status item
      (m2.returnItems FilterType.Ssid (m2.heap item).ssid) m2)
    generalize mergeAccessPoint nm.status item
      (m2.returnItems FilterType.Ssid (m2.heap item).ssid) m2 = m3 at h3 ⊢
    split
    · split
      · exact bracketed_trans h3 (bracketed_updateFromWirelessNetwork nm m3 item _)
      · exact h3
    · exact h3
  · exact h2

theorem bracketed_addAvailableConnection (nm : Manager) (unset : Unset) (m : NetworkModel)
    (connection : String) (device : Option Device) :
    Bracketed m (addAvailableConnection nm unset m connection device) := by
  unfold NetworkModel.addAvailableConnection
  split
  · exact bracketed_refl m
  · rename_i dev
    simp only
    refine bracketed_trans
      (bracketed_checkAndCreateDuplicate nm.status unset m connection dev.uni) ?_
    rw [addAvailableConnectionLoop_eq]
    split
    · exact bracketed_attachDevice nm _ _ _
    · exact bracketed_refl _

theorem bracketed_addActiveConnectionItem (activeConnection : ActiveConnection)
    (device : Option Device) (m : NetworkModel) (item : Ptr) :
    Bracketed m (addActiveConnectionItem activeConnection device m item) := by
  unfold NetworkModel.addActiveConnectionItem
  refine bracketed_updateItem_of _ ?_
  simp only
  repeat' (first
    | exact bracketed_refl _
    | refine bracketed_modify_of _ _ ?_
    | split)

theorem bracketed_addActiveConnection (nm : Manager) (unset : Unset) (m : NetworkModel)
    (activeConnection : ActiveConnection) :
    Bracketed m (addActiveConnection nm unset m activeConnection) := by
  unfold NetworkModel.addActiveConnection
  simp only
  have h1 : Bracketed m
      (if (!m.contains FilterType.Uuid activeConnection.connection.uuid) = true then
        addConnection unset m activeConnection.connection else m) := by
    split
    · exact bracketed_addConnection unset m _
    · exact bracketed_refl m
  refine bracketed_trans h1 ?_
  exact bracketed_foldl _ (fun m q => bracketed_addActiveConnectionItem _ _ m q) _ _

theorem bracketed_activeVpnConnectionStateChanged (m : NetworkModel) (sender : Option String)
    (state : VpnState) : Bracketed m (activeVpnConnectionStateChanged m sender state) := by
  unfold NetworkModel.activeVpnConnectionStateChanged
  split
  · exact bracketed_refl m
  · refine bracketed_foldl _ ?_ _ _
    intro m1 q
    unfold NetworkModel.activeVpnConnectionStateChangedItem
    refine bracketed_updateItem_of _ ?_
    refine bracketed_modify_of _ _ ?_
    repeat' (first
      | exact bracketed_refl _
      | refine bracketed_modify_of _ _ ?_
      | split)

theorem bracketed_wirelessNetworkDisappearedItem (status : Status) (m : NetworkModel)
    (item : Ptr) : Bracketed m (wirelessNetworkDisappearedItem status m item) := by
  unfold NetworkModel.wirelessNetworkDisappearedItem
  split
  · exact bracketed_removeRow_of _ (bracketed_refl m)
  · refine bracketed_updateItem_of _ ?_
    refine bracketed_modify_of _ _ ?_
    repeat' (first
      | exact bracketed_refl _
      | refine bracketed_modify_of _ _ ?_
      | split)

theorem bracketed_wirelessNetworkDisappeared (nm : Manager) (m : NetworkModel)
    (sender ssid : String) : Bracketed m (wirelessNetworkDisappeared nm m sender ssid) := by
  unfold NetworkModel.wirelessNetworkDisappeared
  simp only
  have h1 : Bracketed m (m.emit (Event.wirelessNetworkDisappearedChanged ssid)) :=
    bracketed_emit_disappeared_of ssid (bracketed_refl m)
  split
  · exact h1
  · exact bracketed_trans h1
      (bracketed_foldl _ (fun m q => bracketed_wirelessNetworkDisappearedItem _ m q) _ _)

theorem bracketed_connectionRemovedItem (m : NetworkModel) (item : Ptr) :
    Bracketed m (connectionRemovedItem m item) := by
  unfold NetworkModel.connectionRemovedItem
  split
  · simp only
    split
    · refine bracketed_updateItem_of _ ?_
      exact bracketed_refl _
    · exact bracketed_removeRow_of _ (bracketed_refl m)
  · exact bracketed_removeRow_of _ (bracketed_refl m)

theorem bracketed_connectionRemoved (m : NetworkModel) (connection : String) :
    Bracketed m (connectionRemoved m connection) :=
  bracketed_foldl _ bracketed_connectionRemovedItem _ _

/-- A loop over a snapshot without repetitions whose body touches only the item it visits. -/
theorem foldl_heap_rel (f : NetworkModel → Ptr → NetworkModel)
    (R : NetworkModelItem → NetworkModelItem → Prop)
    (hframe : ∀ m q p, p ≠ q → (f m q).heap p = m.heap p)
    (hstep : ∀ m q, R (m.heap q) ((f m q).heap q))
    (items : List Ptr) (hnd : items.Nodup) (m : NetworkModel) (p : Ptr) (hp : p ∈ items) :
    R (m.heap p) ((items.foldl f m).heap p) := by
  induction items generalizing m with
  | nil => exact absurd hp (List.not_mem_nil _)
  | cons q rest ih =>
    rw [List.nodup_cons] at hnd
    rw [List.foldl_cons]
    rcases List.mem_cons.1 hp with h | h
    · subst h
      rw [foldl_heap_of_not_mem f hframe rest _ p hnd.1]
      exact hstep m p
    · have hpq : p ≠ q := fun he => hnd.1 (he ▸ h)
      have := ih hnd.2 (f m q) h
      rw [hframe m q p hpq] at this
      exact this

/-- A loop over a snapshot without repetitions whose body either takes the item it visits
out of the list or leaves the list alone, as a test on the item says. -/
theorem foldl_list_filter (f : NetworkModel → Ptr → NetworkModel)
    (C : NetworkModelItem → Bool)
    (hframe : ∀ m q p, p ≠ q → (f m q).heap p = m.heap p)
    (hlist : ∀ m q, (f m q).list
      = if C (m.heap q) then m.list.filter (fun p => p != q) else m.list)
    (items : List Ptr) (hnd : items.Nodup) (m : NetworkModel) :
    (items.foldl f m).list
      = m.list.filter (fun p => !(items.contains p && C (m.heap p))) := by
  induction items generalizing m with
  | nil => simp
  | cons q rest ih =>
    rw [List.nodup_cons] at hnd
    rw [List.foldl_cons, ih hnd.2 (f m q), hlist]
    have hpred : ∀ p, (!(rest.contains p && C ((f m q).heap p)))
        = (!(rest.contains p && C (m.heap p))) := by
      intro p
      by_cases hp : p ∈ rest
      · have hpq : p ≠ q := fun he => hnd.1 (he ▸ hp)
        rw [hframe m q p hpq]
      · have : rest.contains p = false := by simpa using hp
        simp only [this, Bool.false_and]
    simp only [hpred]
    by_cases hc : C (m.heap q) = true
    · simp only [hc, if_true, List.filter_filter]
      apply List.filter_congr
      intro p _
      simp only [List.contains_cons]
      by_cases hpq : p = q
      · subst hpq
        simp [hc]
      · have : (p == q) = false := by simpa using hpq
        simp only [this, Bool.false_or, bne, Bool.not_false, Bool.and_true]
    · simp only [Bool.not_eq_true] at hc
      simp only [hc, Bool.false_eq_true, if_false]
      apply List.filter_congr
      intro p _
      simp only [List.contains_cons]
      by_cases hpq : p = q
      · subst hpq
        have : rest.contains p = false := by simpa using hnd.1
        simp only [hc, this, Bool.and_false, Bool.or_false, Bool.false_and]
      · have : (p == q) = false := by simpa using hpq
        simp only [this, Bool.false_or]

theorem wirelessNetworkDisappearedItem_heap_ne (status : Status) (m : NetworkModel)
    (q p : Ptr) (h : p ≠ q) :
    (wirelessNetworkDisappearedItem status m q).heap p = m.heap p := by
  unfold NetworkModel.wirelessNetworkDisappearedItem
  split
  · rw [removeRow_heap]
  · simp only [updateItem_heap_ne _ _ _ h, modify_heap_ne _ _ _ _ h]
    split <;> simp only [modify_heap_ne _ _ _ _ h]

theorem wirelessNetworkDisappearedItem_list (status : Status) (m : NetworkModel) (q : Ptr) :
    (wirelessNetworkDisappearedItem status m q).list
      = if ((m.heap q).itemType status == ItemType.AvailableAccessPoint ||
          (m.heap q).duplicate) then m.list.filter (fun p => p != q) else m.list := by
  unfold NetworkModel.wirelessNetworkDisappearedItem
  split
  · rw [removeRow_list]
  · simp only [updateItem_list, modify_list]
    split <;> rfl

theorem wirelessNetworkDisappearedItem_step (status : Status) (m : NetworkModel) (q : Ptr) :
    DisappearedStep status (m.heap q) ((wirelessNetworkDisappearedItem status m q).heap q) := by
  unfold NetworkModel.wirelessNetworkDisappearedItem
  constructor
  · intro hc
    rw [if_pos hc, removeRow_heap]
  · intro hc
    rw [if_neg (by simp [hc])]
    rw [updateItem_field rowFields (fun _ => rfl)]
    by_cases hm : (m.heap q).mode = NetworkMode.Infrastructure
    · simp only [hm, beq_self_eq_true, if_true, modify_heap_self, rowFields_setSignal,
        rowFields_setSpecificPath, rowFields_setDevicePath, rowFields_setDeviceName]
    · have hb : ((m.heap q).mode == NetworkMode.Infrastructure) = false := by simpa using hm
      simp only [hb, hm, Bool.false_eq_true, if_false, modify_heap_self, rowFields_setSignal]

set_option maxRecDepth 100000 in
/-- C11: starting from the empty list, a connection is added and becomes available on the
device at /d/1 and on the device at /d/2; no two rows share connection path and device path
then. A second notice that the connection is available on the device at /d/2 adds the
third row, which has the same connection path and the same device path as the second. -/
theorem repeated_available_connection_duplicates :
    (NetworkModel.empty sampleUnset).Deduplicated ∧
    sampleTwoDevices.Deduplicated ∧
    sampleTwoDevices.list = [0, 1] ∧
    (addAvailableConnection sampleEthManager sampleUnset sampleTwoDevices "/c/2"
      (some sampleEth1)).list = [0, 1, 2] ∧
    ((addAvailableConnection sampleEthManager sampleUnset sampleTwoDevices "/c/2"
      (some sampleEth1)).heap 1).connectionPath = "/c/2" ∧
    ((addAvailableConnection sampleEthManager sampleUnset sampleTwoDevices "/c/2"
      (some sampleEth1)).heap 1).devicePath = "/d/2" ∧
    ((addAvailableConnection sampleEthManager sampleUnset sampleTwoDevices "/c/2"
      (some sampleEth1)).heap 2).connectionPath = "/c/2" ∧
    ((addAvailableConnection sampleEthManager sampleUnset sampleTwoDevices "/c/2"
      (some sampleEth1)).heap 2).devicePath = "/d/2" ∧
    ¬ (addAvailableConnection sampleEthManager sampleUnset sampleTwoDevices "/c/2"
      (some sampleEth1)).Deduplicated := by
  decide

theorem mem_returnItemsOn (m : NetworkModel) (type : FilterType) (a b : String) (p : Ptr) :
    p ∈ m.returnItemsOn type a b ↔
      p ∈ m.list ∧ filterKey type (m.heap p) = a ∧ (m.heap p).devicePath = b := by
  simp [NetworkModel.returnItemsOn]

/-- What wirelessNetworkDisappeared does to the rows, for a sender that resolves to the
device d and for rows of every type: the rows with that SSID and device path d that are
access points or duplicates leave the list; every other row with that SSID and device path
stays in the list with signal 0; when its mode is Infrastructure its device name, device
path and specific path are cleared, and its item type then is UnavailableConnection
exactly when its type is none of Bond, Bridge, Vlan and Team and is not Vpn or WireGuard
under a connected manager status; in any other mode it keeps the three fields; the items
of all other rows are unchanged. -/
theorem wirelessNetworkDisappeared_rows (nm : Manager) (m : NetworkModel)
    (sender ssid : String) (device : Device) (hwf : m.WellFormed)
    (hdev : nm.findNetworkInterface sender = some device) :
    (wirelessNetworkDisappeared nm m sender ssid).list =
      m.list.filter (fun p =>
        !((m.heap p).ssid == ssid && (m.heap p).devicePath == device.uni &&
          ((m.heap p).itemType nm.status == ItemType.AvailableAccessPoint ||
            (m.heap p).duplicate))) ∧
    (∀ p ∈ m.list, (m.heap p).ssid = ssid → (m.heap p).devicePath = device.uni →
      (m.heap p).itemType nm.status ≠ ItemType.AvailableAccessPoint →
      (m.heap p).duplicate = false →
      p ∈ (wirelessNetworkDisappeared nm m sender ssid).list ∧
      ((wirelessNetworkDisappeared nm m sender ssid).heap p).signal = 0 ∧
      ((m.heap p).mode = NetworkMode.Infrastructure →
        ((wirelessNetworkDisappeared nm m sender ssid).heap p).deviceName = "" ∧
        ((wirelessNetworkDisappeared nm m sender ssid).heap p).devicePath = "" ∧
        ((wirelessNetworkDisappeared nm m sender ssid).heap p).specificPath = "" ∧
        (((wirelessNetworkDisappeared nm m sender ssid).heap p).itemType nm.status
            = ItemType.UnavailableConnection ↔
          (m.heap p).type ≠ ConnectionType.Bond ∧ (m.heap p).type ≠ ConnectionType.Bridge ∧
          (m.heap p).type ≠ ConnectionType.Vlan ∧ (m.heap p).type ≠ ConnectionType.Team ∧
          ¬ (((m.heap p).type = ConnectionType.Vpn ∨
              (m.heap p).type = ConnectionType.WireGuard) ∧
            (nm.status = Status.Connected ∨ nm.status = Status.ConnectedLinkLocal ∨
              nm.status = Status.ConnectedSiteOnly))) ∧
        ((m.heap p).type = ConnectionType.Wireless →
          ((wirelessNetworkDisappeared nm m sender ssid).heap p).itemType nm.status
            = ItemType.UnavailableConnection)) ∧
      ((m.heap p).mode ≠ NetworkMode.Infrastructure →
        ((wirelessNetworkDisappeared nm m sender ssid).heap p).deviceName
          = (m.heap p).deviceName ∧
        ((wirelessNetworkDisappeared nm m sender ssid).heap p).devicePath
          = (m.heap p).devicePath ∧
        ((wirelessNetworkDisappeared nm m sender ssid).heap p).specificPath
          = (m.heap p).specificPath)) ∧
    (∀ p, ¬ (p ∈ m.list ∧ (m.heap p).ssid = ssid ∧ (m.heap p).devicePath = device.uni) →
      (wirelessNetworkDisappeared nm m sender ssid).heap p = m.heap p) := by
  have hr : wirelessNetworkDisappeared nm m sender ssid
      = (m.returnItemsOn FilterType.Ssid ssid device.uni).foldl
          (wirelessNetworkDisappearedItem nm.status)
          (m.emit (Event.wirelessNetworkDisappearedChanged ssid)) := by
    unfold NetworkModel.wirelessNetworkDisappeared
    simp only [hdev]
    rfl
  rw [hr]
  have hnd : (m.returnItemsOn FilterType.Ssid ssid device.uni).Nodup :=
    hwf.1.filter _
  have hlist := foldl_list_filter (wirelessNetworkDisappearedItem nm.status)
    (fun i => i.itemType nm.status == ItemType.AvailableAccessPoint || i.duplicate)
    (wirelessNetworkDisappearedItem_heap_ne nm.status)
    (wirelessNetworkDisappearedItem_list nm.status)
    _ hnd (m.emit (Event.wirelessNetworkDisappearedChanged ssid))
  have hL : ((m.returnItemsOn FilterType.Ssid ssid device.uni).foldl
      (wirelessNetworkDisappearedItem nm.status)
      (m.emit (Event.wirelessNetworkDisappearedChanged ssid))).list =
      m.list.filter (fun p =>
        !((m.heap p).ssid == ssid && (m.heap p).devicePath == device.uni &&
          ((m.heap p).itemType nm.status == ItemType.AvailableAccessPoint ||
            (m.heap p).duplicate))) := by
    rw [hlist]
    show m.list.filter _ = _
    apply List.filter_congr
    intro p hp
    show (!(List.contains _ p && ((m.heap p).itemType nm.status == _ || _))) = _
    have hcont : (m.returnItemsOn FilterType.Ssid ssid device.uni).contains p
        = ((m.heap p).ssid == ssid && (m.heap p).devicePath == device.uni) := by
      rw [Bool.eq_iff_iff]
      show List.elem p _ = true ↔ _
      rw [List.elem_iff, mem_returnItemsOn]
      simp [filterKey, hp]
    rw [hcont]
    rfl
  refine ⟨hL, ?_, ?_⟩
  · intro p hp hs hd hap hdup
    have hmem : p ∈ m.returnItemsOn FilterType.Ssid ssid device.uni :=
      (mem_returnItemsOn _ _ _ _ _).2 ⟨hp, hs, hd⟩
    have hrel := foldl_heap_rel (wirelessNetworkDisappearedItem nm.status)
      (DisappearedStep nm.status)
      (wirelessNetworkDisappearedItem_heap_ne nm.status)
      (wirelessNetworkDisappearedItem_step nm.status)
      _ hnd (m.emit (Event.wirelessNetworkDisappearedChanged ssid)) p hmem
    have hc : ((m.heap p).itemType nm.status == ItemType.AvailableAccessPoint ||
        (m.heap p).duplicate) = false := by
      simp [hap, hdup]
    have hf := hrel.2 hc
    change rowFields _ = if (m.heap p).mode = NetworkMode.Infrastructure then
      { rowFields (m.heap p) with
        deviceName := "", devicePath := "", specificPath := "", signal := 0 }
      else { rowFields (m.heap p) with signal := 0 } at hf
    refine ⟨?_, ?_, ?_, ?_⟩
    · rw [hL, List.mem_filter]
      exact ⟨hp, by simp [hap, hdup]⟩
    · have := congrArg RowFields.signal hf
      simp only [rowFields] at this
      rw [this]
      split <;> rfl
    · intro hmode
      rw [if_pos hmode] at hf
      have h1 := congrArg RowFields.deviceName hf
      have h2 := congrArg RowFields.devicePath hf
      have h3 := congrArg RowFields.specificPath hf
      have h4 := congrArg RowFields.type hf
      simp only [rowFields] at h1 h2 h3 h4
      have hiff := itemType_unavailable_iff nm.status
        (((m.returnItemsOn FilterType.Ssid ssid device.uni).foldl
          (wirelessNetworkDisappearedItem nm.status)
          (m.emit (Event.wirelessNetworkDisappearedChanged ssid))).heap p)
      rw [h2, h4] at hiff
      refine ⟨h1, h2, h3, ?_, ?_⟩
      · rw [hiff]
        simp
      · intro hw
        rw [hiff, hw]
        simp
    · intro hmode
      rw [if_neg hmode] at hf
      have h1 := congrArg RowFields.deviceName hf
      have h2 := congrArg RowFields.devicePath hf
      have h3 := congrArg RowFields.specificPath hf
      simp only [rowFields] at h1 h2 h3
      exact ⟨h1, h2, h3⟩
  · intro p hp
    have hnot : p ∉ m.returnItemsOn FilterType.Ssid ssid device.uni := by
      rw [mem_returnItemsOn]
      exact hp
    exact foldl_heap_of_not_mem _ (wirelessNetworkDisappearedItem_heap_ne nm.status) _ _ p hnot

theorem bracketed_connectionAdded (nm : Manager) (unset : Unset) (m : NetworkModel)
    (connection : String) : Bracketed m (connectionAdded nm unset m connection) := by
  unfold NetworkModel.connectionAdded
  split
  · exact bracketed_addConnection unset m _
  · exact bracketed_refl m

theorem bracketed_availableConnectionAppeared (nm : Manager) (unset : Unset)
    (m : NetworkModel) (sender connection : String) :
    Bracketed m (availableConnectionAppeared nm unset m sender connection) := by
  unfold NetworkModel.availableConnectionAppeared
  split
  · exact bracketed_refl m
  · exact bracketed_addAvailableConnection nm unset m _ _

theorem keepsProtocol_of_bracketed {m r : NetworkModel} (h : Bracketed m r)
    (hwf : m.WellFormed) : KeepsProtocol m r :=
  ⟨(h hwf).1, (h hwf).2.2⟩

theorem itemType_spec_witness :
    sampleAccessPoint.itemType Status.Connected = ItemType.AvailableAccessPoint ∧
    (sampleStored NetworkMode.Infrastructure).itemType Status.Connected
      = ItemType.UnavailableConnection :=
  ⟨(itemType_spec Status.Connected sampleAccessPoint).1.2 ⟨by decide, by decide, by decide⟩,
   (itemType_spec Status.Connected (sampleStored NetworkMode.Infrastructure)).2.1.2
    ⟨by decide, by decide, by decide, by decide, by decide, by decide⟩⟩

theorem addConnection_spec_witness :
    (addConnection sampleUnset (NetworkModel.empty sampleUnset) sampleWired).list = [0] ∧
    ((addConnection sampleUnset (NetworkModel.empty sampleUnset) sampleWired).heap
      0).connectionPath = "/c/2" ∧
    ((addConnection sampleUnset (NetworkModel.empty sampleUnset) sampleWired).heap
      0).name = "office lan" ∧
    ((addConnection sampleUnset (NetworkModel.empty sampleUnset) sampleWired).heap
      0).devicePath = "" := by
  obtain ⟨hl, -, hp, hn, -, -, -, -, -, hd⟩ :=
    (addConnection_spec sampleUnset (NetworkModel.empty sampleUnset) sampleWired).2
      (by decide)
  exact ⟨hl, hp, hn, hd⟩

/-- C20: when the connection path of the item does not resolve to a connection,
updateConnection and initPassword return with the item as it was and without any call on
the service: no secrets request and no update call. -/
theorem updateConnection_initPassword_skip (nm : Manager) (item : NetworkModelItem)
    (h : nm.findConnection item.connectionPath = none) :
    item.updateConnection nm = some (item, []) ∧ item.initPassword nm = some (item, []) := by
  unfold NetworkModelItem.updateConnection NetworkModelItem.initPassword
  rw [h]
  exact ⟨rfl, rfl⟩

theorem updateConnection_initPassword_skip_witness :
    sampleManager.findConnection (sampleStored NetworkMode.Infrastructure).connectionPath
      = none ∧
    (sampleStored NetworkMode.Infrastructure).updateConnection sampleManager
      = some (sampleStored NetworkMode.Infrastructure, []) ∧
    (sampleStored NetworkMode.Infrastructure).initPassword sampleManager
      = some (sampleStored NetworkMode.Infrastructure, []) :=
  ⟨rfl, updateConnection_initPassword_skip sampleManager
    (sampleStored NetworkMode.Infrastructure) rfl⟩

/-- With a connection that resolves and a required secret whose flag is None, both
functions issue the secrets request for the wireless security setting and leave the item
as it was. -/
theorem updateConnection_requests_secrets :
    (sampleStored NetworkMode.Infrastructure).updateConnection sampleSecretsManager
      = some (sampleStored NetworkMode.Infrastructure,
          [ItemEffect.secrets "/c/1" "802-11-wireless-security" "home"
            ReplySlot.replyFinished]) ∧
    (sampleStored NetworkMode.Infrastructure).initPassword sampleSecretsManager
      = some (sampleStored NetworkMode.Infrastructure,
          [ItemEffect.secrets "/c/1" "802-11-wireless-security" "home"
            ReplySlot.replyFinishedPassword]) := by
  constructor <;> rfl

/-- C28: when the search term is empty, filterAcceptsRow returns false for every row whose
SlaveRole is true, whatever its type, item type and connection state. -/
theorem filterAcceptsRow_slave (contains : String → QRegExp → Bool)
    (findConnection : String → Option ConnectionType) (filterRegExp : QRegExp) (row : Row)
    (hslave : row.slave = true) (hempty : filterRegExp.pattern = "") :
    filterAcceptsRow contains findConnection filterRegExp row = false := by
  have he : filterRegExp.isEmpty = true := by
    simp [QRegExp.isEmpty, isEmpty, hempty]
  simp [filterAcceptsRow, hslave, he]

theorem filterAcceptsRow_slave_witness :
    filterAcceptsRow containsLiteral (fun _ => some ConnectionType.Wireless) ⟨""⟩
      { sampleRow with slave := true } = false :=
  filterAcceptsRow_slave containsLiteral (fun _ => some ConnectionType.Wireless) ⟨""⟩
    { sampleRow with slave := true } rfl rfl

/-- C23: for a Wireless item, computeIcon is "network-wireless-" followed by the level and
by the suffix: the level is 0 for signal 0 in Infrastructure mode, 100 for signal 0 in
Adhoc or Ap mode, 20 for a non-zero signal below 20, 40 for 20 to 39, 60 for 40 to 59, 80
for 60 to 79 and 100 from 80 on; the suffix is "-locked" exactly when the security type is
greater than NoneSecurity, that is neither UnknownSecurity nor NoneSecurity, and empty
otherwise. -/
theorem computeIcon_wireless (i : NetworkModelItem) (hw : i.type = ConnectionType.Wireless) :
    (∃ level suffix : String,
      i.computeIcon = "network-wireless-" ++ level ++ suffix ∧
      (i.signal = 0 → i.mode = NetworkMode.Infrastructure → level = "0") ∧
      (i.signal = 0 → (i.mode = NetworkMode.Adhoc ∨ i.mode = NetworkMode.Ap) →
        level = "100") ∧
      (i.signal ≠ 0 → i.signal < 20 → level = "20") ∧
      (20 ≤ i.signal → i.signal ≤ 39 → level = "40") ∧
      (40 ≤ i.signal → i.signal ≤ 59 → level = "60") ∧
      (60 ≤ i.signal → i.signal ≤ 79 → level = "80") ∧
      (80 ≤ i.signal → level = "100") ∧
      (suffix = "-locked" ∨ suffix = "") ∧
      (suffix = "-locked" ↔
        WirelessSecurityType.NoneSecurity.toInt < i.securityType.toInt) ∧
      (suffix = "-locked" ↔
        i.securityType ≠ WirelessSecurityType.UnknownSecurity ∧
        i.securityType ≠ WirelessSecurityType.NoneSecurity)) := by
  refine ⟨if i.signal = 0 then (if i.mode = NetworkMode.Infrastructure then "0" else "100")
      else if i.signal < 20 then "20" else if i.signal < 40 then "40"
      else if i.signal < 60 then "60" else if i.signal < 80 then "80" else "100",
    if WirelessSecurityType.NoneSecurity.toInt < i.securityType.toInt then "-locked" else "",
    ?_, ?_, ?_, ?_, ?_, ?_, ?_, ?_, ?_, ?_, ?_⟩
  · unfold NetworkModelItem.computeIcon
    simp only [hw]
    by_cases hl : WirelessSecurityType.NoneSecurity.toInt < i.securityType.toInt
    · have hu : ¬ i.securityType.toInt ≤ WirelessSecurityType.NoneSecurity.toInt := by omega
      simp only [hl, hu, if_true, decide_False, Bool.false_eq_true, if_false, beq_iff_eq,
        Bool.or_eq_true, decide_eq_true_eq]
      cases hm : i.mode <;> split_ifs <;> first | rfl | omega | simp_all
    · have hu : i.securityType.toInt ≤ WirelessSecurityType.NoneSecurity.toInt := by omega
      simp only [hl, hu, if_true, decide_True, if_false, beq_iff_eq,
        Bool.or_eq_true, decide_eq_true_eq]
      cases hm : i.mode <;> split_ifs <;> first | rfl | omega | simp_all
  · intro h0 hm
    simp [h0, hm]
  · intro h0 hm
    rcases hm with hm | hm <;> simp [h0, hm]
  · intro h0 h1
    simp [h0, h1]
  · intro h0 h1
    have a : ¬ i.signal = 0 := by omega
    have b : ¬ i.signal < 20 := by omega
    have c : i.signal < 40 := by omega
    simp [a, b, c]
  · intro h0 h1
    have a : ¬ i.signal = 0 := by omega
    have b : ¬ i.signal < 20 := by omega
    have c : ¬ i.signal < 40 := by omega
    have d : i.signal < 60 := by omega
    simp [a, b, c, d]
  · intro h0 h1
    have a : ¬ i.signal = 0 := by omega
    have b : ¬ i.signal < 20 := by omega
    have c : ¬ i.signal < 40 := by omega
    have d : ¬ i.signal < 60 := by omega
    have e : i.signal < 80 := by omega
    simp [a, b, c, d, e]
  · intro h0
    have a : ¬ i.signal = 0 := by omega
    have b : ¬ i.signal < 20 := by omega
    have c : ¬ i.signal < 40 := by omega
    have d : ¬ i.signal < 60 := by omega
    have e : ¬ i.signal < 80 := by omega
    simp [a, b, c, d, e]
  · split_ifs
    · exact Or.inl rfl
    · exact Or.inr rfl
  · split_ifs with h
    · simp [h]
    · simp only [h, iff_false]
      decide
  · cases hs : i.securityType <;> simp [WirelessSecurityType.toInt]

theorem computeIcon_wireless_witness :
    sampleAccessPoint.type = ConnectionType.Wireless ∧
    sampleAccessPoint.signal = 60 ∧
    sampleAccessPoint.computeIcon = "network-wireless-80" := by
  obtain ⟨level, suffix, he, -, -, -, -, -, h80, -, hs, hl, -⟩ :=
    computeIcon_wireless sampleAccessPoint rfl
  have h1 : level = "80" := h80 (by decide) (by decide)
  have h2 : suffix = "" := by
    rcases hs with hs | hs
    · exact absurd (hl.1 hs) (by decide)
    · exact hs
  rw [h1, h2] at he
  exact ⟨rfl, rfl, he⟩

theorem refreshIcon_icon (i : NetworkModelItem) :
    i.refreshIcon.icon = i.computeIcon ∧
    (i.refreshIcon.icon ≠ i.icon →
      i.refreshIcon.changedRoles = i.changedRoles ++ [ItemRole.ConnectionIconRole]) ∧
    i.refreshIcon.computeIcon = i.computeIcon := by
  unfold NetworkModelItem.refreshIcon NetworkModelItem.setIcon
  split
  · exact ⟨rfl, fun _ => rfl, rfl⟩
  · rename_i h
    have he : i.computeIcon = i.icon := by simpa using h
    exact ⟨he.symm, fun hne => absurd rfl hne, rfl⟩

/-- C30: after a call of setType, setConnectionState, setSignal, setMode or
setSecurityType that changes the value of the field, the stored icon equals computeIcon on
the new state, and ConnectionIconRole is in the dirty-role set whenever the stored icon
string has changed. -/
theorem icon_consistency (i : NetworkModelItem) :
    (∀ type, i.type ≠ type →
      (i.setType type).icon = (i.setType type).computeIcon ∧
      ((i.setType type).icon ≠ i.icon →
        ItemRole.ConnectionIconRole ∈ (i.setType type).changedRoles)) ∧
    (∀ state, i.connectionState ≠ state →
      (i.setConnectionState state).icon = (i.setConnectionState state).computeIcon ∧
      ((i.setConnectionState state).icon ≠ i.icon →
        ItemRole.ConnectionIconRole ∈ (i.setConnectionState state).changedRoles)) ∧
    (∀ signal, i.signal ≠ signal →
      (i.setSignal signal).icon = (i.setSignal signal).computeIcon ∧
      ((i.setSignal signal).icon ≠ i.icon →
        ItemRole.ConnectionIconRole ∈ (i.setSignal signal).changedRoles)) ∧
    (∀ mode, i.mode ≠ mode →
      (i.setMode mode).icon = (i.setMode mode).computeIcon ∧
      ((i.setMode mode).icon ≠ i.icon →
        ItemRole.ConnectionIconRole ∈ (i.setMode mode).changedRoles)) ∧
    (∀ type, i.securityType ≠ type →
      (i.setSecurityType type).icon = (i.setSecurityType type).computeIcon ∧
      ((i.setSecurityType type).icon ≠ i.icon →
        ItemRole.ConnectionIconRole ∈ (i.setSecurityType type).changedRoles)) := by
  have key : ∀ j : NetworkModelItem, j.icon = i.icon →
      j.refreshIcon.icon = j.refreshIcon.computeIcon ∧
      (j.refreshIcon.icon ≠ i.icon →
        ItemRole.ConnectionIconRole ∈ j.refreshIcon.changedRoles) := by
    intro j hj
    obtain ⟨h1, h2, h3⟩ := refreshIcon_icon j
    refine ⟨by rw [h1, h3], fun hne => ?_⟩
    rw [h2 (by rw [hj]; exact hne)]
    simp
  refine ⟨?_, ?_, ?_, ?_, ?_⟩
  · intro v hv
    have hb : (i.type != v) = true := by simpa using hv
    simp only [NetworkModelItem.setType, hb, if_true]
    exact key _ rfl
  · intro v hv
    have hb : (i.connectionState != v) = true := by simpa using hv
    simp only [NetworkModelItem.setConnectionState, hb, if_true]
    exact key _ rfl
  · intro v hv
    have hb : (i.signal != v) = true := by simpa using hv
    simp only [NetworkModelItem.setSignal, hb, if_true]
    exact key _ rfl
  · intro v hv
    have hb : (i.mode != v) = true := by simpa using hv
    simp only [NetworkModelItem.setMode, hb, if_true]
    exact key _ rfl
  · intro v hv
    have hb : (i.securityType != v) = true := by simpa using hv
    simp only [NetworkModelItem.setSecurityType, hb, if_true]
    exact key _ rfl

set_option maxRecDepth 100000 in
theorem icon_consistency_witness :
    (sampleAccessPoint.setSignal 10).icon = "network-wireless-20" ∧
    ItemRole.ConnectionIconRole ∈ (sampleAccessPoint.setSignal 10).changedRoles := by
  obtain ⟨h1, h2⟩ := (icon_consistency sampleAccessPoint).2.2.1 10 (by decide)
  refine ⟨?_, h2 (by decide)⟩
  rw [h1]
  decide

/-- C27: in checkAndCreateDuplicate, when the loop leaves createDuplicate set, originalItem
is not null: it is a row of the list that is not a duplicate and whose connection path is
the given connection, and the duplicate that is made is the copy of that item. -/
theorem checkAndCreateDuplicate_original (status : Status) (unset : Unset) (m : NetworkModel)
    (connection deviceUni : String) (originalItem : Option Ptr)
    (h : checkAndCreateDuplicateScan status m deviceUni
      (m.returnItems FilterType.Connection connection) = (true, originalItem)) :
    ∃ p, originalItem = some p ∧ p ∈ m.list ∧ (m.heap p).duplicate = false ∧
      (m.heap p).connectionPath = connection ∧
      (checkAndCreateDuplicate status unset m connection deviceUni).list
        = m.list ++ [m.next] ∧
      (checkAndCreateDuplicate status unset m connection deviceUni).heap m.next
        = (NetworkModelItem.copy (m.heap p) unset).invalidateDetails := by
  have hs := h
  rw [checkAndCreateDuplicateScan_eq] at hs
  have h1 := (Prod.ext_iff.1 hs).1
  have h2 := (Prod.ext_iff.1 hs).2
  simp only at h1 h2
  obtain ⟨x, hx, hcx⟩ := List.any_eq_true.1 h1
  have hxf : x ∈ (m.returnItems FilterType.Connection connection).filter
      (fun item => !(m.heap item).duplicate) := by
    rw [List.mem_filter]
    refine ⟨hx, ?_⟩
    simp only [Bool.and_eq_true] at hcx
    exact hcx.1.1
  cases ho : originalItem with
  | none =>
    rw [ho, List.getLast?_eq_none_iff] at h2
    rw [h2] at hxf
    exact absurd hxf (List.not_mem_nil _)
  | some p =>
    rw [ho] at h2
    have hp := List.mem_of_getLast?_eq_some h2
    rw [List.mem_filter, mem_returnItems] at hp
    obtain ⟨⟨hpl, hpc⟩, hpd⟩ := hp
    refine ⟨p, rfl, hpl, by simpa using hpd, hpc, ?_, ?_⟩
    · unfold NetworkModel.checkAndCreateDuplicate
      rw [h, ho]
      rfl
    · unfold NetworkModel.checkAndCreateDuplicate
      rw [h, ho]
      simp [NetworkModel.alloc, NetworkModel.modify, NetworkModel.insertRow,
        NetworkModel.insertItem, NetworkModel.emit]

set_option maxRecDepth 100000 in
theorem checkAndCreateDuplicate_original_witness :
    ∃ p, (some 0 : Option Ptr) = some p ∧ p ∈ sampleOtherDeviceModel.list ∧
      (sampleOtherDeviceModel.heap p).duplicate = false ∧
      (sampleOtherDeviceModel.heap p).connectionPath = "/c/1" ∧
      (checkAndCreateDuplicate Status.Connected sampleUnset sampleOtherDeviceModel "/c/1"
        "/d/0").list = sampleOtherDeviceModel.list ++ [sampleOtherDeviceModel.next] ∧
      (checkAndCreateDuplicate Status.Connected sampleUnset sampleOtherDeviceModel "/c/1"
        "/d/0").heap sampleOtherDeviceModel.next
        = (NetworkModelItem.copy (sampleOtherDeviceModel.heap p)
            sampleUnset).invalidateDetails :=
  checkAndCreateDuplicate_original Status.Connected sampleUnset sampleOtherDeviceModel
    "/c/1" "/d/0" (some 0) (by decide)

theorem foldl_range_getElem? {α β : Type} (f : β → α → β) (l : List α)
    (g : β → Nat → β) (hg : ∀ acc row x, l[row]? = some x → g acc row = f acc x) (init : β) :
    (List.range l.length).foldl g init = l.foldl f init := by
  induction l using List.reverseRecOn with
  | nil => rfl
  | append_singleton xs a ih =>
    rw [List.length_append, List.length_singleton, List.range_succ, List.foldl_append,
      List.foldl_append]
    simp only [List.foldl_cons, List.foldl_nil]
    have h1 : (xs ++ [a])[xs.length]? = some a := by simp
    rw [hg _ _ a h1]
    congr 1
    apply ih
    intro acc row x hx
    apply hg
    have hlt : row < xs.length := (List.getElem?_eq_some_iff.1 hx).1
    rw [List.getElem?_append_left hlt]
    exact hx

theorem foldl_count {α : Type} (p : α → Bool) (l : List α) (init : Int) :
    l.foldl (fun (count : Int) x => if p x then count + 1 else count) init
      = init + (l.filter p).length := by
  induction l generalizing init with
  | nil => simp
  | cons x xs ih =>
    rw [List.foldl_cons, ih]
    cases hp : p x
    · simp [hp]
    · simp [hp]
      omega

theorem getSavedCount_eq (m : NetworkModel) :
    m.getSavedCount = ((m.list.filter (fun p => isSavedRow (m.heap p))).length : Int) := by
  unfold NetworkModel.getSavedCount NetworkModel.itemAt NetworkModel.count
  rw [foldl_range_getElem?
    (fun (count : Int) (item : Ptr) =>
      if (m.heap item).type == ConnectionType.Wireless &&
          !isEmpty (m.heap item).connectionPath &&
          (m.heap item).connectionState != State.Activated then count + 1 else count)
    m.list _ (fun acc row x hx => by simp only [hx])]
  rw [foldl_count (fun item => (m.heap item).type == ConnectionType.Wireless &&
          !isEmpty (m.heap item).connectionPath &&
          (m.heap item).connectionState != State.Activated)]
  simp only [zero_add]
  congr 2
  apply List.filter_congr
  intro x _
  rw [Bool.eq_iff_iff]
  simp [isSavedRow, isEmpty, and_assoc]

/-- C29: getSavedCount is the number of rows whose type is Wireless, whose connection path
is non-empty and whose connection state is not Activated; it is at least 0 and at most
rowCount, and data for SavedCountRole is this number for every row of the list and the
invalid value for every other row. -/
theorem getSavedCount_spec (m : NetworkModel) :
    m.getSavedCount = ((m.list.filter (fun p => isSavedRow (m.heap p))).length : Int) ∧
    0 ≤ m.getSavedCount ∧ m.getSavedCount ≤ (m.count : Int) ∧
    (∀ row : Int, 0 ≤ row → row < m.count →
      m.dataSavedCountRole row = some m.getSavedCount) ∧
    (∀ row : Int, ¬ (0 ≤ row ∧ row < m.count) → m.dataSavedCountRole row = none) := by
  have h := getSavedCount_eq m
  refine ⟨h, ?_, ?_, ?_, ?_⟩
  · rw [h]
    exact Int.ofNat_nonneg _
  · rw [h]
    exact Int.ofNat_le.2 (List.length_filter_le _ _)
  · intro row h0 h1
    unfold NetworkModel.dataSavedCountRole NetworkModel.itemAt
    have hlt : row.toNat < m.list.length := by
      unfold NetworkModel.count at h1
      omega
    simp [h0, h1, List.getElem?_eq_getElem hlt]
  · intro row hrow
    unfold NetworkModel.dataSavedCountRole
    have : (decide (row ≥ 0) && decide (row < (m.count : Int))) = false := by
      rw [Bool.and_eq_false_iff]
      by_cases h0 : 0 ≤ row
      · right
        simpa using fun h1 => hrow ⟨h0, h1⟩
      · left
        simpa using h0
    simp [this]

set_option maxRecDepth 100000 in
theorem getSavedCount_spec_witness :
    (sampleModel NetworkMode.Infrastructure).getSavedCount = 1 ∧
    (sampleModel NetworkMode.Infrastructure).dataSavedCountRole 1
      = some (sampleModel NetworkMode.Infrastructure).getSavedCount :=
  ⟨by decide,
   (getSavedCount_spec (sampleModel NetworkMode.Infrastructure)).2.2.2.1 1 (by decide)
    (by decide)⟩

theorem filter_length_gt_one {α : Type} (P : α → Bool) (l : List α) (i : Nat) (x : α)
    (hi : l[i]? = some x) (hx : P x = true) :
    1 < (l.filter P).length ↔ ∃ j y, j ≠ i ∧ l[j]? = some y ∧ P y = true := by
  induction l generalizing i with
  | nil => simp at hi
  | cons a as ih =>
    cases i with
    | zero =>
      simp only [List.getElem?_cons_zero, Option.some.injEq] at hi
      subst hi
      simp only [List.filter_cons, hx, if_true, List.length_cons, Nat.lt_add_left_iff_pos,
        List.length_pos, ne_eq, List.filter_eq_nil_iff, not_forall]
      constructor
      · rintro ⟨y, hy⟩
        obtain ⟨hy1, hy2⟩ : y ∈ as ∧ P y = true := by
          simpa using hy
        obtain ⟨j, hj⟩ := List.getElem?_of_mem hy1
        exact ⟨j + 1, y, by omega, by simpa using hj, hy2⟩
      · rintro ⟨j, y, hj, hjy, hy⟩
        cases j with
        | zero => exact absurd rfl hj
        | succ k =>
          simp only [List.getElem?_cons_succ] at hjy
          exact ⟨y, by simpa using ⟨List.mem_iff_getElem?.2 ⟨_, hjy⟩, hy⟩⟩
    | succ k =>
      simp only [List.getElem?_cons_succ] at hi
      by_cases ha : P a = true
      · have hmem : x ∈ as.filter P := List.mem_filter.2 ⟨List.mem_iff_getElem?.2 ⟨_, hi⟩, hx⟩
        have hpos : 0 < (as.filter P).length := List.length_pos_of_mem hmem
        simp only [List.filter_cons, ha, if_true, List.length_cons]
        constructor
        · intro _
          exact ⟨0, a, by omega, by simp, ha⟩
        · intro _
          omega
      · simp only [List.filter_cons, ha, Bool.false_eq_true, if_false]
        rw [ih k hi]
        constructor
        · rintro ⟨j, y, hj, hjy, hy⟩
          exact ⟨j + 1, y, by omega, by simpa using hjy, hy⟩
        · rintro ⟨j, y, hj, hjy, hy⟩
          cases j with
          | zero =>
            simp only [List.getElem?_cons_zero, Option.some.injEq] at hjy
            subst hjy
            exact absurd hy ha
          | succ j =>
            simp only [List.getElem?_cons_succ] at hjy
            exact ⟨j, y, by omega, hjy, hy⟩

theorem string_append_right_cancel (a b c : String) (h : a ++ b = a ++ c) : b = c := by
  have h1 := congrArg String.data h
  simp only [String.data_append] at h1
  exact String.ext (List.append_cancel_left h1)

theorem string_append_left_cancel (a b c : String) (h : a ++ c = b ++ c) : a = b := by
  have h1 := congrArg String.data h
  simp only [String.data_append] at h1
  exact String.ext (List.append_cancel_right h1)

theorem dataItemUniqueNameRole_eq (m : NetworkModel) (row : Nat) (item : Ptr)
    (hrow : m.list[row]? = some item) :
    m.dataItemUniqueNameRole row =
      some (if 1 < (m.returnItems FilterType.Name (m.heap item).name).length then
        (m.heap item).originalName else (m.heap item).name) := by
  unfold NetworkModel.dataItemUniqueNameRole NetworkModel.itemAt
  have hlt : row < m.list.length := (List.getElem?_eq_some_iff.1 hrow).1
  have h1 : ((row : Int) ≥ 0 && decide ((row : Int) < (m.count : Int))) = true := by
    unfold NetworkModel.count
    simp [hlt]
  simp only [h1, if_true, Int.toNat_ofNat, hrow]
  split <;> rfl

theorem returnItems_name_length (m : NetworkModel) (row : Nat) (item : Ptr)
    (hrow : m.list[row]? = some item) :
    1 < (m.returnItems FilterType.Name (m.heap item).name).length ↔
      m.otherRowNamed row (m.heap item).name := by
  unfold NetworkModel.returnItems NetworkModel.otherRowNamed
  rw [filter_length_gt_one _ m.list row item hrow (by simp [filterKey])]
  simp [filterKey]

/-- C22: for a row of the list, data for ItemUniqueNameRole is the plain name of the item
when no other row has that name; when another row has it, it is name, " (", device name
and ")" for a non-empty device name and the plain name for an empty device name. Two
different rows with the same name and different non-empty device names get different
values. -/
theorem itemUniqueName_spec (m : NetworkModel) (row : Nat) (item : Ptr)
    (hrow : m.list[row]? = some item) :
    (¬ m.otherRowNamed row (m.heap item).name →
      m.dataItemUniqueNameRole row = some (m.heap item).name) ∧
    (m.otherRowNamed row (m.heap item).name → (m.heap item).deviceName ≠ "" →
      m.dataItemUniqueNameRole row
        = some ((m.heap item).name ++ " (" ++ (m.heap item).deviceName ++ ")")) ∧
    (m.otherRowNamed row (m.heap item).name → (m.heap item).deviceName = "" →
      m.dataItemUniqueNameRole row = some (m.heap item).name) ∧
    (∀ (row2 : Nat) (item2 : Ptr), m.list[row2]? = some item2 → row2 ≠ row →
      (m.heap item2).name = (m.heap item).name →
      (m.heap item).deviceName ≠ "" → (m.heap item2).deviceName ≠ "" →
      (m.heap item2).deviceName ≠ (m.heap item).deviceName →
      m.dataItemUniqueNameRole row2 ≠ m.dataItemUniqueNameRole row) := by
  have key : ∀ (r : Nat) (i : Ptr), m.list[r]? = some i →
      m.otherRowNamed r (m.heap i).name → (m.heap i).deviceName ≠ "" →
      m.dataItemUniqueNameRole r
        = some ((m.heap i).name ++ " (" ++ (m.heap i).deviceName ++ ")") := by
    intro r i hr ho hd
    rw [dataItemUniqueNameRole_eq m r i hr, if_pos ((returnItems_name_length m r i hr).2 ho)]
    have hb : isEmpty (m.heap i).deviceName = false := by simpa [isEmpty] using hd
    simp [NetworkModelItem.originalName, hb]
  refine ⟨?_, key row item hrow, ?_, ?_⟩
  · intro hno
    rw [dataItemUniqueNameRole_eq m row item hrow,
      if_neg (fun h => hno ((returnItems_name_length m row item hrow).1 h))]
  · intro ho hd
    rw [dataItemUniqueNameRole_eq m row item hrow,
      if_pos ((returnItems_name_length m row item hrow).2 ho)]
    simp [NetworkModelItem.originalName, isEmpty, hd]
  · intro row2 item2 hrow2 hne hname hd hd2 hdd
    have ho : m.otherRowNamed row (m.heap item).name := ⟨row2, item2, hne, hrow2, hname⟩
    have ho2 : m.otherRowNamed row2 (m.heap item2).name :=
      ⟨row, item, fun h => hne h.symm, hrow, hname.symm⟩
    rw [key row item hrow ho hd, key row2 item2 hrow2 ho2 hd2, hname]
    intro h
    have h1 := Option.some.inj h
    have h2 := string_append_left_cancel _ _ _ h1
    rw [String.append_assoc, String.append_assoc] at h2
    exact hdd (string_append_right_cancel _ _ _ (string_append_right_cancel _ _ _ h2))

set_option maxRecDepth 100000 in
theorem itemUniqueName_spec_witness :
    (sampleModel NetworkMode.Infrastructure).dataItemUniqueNameRole ((1 : Nat) : Int)
      = some "home (wlan0)" :=
  (itemUniqueName_spec (sampleModel NetworkMode.Infrastructure) 1 1 (by decide)).2.1
    ⟨0, 0, by decide, by decide, by decide⟩ (by decide)

theorem ite_lex (P Q : Prop) [Decidable P] [Decidable Q] (b : Bool) :
    (if P then true else if Q then false else b) = true ↔ P ∨ (¬ P ∧ ¬ Q ∧ b = true) := by
  by_cases hP : P
  · simp [hP]
  · by_cases hQ : Q
    · simp [hP, hQ]
    · simp [hP, hQ]

theorem ite_lex_rev (P Q : Prop) [Decidable P] [Decidable Q] (b : Bool) :
    (if P then false else if Q then true else b) = true ↔ ¬ P ∧ (Q ∨ b = true) := by
  by_cases hP : P
  · simp [hP]
  · by_cases hQ : Q
    · simp [hP, hQ]
    · simp [hP, hQ]

theorem lessThan_core (sl sr : Nat) (al ar : Bool) (gl gr : Int) (el er : Bool)
    (tl tr c : Int) :
    (if sl > sr then true
      else if sl < sr then false
      else if al.toNat < ar.toNat then true
      else if al.toNat > ar.toNat then false
      else if gl < gr then true
      else if gl > gr then false
      else if el && !er then true
      else if !el && er then false
      else if tl > tr then false
      else if tl < tr then true
      else if c > 0 then true
      else false) = true ↔
      sr < sl ∨
      (sl = sr ∧
        (al.toNat < ar.toNat ∨
          (al.toNat = ar.toNat ∧
            (gl < gr ∨
              (gl = gr ∧
                ((!el).toNat < (!er).toNat ∨
                  ((!el).toNat = (!er).toNat ∧
                    (tl < tr ∨ (tl = tr ∧ c > 0))))))))) := by
  rw [ite_lex, ite_lex, ite_lex, ite_lex, ite_lex_rev]
  have hu : ((!el).toNat < (!er).toNat ↔ (el && !er) = true) ∧
      ((!el).toNat = (!er).toNat ↔ ¬ (el && !er) = true ∧ ¬ (!el && er) = true) := by
    cases el <;> cases er <;> simp
  rw [hu.1, hu.2]
  have hc : ((if c > 0 then true else false) = true) ↔ c > 0 := by simp
  rw [hc]
  constructor
  · rintro (h | ⟨h1, h2, h | ⟨h3, h4, h | ⟨h5, h6, h | ⟨h7, h8, h9, h⟩⟩⟩⟩)
    · exact Or.inl h
    · exact Or.inr ⟨by omega, Or.inl h⟩
    · exact Or.inr ⟨by omega, Or.inr ⟨by omega, Or.inl h⟩⟩
    · exact Or.inr ⟨by omega, Or.inr ⟨by omega, Or.inr ⟨by omega, Or.inl h⟩⟩⟩
    · refine Or.inr ⟨by omega, Or.inr ⟨by omega, Or.inr ⟨by omega, Or.inr ⟨⟨h7, h8⟩, ?_⟩⟩⟩⟩
      by_cases ht : tl < tr
      · exact Or.inl ht
      · rcases h with h | h
        · exact absurd h ht
        · exact Or.inr ⟨by omega, h⟩
  · rintro (h | ⟨h1, h | ⟨h2, h | ⟨h3, h | ⟨⟨h4, h5⟩, h⟩⟩⟩⟩)
    · exact Or.inl h
    · exact Or.inr ⟨by omega, by omega, Or.inl h⟩
    · exact Or.inr ⟨by omega, by omega, Or.inr ⟨by omega, by omega, Or.inl h⟩⟩
    · exact Or.inr ⟨by omega, by omega, Or.inr ⟨by omega, by omega,
        Or.inr ⟨by omega, by omega, Or.inl h⟩⟩⟩
    · refine Or.inr ⟨by omega, by omega, Or.inr ⟨by omega, by omega,
        Or.inr ⟨by omega, by omega, Or.inr ⟨h4, h5, ?_, ?_⟩⟩⟩⟩
      · rcases h with h | h <;> omega
      · rcases h with h | h
        · exact Or.inl h
        · exact Or.inr h.2

theorem lessThan_iff (cmp : String → String → Int) (l r : Row) :
    lessThan cmp l r = true ↔
      r.connectionState.toUInt < l.connectionState.toUInt ∨
      (l.connectionState.toUInt = r.connectionState.toUInt ∧
        ((l.itemType == ItemType.AvailableConnection).toNat
            < (r.itemType == ItemType.AvailableConnection).toNat ∨
          ((l.itemType == ItemType.AvailableConnection).toNat
              = (r.itemType == ItemType.AvailableConnection).toNat ∧
            (l.signal < r.signal ∨
              (l.signal = r.signal ∧
                ((!isEmpty l.uuid).toNat < (!isEmpty r.uuid).toNat ∨
                  ((!isEmpty l.uuid).toNat = (!isEmpty r.uuid).toNat ∧
                    (l.timeStamp.msecs < r.timeStamp.msecs ∨
                      (l.timeStamp.msecs = r.timeStamp.msecs ∧
                        cmp l.name r.name > 0))))))))) :=
  lessThan_core _ _ _ _ _ _ _ _ _ _ _

theorem not_lessThan_iff (cmp : String → String → Int) (l r : Row) :
    lessThan cmp l r = false ↔ ¬ lessThan cmp l r = true := by
  simp

theorem incomparable_iff (cmp : String → String → Int)
    (hanti : ∀ a b, cmp a b > 0 ↔ cmp b a < 0) (a b : Row) :
    (¬ lessThan cmp a b = true ∧ ¬ lessThan cmp b a = true) ↔
      (a.connectionState.toUInt = b.connectionState.toUInt ∧
        (a.itemType == ItemType.AvailableConnection).toNat
          = (b.itemType == ItemType.AvailableConnection).toNat ∧
        a.signal = b.signal ∧
        (!isEmpty a.uuid).toNat = (!isEmpty b.uuid).toNat ∧
        a.timeStamp.msecs = b.timeStamp.msecs ∧
        cmp a.name b.name = 0) := by
  rw [lessThan_iff, lessThan_iff]
  have h1 := not_or_of_imp (hanti a.name b.name).2
  have h2 := not_or_of_imp (hanti b.name a.name).2
  have h3 := not_or_of_imp (hanti a.name b.name).1
  have h4 := not_or_of_imp (hanti b.name a.name).1
  constructor
  · intro h
    omega
  · intro h
    omega

/-- C25: when localeAwareCompare is a consistent three-way comparison, lessThan is a
strict weak ordering on rows: it is irreflexive, asymmetric and transitive, and
incomparability is transitive. -/
theorem lessThan_strict_weak (cmp : String → String → Int) (h : ConsistentCompare cmp) :
    (∀ a, lessThan cmp a a = false) ∧
    (∀ a b, lessThan cmp a b = true → lessThan cmp b a = false) ∧
    (∀ a b c, lessThan cmp a b = true → lessThan cmp b c = true →
      lessThan cmp a c = true) ∧
    (∀ a b c, lessThan cmp a b = false → lessThan cmp b a = false →
      lessThan cmp b c = false → lessThan cmp c b = false →
      lessThan cmp a c = false ∧ lessThan cmp c a = false) := by
  obtain ⟨hanti, htrans, heq⟩ := h
  refine ⟨?_, ?_, ?_, ?_⟩
  · intro a
    rw [not_lessThan_iff, lessThan_iff]
    have h1 := not_or_of_imp (hanti a.name a.name).1
    omega
  · intro a b hab
    rw [not_lessThan_iff, lessThan_iff]
    rw [lessThan_iff] at hab
    have h1 := not_or_of_imp (hanti a.name b.name).1
    omega
  · intro a b c hab hbc
    rw [lessThan_iff] at hab hbc ⊢
    have h1 := not_or_of_imp (fun h : cmp a.name b.name > 0 ∧ cmp b.name c.name > 0 =>
      htrans a.name b.name c.name h.1 h.2)
    omega
  · intro a b c hab hba hbc hcb
    rw [not_lessThan_iff] at hab hba hbc hcb
    have e1 := (incomparable_iff cmp hanti a b).1 ⟨hab, hba⟩
    have e2 := (incomparable_iff cmp hanti b c).1 ⟨hbc, hcb⟩
    have e3 : cmp a.name c.name = 0 := heq _ _ _ e1.2.2.2.2.2 e2.2.2.2.2.2
    have e4 := (incomparable_iff cmp hanti a c).2 (by omega)
    rw [not_lessThan_iff, not_lessThan_iff]
    exact e4

theorem sampleCompare_consistent : ConsistentCompare sampleCompare := by
  unfold ConsistentCompare sampleCompare
  refine ⟨?_, ?_, ?_⟩
  · intro a b
    omega
  · intro a b c
    omega
  · intro a b c
    omega

theorem lessThan_strict_weak_witness :
    lessThan sampleCompare sampleRow sampleRow = false ∧
    lessThan sampleCompare sampleRow { sampleRow with signal := 70 } = true ∧
    lessThan sampleCompare { sampleRow with signal := 70 } sampleRow = false :=
  ⟨(lessThan_strict_weak sampleCompare sampleCompare_consistent).1 sampleRow,
   by decide,
   (lessThan_strict_weak sampleCompare sampleCompare_consistent).2.1 sampleRow
    { sampleRow with signal := 70 } (by decide)⟩

theorem foldlM_none_of_mem {α β : Type} (step : β → α → Option β) (P : α → Bool)
    (acc0 : β)
    (hskip : ∀ acc e, P e = false → step acc e = some acc)
    (hstop : ∀ e, P e = true → step acc0 e = none)
    (l : List α) (h : ∃ e ∈ l, P e = true) :
    l.foldlM step acc0 = none := by
  induction l with
  | nil =>
    obtain ⟨e, he, _⟩ := h
    exact absurd he (List.not_mem_nil _)
  | cons x xs ih =>
    rw [List.foldlM_cons]
    cases hx : P x
    · rw [hskip acc0 x hx]
      obtain ⟨e, he, hp⟩ := h
      rcases List.mem_cons.1 he with h1 | h1
      · subst h1
        rw [hx] at hp
        exact absurd hp (by simp)
      · exact ih ⟨e, h1, hp⟩
    · rw [hstop x hx]
      rfl

/-- With a valid reply that holds the requested setting and a connection path that
resolves to no connection, both reply slots reach the dereference of the null connection
pointer. -/
theorem replyFinished_of_missing_connection (nm : Manager) (item : NetworkModelItem)
    (watcher : Watcher) (hvalid : watcher.isValid = true)
    (hkey : ∃ entry ∈ watcher.secrets, entry.1 = watcher.settingName)
    (hnone : nm.findConnection item.connectionPath = none) :
    item.replyFinished nm watcher = none ∧ item.replyFinishedPassword nm watcher = none := by
  have hk : ∃ e ∈ watcher.secrets, (e.1 == watcher.settingName) = true := by
    obtain ⟨e, he, h⟩ := hkey
    exact ⟨e, he, by simpa using h⟩
  constructor
  · unfold NetworkModelItem.replyFinished
    rw [if_pos hvalid]
    apply foldlM_none_of_mem _ (fun e => e.1 == watcher.settingName) _ _ _ _ hk
    · intro acc e he
      simp only [he, Bool.false_eq_true, if_false]
    · intro e he
      simp only [he, if_true, hnone]
  · unfold NetworkModelItem.replyFinishedPassword
    rw [if_pos hvalid]
    apply foldlM_none_of_mem _ (fun e => e.1 == watcher.settingName) _ _ _ _ hk
    · intro acc e he
      simp only [he, Bool.false_eq_true, if_false]
    · intro e he
      simp only [he, if_true, hnone]

/-- C21 fails on the code: the connection path of the item resolves to no connection, the
reply is valid and holds the requested setting "802-11-wireless-security"; replyFinished
and replyFinishedPassword both dereference the null connection pointer, so neither
completes. -/
theorem replyFinished_missing_connection :
    sampleManager.findConnection sampleOrphan.connectionPath = none ∧
    sampleWatcher.isValid = true ∧
    (∃ entry ∈ sampleWatcher.secrets, entry.1 = sampleWatcher.settingName) ∧
    sampleOrphan.replyFinished sampleManager sampleWatcher = none ∧
    sampleOrphan.replyFinishedPassword sampleManager sampleWatcher = none :=
  ⟨rfl, rfl, ⟨_, List.mem_cons_self _ _, rfl⟩, rfl, rfl⟩

/-- With a connection that resolves, the same reply makes replyFinished hand the settings
to the handler and makes replyFinishedPassword store the passphrase in the item. -/
theorem replyFinished_with_connection :
    (sampleStored NetworkMode.Infrastructure).replyFinished sampleSecretsManager
        sampleWatcher
      = some (sampleStored NetworkMode.Infrastructure,
          [ItemEffect.updateConnection "/c/1"]) ∧
    (sampleStored NetworkMode.Infrastructure).replyFinishedPassword sampleSecretsManager
        sampleWatcher
      = some ({ sampleStored NetworkMode.Infrastructure with password := "secret" }, []) := by
  constructor <;> rfl

theorem connectionRemovedScan_eq_any (m : NetworkModel) (item : Ptr) (l : List Ptr) :
    connectionRemovedScan m item l =
      l.any (fun secondItem =>
        (m.heap item).mode != NetworkMode.Infrastructure ||
        ((m.heap item).connectionPath != (m.heap secondItem).connectionPath &&
          (m.heap item).devicePath == (m.heap secondItem).devicePath &&
          (m.heap item).mode == (m.heap secondItem).mode &&
          (m.heap item).securityType == (m.heap secondItem).securityType &&
          (m.heap item).ssid == (m.heap secondItem).ssid)) := by
  induction l with
  | nil => rfl
  | cons x xs ih =>
    unfold connectionRemovedScan
    rw [List.any_cons, ← ih]
    split
    · rename_i h
      rw [h]
      rfl
    · rename_i h
      simp only [Bool.not_eq_true] at h
      rw [h]
      rfl

/-- The test of the loop body of connectionRemoved that decides whether the item is kept
and turned into an access point row. -/
theorem connectionRemovedItem_cases (m : NetworkModel) (p : Ptr) (hp : p ∈ m.list) :
    (m.keepsAsAccessPoint (m.heap p).connectionPath p ∧
      connectionRemovedItem m p =
        (((((m.modify p (fun i => i.setConnectionPath "")).modify p
          (fun i => i.setName i.ssid)).modify p (fun i => i.setSlave false)).modify p
          (fun i => i.setTimestamp none)).modify p (fun i => i.setUuid "")).updateItem p) ∨
    (¬ m.keepsAsAccessPoint (m.heap p).connectionPath p ∧
      connectionRemovedItem m p = m.removeRow p) := by
  unfold connectionRemovedItem
  by_cases hk : m.keepsAsAccessPoint (m.heap p).connectionPath p
  · left
    refine ⟨hk, ?_⟩
    obtain ⟨h1, h2, h3, h4⟩ := hk
    have hc : ((m.heap p).type == ConnectionType.Wireless && !isEmpty (m.heap p).devicePath)
        = true := by
      simp [h1, isEmpty, h3]
    have hs : connectionRemovedScan m p m.items = false := by
      rw [connectionRemovedScan_eq_any, List.any_eq_false]
      intro q hq
      have := h4 q hq
      simp only [sameNetwork] at this
      simp only [h2, bne_self_eq_false, Bool.false_or, Bool.and_eq_true, bne_iff_ne, ne_eq,
        beq_iff_eq, not_and]
      rintro ⟨⟨⟨a, b⟩, c⟩, d⟩ e
      exact this (fun h => a h.symm) ⟨b, by rw [h2]; exact c, d, e⟩
    simp only [hc, hs, if_true, Bool.not_false]
  · right
    refine ⟨hk, ?_⟩
    by_cases hc : ((m.heap p).type == ConnectionType.Wireless &&
        !isEmpty (m.heap p).devicePath) = true
    · have hs : connectionRemovedScan m p m.items = true := by
        rw [connectionRemovedScan_eq_any, List.any_eq_true]
        simp only [Bool.and_eq_true, beq_iff_eq, Bool.not_eq_true', isEmpty,
          beq_eq_false_iff_ne, ne_eq] at hc
        by_cases hm : (m.heap p).mode = NetworkMode.Infrastructure
        · have : ¬ ∀ q ∈ m.list, (m.heap q).connectionPath ≠ (m.heap p).connectionPath →
              ¬ sameNetwork (m.heap p) (m.heap q) := fun h => hk ⟨hc.1, hm, hc.2, h⟩
          simp only [not_forall, Classical.not_not] at this
          obtain ⟨q, hq, hne, hsame⟩ := this
          refine ⟨q, hq, ?_⟩
          obtain ⟨s1, s2, s3, s4⟩ := hsame
          simp only [Bool.or_eq_true, bne_iff_ne, ne_eq, Bool.and_eq_true, beq_iff_eq]
          exact Or.inr ⟨⟨⟨⟨fun h => hne h.symm, s1⟩, s2⟩, s3⟩, s4⟩
        · refine ⟨p, hp, ?_⟩
          simp [hm]
      simp only [hc, hs, if_true, Bool.not_true, Bool.false_eq_true, if_false]
    · simp only [hc, if_false]
      rfl

theorem sameNetwork_refl (i : NetworkModelItem) : sameNetwork i i :=
  ⟨rfl, rfl, rfl, rfl⟩

theorem sameNetwork_symm {i j : NetworkModelItem} (h : sameNetwork i j) : sameNetwork j i :=
  ⟨h.1.symm, h.2.1.symm, h.2.2.1.symm, h.2.2.2.symm⟩

theorem sameNetwork_trans {i j k : NetworkModelItem} (h1 : sameNetwork i j)
    (h2 : sameNetwork j k) : sameNetwork i k :=
  ⟨h1.1.trans h2.1, h1.2.1.trans h2.2.1, h1.2.2.1.trans h2.2.2.1, h1.2.2.2.trans h2.2.2.2⟩

theorem sameNetwork_rowFields {i j i1 j1 : NetworkModelItem}
    (hi : (rowFields i1).devicePath = (rowFields i).devicePath ∧
      (rowFields i1).mode = (rowFields i).mode ∧
      (rowFields i1).securityType = (rowFields i).securityType ∧
      (rowFields i1).ssid = (rowFields i).ssid)
    (hj : (rowFields j1).devicePath = (rowFields j).devicePath ∧
      (rowFields j1).mode = (rowFields j).mode ∧
      (rowFields j1).securityType = (rowFields j).securityType ∧
      (rowFields j1).ssid = (rowFields j).ssid) :
    sameNetwork i1 j1 ↔ sameNetwork i j := by
  simp only [rowFields] at hi hj
  unfold sameNetwork
  rw [hi.1, hi.2.1, hi.2.2.1, hi.2.2.2, hj.1, hj.2.1, hj.2.2.1, hj.2.2.2]

/-- The item that connectionRemoved keeps has the fields of an access point row
afterwards; the list and every other item are as before. -/
theorem connectionRemoved_convert (m : NetworkModel) (p : Ptr) :
    ((((((m.modify p (fun i => i.setConnectionPath "")).modify p
        (fun i => i.setName i.ssid)).modify p (fun i => i.setSlave false)).modify p
        (fun i => i.setTimestamp none)).modify p (fun i => i.setUuid "")).updateItem p).list
      = m.list ∧
    (∀ q, q ≠ p →
      ((((((m.modify p (fun i => i.setConnectionPath "")).modify p
        (fun i => i.setName i.ssid)).modify p (fun i => i.setSlave false)).modify p
        (fun i => i.setTimestamp none)).modify p (fun i => i.setUuid "")).updateItem p).heap q
      = m.heap q) ∧
    rowFields (((((((m.modify p (fun i => i.setConnectionPath "")).modify p
        (fun i => i.setName i.ssid)).modify p (fun i => i.setSlave false)).modify p
        (fun i => i.setTimestamp none)).modify p (fun i => i.setUuid "")).updateItem p).heap p)
      = asAccessPoint (rowFields (m.heap p)) := by
  refine ⟨?_, ?_, ?_⟩
  · simp only [updateItem_list, modify_list]
  · intro q hq
    simp only [updateItem_heap_ne _ _ _ hq, modify_heap_ne _ _ _ _ hq]
  · rw [updateItem_field rowFields (fun _ => rfl)]
    simp only [modify_heap_self, rowFields_setUuid, rowFields_setTimestamp,
      rowFields_setSlave, rowFields_setName, rowFields_setConnectionPath, asAccessPoint]
    have : ((m.heap p).setConnectionPath "").ssid = (rowFields (m.heap p)).ssid := by
      have := congrArg RowFields.ssid (rowFields_setConnectionPath (m.heap p) "")
      simpa [rowFields] using this
    rw [this]

theorem keepsAsAccessPoint_of_kept (m m1 : NetworkModel) (c : String) (p1 q : Ptr)
    (hl : m1.list = m.list) (hh : ∀ r, r ≠ p1 → m1.heap r = m.heap r)
    (hrf : rowFields (m1.heap p1) = asAccessPoint (rowFields (m.heap p1)))
    (hp1 : (m.heap p1).connectionPath = c) (hp1l : p1 ∈ m.list) (hq : q ≠ p1) :
    m1.keepsAsAccessPoint c q ↔
      m.keepsAsAccessPoint c q ∧ ¬ (c ≠ "" ∧ sameNetwork (m.heap q) (m.heap p1)) := by
  have hsame : sameNetwork (m.heap q) (m1.heap p1) ↔ sameNetwork (m.heap q) (m.heap p1) := by
    apply sameNetwork_rowFields ⟨rfl, rfl, rfl, rfl⟩
    rw [hrf]
    exact ⟨rfl, rfl, rfl, rfl⟩
  have hpath : (m1.heap p1).connectionPath = "" := by
    have := congrArg RowFields.connectionPath hrf
    simpa [rowFields, asAccessPoint] using this
  unfold NetworkModel.keepsAsAccessPoint
  rw [hh q hq, hl]
  constructor
  · rintro ⟨h1, h2, h3, h4⟩
    refine ⟨⟨h1, h2, h3, ?_⟩, ?_⟩
    · intro r hr hne
      have hrp : r ≠ p1 := fun h => hne (h ▸ hp1)
      have := h4 r hr
      rw [hh r hrp] at this
      exact this hne
    · rintro ⟨hc, hs⟩
      have := h4 p1 hp1l (by rw [hpath]; exact fun h => hc h.symm)
      exact this (hsame.2 hs)
  · rintro ⟨⟨h1, h2, h3, h4⟩, h5⟩
    refine ⟨h1, h2, h3, ?_⟩
    intro r hr hne
    by_cases hrp : r = p1
    · subst hrp
      rw [hpath] at hne
      rw [hsame]
      exact fun hs => h5 ⟨fun h => hne h.symm, hs⟩
    · rw [hh r hrp] at hne ⊢
      exact h4 r hr hne

theorem keepsAsAccessPoint_of_removed (m m1 : NetworkModel) (c : String) (p1 q : Ptr)
    (hl : m1.list = m.list.filter (fun p => p != p1)) (hh : m1.heap = m.heap)
    (hp1 : (m.heap p1).connectionPath = c) :
    m1.keepsAsAccessPoint c q ↔ m.keepsAsAccessPoint c q := by
  unfold NetworkModel.keepsAsAccessPoint
  rw [hh, hl]
  constructor
  · rintro ⟨h1, h2, h3, h4⟩
    refine ⟨h1, h2, h3, fun r hr hne => h4 r ?_ hne⟩
    rw [List.mem_filter]
    exact ⟨hr, by simpa using fun (h : r = p1) => hne (h ▸ hp1)⟩
  · rintro ⟨h1, h2, h3, h4⟩
    exact ⟨h1, h2, h3, fun r hr hne => h4 r (List.mem_filter.1 hr).1 hne⟩

theorem firstOnNetwork_congr (m m1 : NetworkModel) (rows : List Ptr) (q : Ptr)
    (hrows : ∀ r ∈ rows, m1.heap r = m.heap r) (hq : m1.heap q = m.heap q) :
    m1.firstOnNetwork rows q ↔ m.firstOnNetwork rows q := by
  unfold NetworkModel.firstOnNetwork
  rw [hq]
  have : rows.find? (fun r => decide ((m1.heap r).type = ConnectionType.Wireless ∧
        sameNetwork (m.heap q) (m1.heap r)))
      = rows.find? (fun r => decide ((m.heap r).type = ConnectionType.Wireless ∧
        sameNetwork (m.heap q) (m.heap r))) := by
    apply find?_congr_mem
    intro r hr
    rw [hrows r hr]
  rw [this]

theorem firstOnNetwork_cons (m : NetworkModel) (rows : List Ptr) (p1 q : Ptr) (hq : q ≠ p1) :
    m.firstOnNetwork (p1 :: rows) q ↔
      ¬ ((m.heap p1).type = ConnectionType.Wireless ∧ sameNetwork (m.heap q) (m.heap p1)) ∧
        m.firstOnNetwork rows q := by
  unfold NetworkModel.firstOnNetwork
  rw [List.find?_cons]
  by_cases h : (m.heap p1).type = ConnectionType.Wireless ∧ sameNetwork (m.heap q) (m.heap p1)
  · simp only [h, and_self, decide_True, Option.some.injEq, not_true_eq_false, false_and,
      iff_false]
    exact fun h1 => hq h1.symm
  · simp only [h, decide_False, not_false_eq_true, true_and]

theorem firstOnNetwork_self (m : NetworkModel) (rows : List Ptr) (p1 : Ptr)
    (hw : (m.heap p1).type = ConnectionType.Wireless) :
    m.firstOnNetwork (p1 :: rows) p1 := by
  unfold NetworkModel.firstOnNetwork
  rw [List.find?_cons]
  simp [hw, sameNetwork_refl]

theorem keptAmong_of_kept (m m1 : NetworkModel) (c : String) (rest : List Ptr) (p1 q : Ptr)
    (hl : m1.list = m.list) (hh : ∀ r, r ≠ p1 → m1.heap r = m.heap r)
    (hrf : rowFields (m1.heap p1) = asAccessPoint (rowFields (m.heap p1)))
    (hp1 : (m.heap p1).connectionPath = c) (hp1l : p1 ∈ m.list)
    (hw : (m.heap p1).type = ConnectionType.Wireless)
    (hq : q ≠ p1) (hrest : p1 ∉ rest) :
    m1.keptAmong c rest q ↔ m.keptAmong c (p1 :: rest) q := by
  unfold NetworkModel.keptAmong
  rw [keepsAsAccessPoint_of_kept m m1 c p1 q hl hh hrf hp1 hp1l hq,
    firstOnNetwork_congr m m1 rest q (fun r hr => hh r (fun h => hrest (h ▸ hr))) (hh q hq),
    firstOnNetwork_cons m rest p1 q hq]
  by_cases hc : c = ""
  · simp [hc]
  · simp only [ne_eq, hc, not_false_eq_true, true_and, false_or, hw, and_assoc]

theorem keptAmong_of_removed (m m1 : NetworkModel) (c : String) (rest : List Ptr) (p1 q : Ptr)
    (hl : m1.list = m.list.filter (fun p => p != p1)) (hh : m1.heap = m.heap)
    (hp1 : (m.heap p1).connectionPath = c)
    (hk : ¬ m.keepsAsAccessPoint c p1) (hq : q ≠ p1) :
    m1.keptAmong c rest q ↔ m.keptAmong c (p1 :: rest) q := by
  unfold NetworkModel.keptAmong
  rw [keepsAsAccessPoint_of_removed m m1 c p1 q hl hh hp1,
    firstOnNetwork_congr m m1 rest q (fun r _ => by rw [hh]) (by rw [hh]),
    firstOnNetwork_cons m rest p1 q hq]
  constructor
  · rintro ⟨hkq, hf⟩
    refine ⟨hkq, ?_⟩
    rcases hf with hf | hf
    · exact Or.inl hf
    · refine Or.inr ⟨?_, hf⟩
      rintro ⟨hw, hs⟩
      apply hk
      obtain ⟨_, k2, k3, k4⟩ := hkq
      refine ⟨hw, ?_, ?_, ?_⟩
      · rw [← hs.2.1]
        exact k2
      · rw [← hs.1]
        exact k3
      · intro r hr hne hsr
        exact k4 r hr hne (sameNetwork_trans hs hsr)
  · rintro ⟨hkq, hf⟩
    refine ⟨hkq, ?_⟩
    rcases hf with hf | hf
    · exact Or.inl hf
    · exact Or.inr hf.2

theorem connectionRemoved_fold (c : String) (rest : List Ptr) :
    ∀ m : NetworkModel, rest.Nodup →
      (∀ p ∈ rest, p ∈ m.list ∧ (m.heap p).connectionPath = c) →
      (∀ q, q ∈ (rest.foldl connectionRemovedItem m).list ↔
        q ∈ m.list ∧ (q ∈ rest → m.keptAmong c rest q)) ∧
      (rest.foldl connectionRemovedItem m).list
        = m.list.filter (fun q => decide (q ∈ (rest.foldl connectionRemovedItem m).list)) ∧
      (∀ q, q ∉ rest → (rest.foldl connectionRemovedItem m).heap q = m.heap q) ∧
      (∀ p ∈ rest, m.keptAmong c rest p →
        rowFields ((rest.foldl connectionRemovedItem m).heap p)
          = asAccessPoint (rowFields (m.heap p))) := by
  induction rest with
  | nil =>
    intro m _ _
    refine ⟨by simp, ?_, fun _ _ => rfl, fun p hp => absurd hp (List.not_mem_nil _)⟩
    simp only [List.foldl_nil]
    symm
    rw [List.filter_eq_self]
    intro a ha
    simpa using ha
  | cons p1 rest ih =>
    intro m hnd hin
    rw [List.nodup_cons] at hnd
    obtain ⟨hp1l, hp1c⟩ := hin p1 (List.mem_cons_self _ _)
    rw [List.foldl_cons]
    have hin_rest : ∀ p ∈ rest, p ≠ p1 := fun p hp h => hnd.1 (h ▸ hp)
    rcases connectionRemovedItem_cases m p1 hp1l with ⟨hk, he⟩ | ⟨hk, he⟩
    · rw [hp1c] at hk
      obtain ⟨hl, hh, hrf⟩ := connectionRemoved_convert m p1
      rw [← he] at hl hh hrf
      have hin1 : ∀ p ∈ rest, p ∈ (connectionRemovedItem m p1).list ∧
          ((connectionRemovedItem m p1).heap p).connectionPath = c := by
        intro p hp
        rw [hl, hh p (hin_rest p hp)]
        exact hin p (List.mem_cons_of_mem _ hp)
      obtain ⟨i1, i2, i3, i4⟩ := ih (connectionRemovedItem m p1) hnd.2 hin1
      have hkeq : ∀ q, q ≠ p1 → ((connectionRemovedItem m p1).keptAmong c rest q ↔
          m.keptAmong c (p1 :: rest) q) := fun q hq =>
        keptAmong_of_kept m _ c rest p1 q hl hh hrf hp1c hp1l hk.1 hq hnd.1
      have hself : m.keptAmong c (p1 :: rest) p1 :=
        ⟨hk, Or.inr (firstOnNetwork_self m rest p1 hk.1)⟩
      refine ⟨?_, ?_, ?_, ?_⟩
      · intro q
        rw [i1 q, hl]
        by_cases hq : q = p1
        · subst hq
          simp [hnd.1, hself]
        · rw [hkeq q hq]
          simp [hq]
      · rw [hl] at i2
        exact i2
      · intro q hq
        rw [List.mem_cons, not_or] at hq
        rw [i3 q hq.2, hh q hq.1]
      · intro p hp hkp
        rcases List.mem_cons.1 hp with h | h
        · subst h
          rw [i3 p hnd.1]
          exact hrf
        · rw [i4 p h ((hkeq p (hin_rest p h)).2 hkp), hh p (hin_rest p h)]
    · rw [hp1c] at hk
      have hl : (connectionRemovedItem m p1).list = m.list.filter (fun p => p != p1) := by
        rw [he, removeRow_list]
      have hh : (connectionRemovedItem m p1).heap = m.heap := by
        rw [he, removeRow_heap]
      have hin1 : ∀ p ∈ rest, p ∈ (connectionRemovedItem m p1).list ∧
          ((connectionRemovedItem m p1).heap p).connectionPath = c := by
        intro p hp
        rw [hl, hh, List.mem_filter]
        obtain ⟨a, b⟩ := hin p (List.mem_cons_of_mem _ hp)
        exact ⟨⟨a, by simpa using hin_rest p hp⟩, b⟩
      obtain ⟨i1, i2, i3, i4⟩ := ih (connectionRemovedItem m p1) hnd.2 hin1
      have hkeq : ∀ q, q ≠ p1 → ((connectionRemovedItem m p1).keptAmong c rest q ↔
          m.keptAmong c (p1 :: rest) q) := fun q hq =>
        keptAmong_of_removed m _ c rest p1 q hl hh hp1c hk hq
      have hself : ¬ m.keptAmong c (p1 :: rest) p1 := fun h => hk h.1
      refine ⟨?_, ?_, ?_, ?_⟩
      · intro q
        rw [i1 q, hl, List.mem_filter]
        by_cases hq : q = p1
        · subst hq
          simp [hself]
        · rw [hkeq q hq]
          simp [hq]
      · conv_lhs => rw [i2, hl, List.filter_filter]
        apply List.filter_congr
        intro q _
        by_cases hq : q ∈ (List.foldl connectionRemovedItem (connectionRemovedItem m p1) rest).list
        · have := ((i1 q).1 hq).1
          rw [hl, List.mem_filter] at this
          simp only [hq, decide_True, this.2, Bool.and_self]
        · simp only [hq, decide_False, Bool.false_and]
      · intro q hq
        rw [List.mem_cons, not_or] at hq
        rw [i3 q hq.2, hh]
      · intro p hp hkp
        rcases List.mem_cons.1 hp with h | h
        · subst h
          exact absurd hkp hself
        · rw [i4 p h ((hkeq p (hin_rest p h)).2 hkp), hh]

/-- C24 (amended): connectionRemoved(c), on a list without repeated items, keeps exactly
these rows with connection path c: a Wireless row in Infrastructure mode with a non-empty
device path for which no row with a connection path other than c has the same device
path, mode, security type and SSID, and which, for a non-empty c, is the first Wireless
row with connection path c that has its device path, mode, security type and SSID. A
kept row is turned into an access point row: connection path and uuid empty, the SSID as
name, slave false, timestamp cleared, every other field of the row as before, and its item
type is AvailableAccessPoint. Every other row with connection path c is removed, the rows
with another connection path stay as they are and in their order, and for a non-empty c
no row has connection path c afterwards. -/
theorem connectionRemoved_spec (status : Status) (m : NetworkModel) (connection : String)
    (hwf : m.WellFormed) :
    (connectionRemoved m connection).list
      = m.list.filter (fun p => decide ((m.heap p).connectionPath ≠ connection ∨
          m.keptOnRemoval connection p)) ∧
    (∀ p ∈ m.list, (m.heap p).connectionPath = connection →
      m.keptOnRemoval connection p →
      rowFields ((connectionRemoved m connection).heap p)
        = asAccessPoint (rowFields (m.heap p)) ∧
      ((connectionRemoved m connection).heap p).itemType status
        = ItemType.AvailableAccessPoint) ∧
    (∀ p, (m.heap p).connectionPath ≠ connection →
      (connectionRemoved m connection).heap p = m.heap p) ∧
    (connection ≠ "" → ∀ p ∈ (connectionRemoved m connection).list,
      ((connectionRemoved m connection).heap p).connectionPath ≠ connection) := by
  have hnd : (m.returnItems FilterType.Connection connection).Nodup := hwf.1.filter _
  have hin : ∀ p ∈ m.returnItems FilterType.Connection connection,
      p ∈ m.list ∧ (m.heap p).connectionPath = connection := by
    intro p hp
    exact (mem_returnItems m _ _ p).1 hp
  obtain ⟨h1, h2, h3, h4⟩ := connectionRemoved_fold connection _ m hnd hin
  change (∀ q, q ∈ (connectionRemoved m connection).list ↔ _) at h1
  change (connectionRemoved m connection).list = _ at h2
  change (∀ q, _ → (connectionRemoved m connection).heap q = _) at h3
  change (∀ p ∈ _, _ → rowFields ((connectionRemoved m connection).heap p) = _) at h4
  have hmem : ∀ q, q ∈ m.returnItems FilterType.Connection connection ↔
      q ∈ m.list ∧ (m.heap q).connectionPath = connection := fun q => mem_returnItems m _ _ q
  have hkept : ∀ p ∈ m.list, (m.heap p).connectionPath = connection →
      m.keptOnRemoval connection p →
      rowFields ((connectionRemoved m connection).heap p)
        = asAccessPoint (rowFields (m.heap p)) := fun p hp hc hk =>
    h4 p ((hmem p).2 ⟨hp, hc⟩) hk
  refine ⟨?_, ?_, ?_, ?_⟩
  · rw [h2]
    apply List.filter_congr
    intro q hq
    rw [decide_eq_decide]
    refine (h1 q).trans ?_
    rw [hmem q]
    unfold NetworkModel.keptOnRemoval
    constructor
    · rintro ⟨_, h⟩
      by_cases hc : (m.heap q).connectionPath = connection
      · exact Or.inr (h ⟨hq, hc⟩)
      · exact Or.inl hc
    · rintro (h | h)
      · exact ⟨hq, fun hc => absurd hc.2 h⟩
      · exact ⟨hq, fun _ => h⟩
  · intro p hp hc hk
    have hrf := hkept p hp hc hk
    refine ⟨hrf, ?_⟩
    rw [itemType_accessPoint_iff]
    have e1 := congrArg RowFields.devicePath hrf
    have e2 := congrArg RowFields.connectionPath hrf
    have e3 := congrArg RowFields.type hrf
    simp only [rowFields, asAccessPoint] at e1 e2 e3
    rw [e1, e2, e3]
    exact ⟨hk.1.2.2.1, rfl, hk.1.1⟩
  · intro p hp
    apply h3
    rw [hmem]
    exact fun h => hp h.2
  · intro hne p hp
    obtain ⟨hpl, hpk⟩ := (h1 p).1 hp
    by_cases hc : (m.heap p).connectionPath = connection
    · have hrf := hkept p hpl hc (hpk ((hmem p).2 ⟨hpl, hc⟩))
      have e2 := congrArg RowFields.connectionPath hrf
      simp only [rowFields, asAccessPoint] at e2
      rw [e2]
      exact fun h => hne h.symm
    · rw [h3 p (fun h => hc ((hmem p).1 h).2)]
      exact hc

set_option maxRecDepth 1000000 in
/-- C24, as stated, fails: the list holds the row of the wireless connection at /c/1 on
the device at /d/1 and two duplicate rows of it on the device at /d/2, all in
Infrastructure mode and with the same security type and SSID. No row has another
connection path, so the claim keeps all three rows; connectionRemoved for /c/1 turns the
rows at 0 and 1 into access point rows and removes the row at 2, because by then the row
at 1 has an empty connection path and the same device path, mode, security type and
SSID. -/
theorem connectionRemoved_counterexample :
    ¬ (∀ (m : NetworkModel) (connection : String) (p : Ptr), m.WellFormed → p ∈ m.list →
        (m.heap p).connectionPath = connection → m.keepsAsAccessPoint connection p →
        p ∈ (connectionRemoved m connection).list) := by
  intro h
  have h1 := h sampleTwinModel "/c/1" 2 ⟨by decide, by decide⟩ (by decide) (by decide)
    (by decide)
  revert h1
  decide

set_option maxRecDepth 1000000 in
theorem connectionRemoved_spec_witness :
    sampleOtherDeviceModel.list = [0] ∧
    (sampleOtherDeviceModel.heap 0).connectionPath = "/c/1" ∧
    (connectionRemoved sampleOtherDeviceModel "/c/1").list = [0] ∧
    ((connectionRemoved sampleOtherDeviceModel "/c/1").heap 0).connectionPath = "" ∧
    ((connectionRemoved sampleOtherDeviceModel "/c/1").heap 0).name = "home" ∧
    ((connectionRemoved sampleOtherDeviceModel "/c/1").heap 0).itemType Status.Connected
      = ItemType.AvailableAccessPoint := by
  obtain ⟨hl, hk, -, -⟩ :=
    connectionRemoved_spec Status.Connected sampleOtherDeviceModel "/c/1"
      ⟨by decide, by decide⟩
  obtain ⟨hrf, hit⟩ := hk 0 (by decide) (by decide) (by decide)
  have e1 := congrArg RowFields.connectionPath hrf
  have e2 := congrArg RowFields.name hrf
  simp only [rowFields, asAccessPoint] at e1 e2
  refine ⟨by decide, by decide, ?_, e1, e2.trans (by decide), hit⟩
  rw [hl]
  decide

/-! ### Calls that may end in the null dereference of addWirelessNetwork -/

theorem addWirelessNetworkMerge_outcome (nm : Manager) (network : WirelessNetwork)
    (device : Device) (items : List Ptr) (m : NetworkModel) (merged : Outcome)
    (h : addWirelessNetworkMerge nm network device items m = some merged) :
    (∃ item, item ∈ items ∧
      merged = Outcome.returned (updateFromWirelessNetwork nm m item network)) ∨
    (merged = Outcome.nullDereference m ∧
      ∃ item, item ∈ items ∧ (m.heap item).itemType nm.status = ItemType.AvailableConnection ∧
        nm.findConnection (m.heap item).connectionPath = none) := by
  induction items with
  | nil => simp [NetworkModel.addWirelessNetworkMerge] at h
  | cons q rest ih =>
    unfold NetworkModel.addWirelessNetworkMerge at h
    have hrest : addWirelessNetworkMerge nm network device rest m = some merged →
        (∃ item, item ∈ q :: rest ∧
          merged = Outcome.returned (updateFromWirelessNetwork nm m item network)) ∨
        (merged = Outcome.nullDereference m ∧
          ∃ item, item ∈ q :: rest ∧
            (m.heap item).itemType nm.status = ItemType.AvailableConnection ∧
            nm.findConnection (m.heap item).connectionPath = none) := by
      intro h'
      rcases ih h' with ⟨item, hi, he⟩ | ⟨he, item, hi, h1, h2⟩
      · exact Or.inl ⟨item, List.mem_cons_of_mem _ hi, he⟩
      · exact Or.inr ⟨he, item, List.mem_cons_of_mem _ hi, h1, h2⟩
    split at h
    · exact hrest h
    · rename_i hav
      split at h
      · split at h
        · split at h
          · split at h
            · simp only at h
              split at h
              · exact Or.inl ⟨q, List.mem_cons_self _ _, (Option.some.inj h).symm⟩
              · exact hrest h
            · exact hrest h
          · exact hrest h
        · exact hrest h
      · rename_i hnone
        refine Or.inr ⟨(Option.some.inj h).symm, q, List.mem_cons_self _ _, ?_, hnone⟩
        simpa using hav

theorem bracketed_andThen {m : NetworkModel} (o : Outcome) (f : NetworkModel → Outcome)
    (ho : Bracketed m o.state) (hf : ∀ x, Bracketed x (f x).state) :
    Bracketed m (o.andThen f).state := by
  cases o with
  | returned x => exact bracketed_trans ho (hf x)
  | nullDereference x => exact ho

theorem bracketed_forEach {α : Type} (body : NetworkModel → α → Outcome)
    (hb : ∀ m x, Bracketed m (body m x).state) (l : List α) (m : NetworkModel) :
    Bracketed m (Outcome.forEach body l m).state := by
  induction l generalizing m with
  | nil => exact bracketed_refl m
  | cons x rest ih => exact bracketed_andThen _ _ (hb m x) ih

theorem bracketed_addWirelessNetwork (nm : Manager) (unset : Unset) (m : NetworkModel)
    (network : WirelessNetwork) (device : Device) :
    Bracketed m (addWirelessNetwork nm unset m network device).state := by
  unfold NetworkModel.addWirelessNetwork
  split
  · exact bracketed_refl m
  · split
    · rename_i merged hm
      rcases addWirelessNetworkMerge_outcome nm network device _ m merged hm with
        ⟨item, -, he⟩ | ⟨he, -⟩
      · rw [he]
        exact bracketed_updateFromWirelessNetwork nm m item network
      · rw [he]
        exact bracketed_refl m
    · exact bracketed_insertRow_fresh rfl rfl rfl

theorem bracketed_addDevice (nm : Manager) (unset : Unset) (m : NetworkModel)
    (device : Device) : Bracketed m (addDevice nm unset m device).state := by
  unfold NetworkModel.addDevice
  simp only
  apply bracketed_andThen
  · split
    · exact bracketed_forEach _ (fun m n => bracketed_addWirelessNetwork nm unset m n device) _ _
    · exact bracketed_refl m
  · intro x
    exact bracketed_foldl _
      (fun m c => bracketed_addAvailableConnection nm unset m c (some device)) _ _

theorem bracketed_availableConnectionDisappearedItem (nm : Manager) (unset : Unset)
    (m : NetworkModel) (item : Ptr) :
    Bracketed m (availableConnectionDisappearedItem nm unset m item).state := by
  unfold NetworkModel.availableConnectionDisappearedItem
  simp only
  split
  · have h4 : Bracketed m
        ((((m.modify item (fun i => i.setDeviceName "")).modify item
          (fun i => i.setDevicePath "")).modify item
          (fun i => i.setDeviceState DeviceState.UnknownState)).modify item
          (fun i => i.setSignal 0)) := by
      exact bracketed_refl _
    generalize ((((m.modify item (fun i => i.setDeviceName "")).modify item
          (fun i => i.setDevicePath "")).modify item
          (fun i => i.setDeviceState DeviceState.UnknownState)).modify item
          (fun i => i.setSignal 0)) = m4 at h4 ⊢
    apply bracketed_andThen
    · repeat' (first
        | exact h4
        | exact bracketed_trans h4 (bracketed_addWirelessNetwork nm unset m4 _ _)
        | split)
    · intro x
      split
      · exact bracketed_removeRow_of _ (bracketed_refl x)
      · exact bracketed_updateItem_of _ (bracketed_refl x)
  · exact bracketed_refl m

theorem bracketed_availableConnectionDisappeared (nm : Manager) (unset : Unset)
    (m : NetworkModel) (connection : String) :
    Bracketed m (availableConnectionDisappeared nm unset m connection).state :=
  bracketed_forEach _ (bracketed_availableConnectionDisappearedItem nm unset) _ _

theorem bracketed_deviceRemoved (nm : Manager) (unset : Unset) (m : NetworkModel)
    (device : String) : Bracketed m (deviceRemoved nm unset m device).state :=
  bracketed_forEach _
    (fun m _ => bracketed_availableConnectionDisappeared nm unset m _) _ _

theorem bracketed_deviceAdded (nm : Manager) (unset : Unset) (m : NetworkModel)
    (device : String) : Bracketed m (deviceAdded nm unset m device).state := by
  unfold NetworkModel.deviceAdded
  split
  · exact bracketed_addDevice nm unset m _
  · exact bracketed_refl m

theorem bracketed_wirelessNetworkAppeared (nm : Manager) (unset : Unset) (m : NetworkModel)
    (sender ssid : String) :
    Bracketed m (wirelessNetworkAppeared nm unset m sender ssid).state := by
  unfold NetworkModel.wirelessNetworkAppeared
  repeat' (first
    | exact bracketed_refl _
    | exact bracketed_addWirelessNetwork nm unset m _ _
    | split)

/-! ### Insertion order -/

theorem appendsRow_insertRow {m x : NetworkModel} (hl : x.list = m.list)
    (ht : x.trace = m.trace) : AppendsRow m (x.insertRow m.next) := by
  have hlist : (x.insertRow m.next).list = m.list ++ [m.next] := by
    rw [insertRow_list, hl]
  refine ⟨hlist, ?_, ?_, ?_⟩
  · rw [hlist]
    simp [NetworkModel.count]
  · intro row hrow
    rw [hlist]
    exact List.getElem?_append_left hrow
  · simp [NetworkModel.insertRow, NetworkModel.emit, NetworkModel.insertItem,
      NetworkModel.count, ht, hl]

theorem addWirelessNetworkMerge_eq_none_iff (nm : Manager) (network : WirelessNetwork)
    (device : Device) (items : List Ptr) (m : NetworkModel) :
    addWirelessNetworkMerge nm network device items m = none ↔
      ∀ p ∈ items, (m.heap p).itemType nm.status = ItemType.AvailableConnection →
        ∃ connection, nm.findConnection (m.heap p).connectionPath = some connection ∧
          ¬ fitsNetwork network device connection := by
  induction items with
  | nil => simp [NetworkModel.addWirelessNetworkMerge]
  | cons q rest ih =>
    unfold NetworkModel.addWirelessNetworkMerge
    simp only [List.forall_mem_cons]
    by_cases hav : (m.heap q).itemType nm.status = ItemType.AvailableConnection
    · have hb : ((m.heap q).itemType nm.status != ItemType.AvailableConnection) = false := by
        simp [hav]
      simp only [hb, Bool.false_eq_true, if_false]
      cases hc : nm.findConnection (m.heap q).connectionPath with
      | none => simp [hav]
      | some connection =>
        simp only
        by_cases hfit : fitsNetwork network device connection
        · obtain ⟨h1, ws, h2, h3, h4, h5⟩ := hfit
          have hno : ¬ (∃ c, some connection = some c ∧ ¬ fitsNetwork network device c) := by
            rintro ⟨c, hcc, hn⟩
            cases hcc
            exact hn ⟨h1, ws, h2, h3, h4, h5⟩
          simp only [h1, beq_self_eq_true, if_true, h2, h3, isEmpty, Bool.and_eq_true,
            Bool.or_eq_true, beq_iff_eq, h4, h5, and_self]
          simp only [reduceCtorEq, false_iff, not_and]
          intro h
          exact absurd (h hav) hno
        · have hyes : ∃ c, some connection = some c ∧ ¬ fitsNetwork network device c :=
            ⟨connection, rfl, hfit⟩
          have hq : ((m.heap q).itemType nm.status = ItemType.AvailableConnection →
              ∃ c, some connection = some c ∧ ¬ fitsNetwork network device c) ↔ True :=
            ⟨fun _ => trivial, fun _ _ => hyes⟩
          rw [hq, true_and, ← ih]
          unfold fitsNetwork at hfit
          by_cases h1 : connection.settings.connectionType = ConnectionType.Wireless
          · simp only [h1, beq_self_eq_true, if_true]
            cases hws : connection.settings.wirelessSetting with
            | none => rfl
            | some ws =>
              simp only
              by_cases h3 : ws.ssid = network.ssid
              · simp only [h3, beq_self_eq_true, if_true]
                have : ¬ ((ws.bssid = "" ∨ ws.bssid = network.referenceHardwareAddress) ∧
                    (ws.macAddress = "" ∨ ws.macAddress = device.hardwareAddress)) :=
                  fun h => hfit ⟨h1, ws, hws, h3, h.1, h.2⟩
                have hb2 : ((isEmpty ws.bssid || ws.bssid == network.referenceHardwareAddress) &&
                    (isEmpty ws.macAddress || ws.macAddress == device.hardwareAddress))
                    = false := by
                  rw [Bool.eq_false_iff]
                  intro h
                  apply this
                  simpa [isEmpty] using h
                simp only [hb2, Bool.false_eq_true, if_false]
              · have hb3 : (ws.ssid == network.ssid) = false := by simpa using h3
                simp only [hb3, Bool.false_eq_true, if_false]
          · have hb1 : (connection.settings.connectionType == ConnectionType.Wireless)
                = false := by simpa using h1
            simp only [hb1, Bool.false_eq_true, if_false]
    · have hb : ((m.heap q).itemType nm.status != ItemType.AvailableConnection) = true := by
        simpa using hav
      simp only [hb, if_true, hav, false_implies, true_and]
      exact ih

theorem addWirelessNetwork_of_needsRow (nm : Manager) (unset : Unset) (m : NetworkModel)
    (network : WirelessNetwork) (device : Device) (h : m.needsRowFor nm network device) :
    addWirelessNetwork nm unset m network device =
      Outcome.returned ((m.alloc (newWirelessItem unset network device)).1.insertRow m.next) := by
  obtain ⟨hh, hrows⟩ := h
  have hnone : addWirelessNetworkMerge nm network device
      (m.returnItemsOfType ConnectionType.Wireless) m = none := by
    rw [addWirelessNetworkMerge_eq_none_iff]
    intro p hp hav
    have hp' : p ∈ m.list ∧ (m.heap p).type = ConnectionType.Wireless := by
      simpa [NetworkModel.returnItemsOfType] using hp
    exact hrows p hp'.1 hp'.2 hav
  unfold NetworkModel.addWirelessNetwork
  simp only [hh, Bool.false_eq_true, if_false, hnone]
  rfl

theorem addWirelessNetwork_of_not_needsRow (nm : Manager) (unset : Unset) (m : NetworkModel)
    (network : WirelessNetwork) (device : Device) (h : ¬ m.needsRowFor nm network device) :
    (addWirelessNetwork nm unset m network device).state.list = m.list := by
  unfold NetworkModel.addWirelessNetwork
  split
  · rfl
  · rename_i hh
    split
    · rename_i merged hm
      rcases addWirelessNetworkMerge_outcome nm network device _ m merged hm with
        ⟨item, -, he⟩ | ⟨he, -⟩
      · rw [he]
        exact (onlyTouches_updateFromWirelessNetwork nm m item network).1
      · rw [he]
        rfl
    · rename_i hnone
      exfalso
      apply h
      refine ⟨by simpa using hh, ?_⟩
      rw [addWirelessNetworkMerge_eq_none_iff] at hnone
      intro p hp ht hav
      exact hnone p (by simp [NetworkModel.returnItemsOfType, hp, ht]) hav

theorem addWirelessNetwork_returns (nm : Manager) (unset : Unset) (m : NetworkModel)
    (network : WirelessNetwork) (device : Device) (h : m.Resolves nm) :
    (addWirelessNetwork nm unset m network device).hasReturned = true := by
  unfold NetworkModel.addWirelessNetwork
  split
  · rfl
  · split
    · rename_i merged hm
      rcases addWirelessNetworkMerge_outcome nm network device _ m merged hm with
        ⟨item, -, he⟩ | ⟨-, item, hi, hav, hnone⟩
      · rw [he]
        rfl
      · have hp' : item ∈ m.list ∧ (m.heap item).type = ConnectionType.Wireless := by
          simpa [NetworkModel.returnItemsOfType] using hi
        exact absurd hnone (h item hp'.1 hp'.2 hav)
    · rfl

theorem addConnection_of_known (unset : Unset) (m : NetworkModel) (connection : Connection)
    (h : connection.name = "" ∨ connection.uuid = "" ∨
      ∃ p ∈ m.list, (m.heap p).connectionPath = connection.path) :
    addConnection unset m connection = m := by
  unfold NetworkModel.addConnection
  rcases h with h | h | h
  · simp [isEmpty, h]
  · simp [isEmpty, h]
  · have hc : m.contains FilterType.Connection connection.path = true :=
      (contains_eq_true_iff m _ _).2 h
    simp [hc]

/-- C18: the base model keeps insertion order. Each of the three operations that add a
row adds it in exactly one case and leaves the list as it is in every other case:
addConnection for a connection with a name and a uuid whose path no row has,
checkAndCreateDuplicate when the connection is reachable from another device,
addWirelessNetwork when no row absorbs the network. In the adding case the new row is
announced for index rowCount and is the last row of the list, at index rowCount, and
every row present before keeps its index. -/
theorem insertion_order (nm : Manager) (unset : Unset) (m : NetworkModel) :
    (∀ connection : Connection,
      (¬ (connection.name = "" ∨ connection.uuid = "" ∨
          ∃ p ∈ m.list, (m.heap p).connectionPath = connection.path) →
        AppendsRow m (addConnection unset m connection)) ∧
      ((connection.name = "" ∨ connection.uuid = "" ∨
          ∃ p ∈ m.list, (m.heap p).connectionPath = connection.path) →
        addConnection unset m connection = m)) ∧
    (∀ connection deviceUni : String,
      (m.reachableFromOtherDevice nm.status connection deviceUni →
        AppendsRow m (checkAndCreateDuplicate nm.status unset m connection deviceUni)) ∧
      (¬ m.reachableFromOtherDevice nm.status connection deviceUni →
        checkAndCreateDuplicate nm.status unset m connection deviceUni = m)) ∧
    (∀ (network : WirelessNetwork) (device : Device),
      (m.needsRowFor nm network device →
        addWirelessNetwork nm unset m network device =
          Outcome.returned
            ((m.alloc (newWirelessItem unset network device)).1.insertRow m.next) ∧
        AppendsRow m (addWirelessNetwork nm unset m network device).state) ∧
      (¬ m.needsRowFor nm network device →
        (addWirelessNetwork nm unset m network device).state.list = m.list)) := by
  refine ⟨fun connection => ⟨?_, addConnection_of_known unset m connection⟩,
    fun connection deviceUni => ⟨?_, checkAndCreateDuplicate_of_not _ unset m _ _⟩,
    fun network device => ⟨?_, addWirelessNetwork_of_not_needsRow nm unset m network device⟩⟩
  · intro h
    have h1 : isEmpty connection.name = false := by
      simp only [isEmpty, beq_eq_false_iff_ne, ne_eq]
      exact fun hn => h (Or.inl hn)
    have h2 : isEmpty connection.uuid = false := by
      simp only [isEmpty, beq_eq_false_iff_ne, ne_eq]
      exact fun hn => h (Or.inr (Or.inl hn))
    have h3 : m.contains FilterType.Connection connection.path = false := by
      rw [Bool.eq_false_iff]
      exact fun hc => h (Or.inr (Or.inr ((contains_eq_true_iff m _ _).1 hc)))
    obtain ⟨item, -, -, -, -, -, -, -, -, -, he⟩ := addConnection_of_new unset m connection h1 h2 h3
    rw [he]
    exact appendsRow_insertRow rfl rfl
  · intro h
    obtain ⟨original, -, -, -, -, he⟩ :=
      checkAndCreateDuplicate_of_reachable nm.status unset m connection deviceUni h
    rw [he]
    exact appendsRow_insertRow rfl rfl
  · intro h
    have he := addWirelessNetwork_of_needsRow nm unset m network device h
    refine ⟨he, ?_⟩
    rw [he]
    exact appendsRow_insertRow rfl rfl

set_option maxRecDepth 100000 in
theorem insertion_order_witness :
    (sampleModel NetworkMode.Infrastructure).count = 2 ∧
    (addConnection sampleUnset (sampleModel NetworkMode.Infrastructure) sampleWired).list
      = [0, 1, 2] ∧
    (addConnection sampleUnset (sampleModel NetworkMode.Infrastructure) sampleWired).list[2]?
      = some 2 ∧
    (addConnection sampleUnset (sampleModel NetworkMode.Infrastructure) sampleWired).list[0]?
      = some 0 ∧
    (addConnection sampleUnset (sampleModel NetworkMode.Infrastructure) sampleWired).list[1]?
      = some 1 ∧
    (addConnection sampleUnset (sampleModel NetworkMode.Infrastructure) sampleWired).trace
      = [Event.beginInsertRows 2 2, Event.insertItem 2, Event.endInsertRows] ∧
    sampleOtherDeviceModel.count = 1 ∧
    (sampleOtherDeviceModel.heap 0).itemType sampleHomeManager.status
      = ItemType.AvailableConnection ∧
    (addWirelessNetwork sampleHomeManager sampleUnset sampleOtherDeviceModel sampleCafeNetwork
      sampleWlan1).hasReturned = true ∧
    (addWirelessNetwork sampleHomeManager sampleUnset sampleOtherDeviceModel sampleCafeNetwork
      sampleWlan1).state.list = [0, 1] ∧
    (addWirelessNetwork sampleHomeManager sampleUnset sampleOtherDeviceModel sampleCafeNetwork
      sampleWlan1).state.list[1]? = some 1 ∧
    (addWirelessNetwork sampleHomeManager sampleUnset sampleOtherDeviceModel sampleCafeNetwork
      sampleWlan1).state.list[0]? = some 0 := by
  obtain ⟨hl, hlast, hkeep, ht⟩ :=
    ((insertion_order sampleManager sampleUnset (sampleModel NetworkMode.Infrastructure)).1
      sampleWired).1 (by decide)
  have hneeds : sampleOtherDeviceModel.needsRowFor sampleHomeManager sampleCafeNetwork
      sampleWlan1 := by
    refine ⟨by decide, fun p _ _ _ => ⟨sampleHomeWifi, rfl, ?_⟩⟩
    rintro ⟨-, wirelessSetting, hws, hssid, -⟩
    cases hws
    revert hssid
    decide
  obtain ⟨hret, hwl, hwlast, hwkeep, -⟩ :=
    ((insertion_order sampleHomeManager sampleUnset sampleOtherDeviceModel).2.2
      sampleCafeNetwork sampleWlan1).1 hneeds
  exact ⟨rfl, hl, hlast, hkeep 0 (by decide), hkeep 1 (by decide), ht, rfl, by decide,
    by rw [hret]; rfl, hwl, hwlast, hwkeep 0 (by decide)⟩

/-! ### The bracket protocol at the end of a call -/

set_option maxRecDepth 100000 in
/-- The null dereference of line 558 on a concrete input: the only row is an available
wireless connection whose connection path the manager does not resolve; addWirelessNetwork
ends at the dereference, with the list and the event trace as they were. -/
theorem addWirelessNetwork_nullDereference :
    sampleOtherDeviceModel.list = [0] ∧
    (sampleOtherDeviceModel.heap 0).type = ConnectionType.Wireless ∧
    (sampleOtherDeviceModel.heap 0).itemType sampleManager.status
      = ItemType.AvailableConnection ∧
    sampleManager.findConnection (sampleOtherDeviceModel.heap 0).connectionPath = none ∧
    (addWirelessNetwork sampleManager sampleUnset sampleOtherDeviceModel sampleCafeNetwork
      sampleWlan1).hasReturned = false ∧
    (addWirelessNetwork sampleManager sampleUnset sampleOtherDeviceModel sampleCafeNetwork
      sampleWlan1).state.list = [0] ∧
    (addWirelessNetwork sampleManager sampleUnset sampleOtherDeviceModel sampleCafeNetwork
      sampleWlan1).state.trace = [] := by
  decide

/-- C17: from a list without repeated items, every operation of the list model that
inserts or removes rows (addConnection, addWirelessNetwork, checkAndCreateDuplicate,
addAvailableConnection, availableConnectionDisappeared, connectionRemoved,
wirelessNetworkDisappeared, and the operations that call them) leaves a list without
repeated items and adds to the event trace only events that keep to the bracket protocol:
each insertion is beginInsertRows(n, n) with n the row count before it, one insertItem,
endInsertRows; each removal is beginRemoveRows(r, r) with r the index of the item, the
removal of that item, endRemoveRows; and replaying these brackets on the list before the
operation gives the list after it, so no item enters or leaves the list outside a
bracket. For the operations that run addWirelessNetwork the model at the end of the call
is the model at the return or, when an available wireless row has a connection path that
does not resolve, the model at the null dereference of line 558: there too every bracket
that was opened has been closed. -/
theorem insert_remove_bracketed (nm : Manager) (unset : Unset) (m : NetworkModel)
    (hwf : m.WellFormed) :
    (∀ connection, KeepsProtocol m (addConnection unset m connection)) ∧
    (∀ network device,
      KeepsProtocol m (addWirelessNetwork nm unset m network device).state) ∧
    (∀ connection deviceUni,
      KeepsProtocol m (checkAndCreateDuplicate nm.status unset m connection deviceUni)) ∧
    (∀ connection device,
      KeepsProtocol m (addAvailableConnection nm unset m connection device)) ∧
    (∀ connection,
      KeepsProtocol m (availableConnectionDisappeared nm unset m connection).state) ∧
    (∀ connection, KeepsProtocol m (connectionRemoved m connection)) ∧
    (∀ sender ssid, KeepsProtocol m (wirelessNetworkDisappeared nm m sender ssid)) ∧
    (∀ activeConnection, KeepsProtocol m (addActiveConnection nm unset m activeConnection)) ∧
    (∀ sender state, KeepsProtocol m (activeVpnConnectionStateChanged m sender state)) ∧
    (∀ device, KeepsProtocol m (addDevice nm unset m device).state) ∧
    (∀ device, KeepsProtocol m (deviceAdded nm unset m device).state) ∧
    (∀ device, KeepsProtocol m (deviceRemoved nm unset m device).state) ∧
    (∀ connection, KeepsProtocol m (connectionAdded nm unset m connection)) ∧
    (∀ sender connection,
      KeepsProtocol m (availableConnectionAppeared nm unset m sender connection)) ∧
    (∀ sender ssid, KeepsProtocol m (wirelessNetworkAppeared nm unset m sender ssid).state) ∧
    (∀ item, KeepsProtocol m (m.updateItem item)) ∧
    (∀ item, KeepsProtocol m (m.removeRow item)) :=
  ⟨fun _ => keepsProtocol_of_bracketed (bracketed_addConnection _ _ _) hwf,
   fun _ _ => keepsProtocol_of_bracketed (bracketed_addWirelessNetwork _ _ _ _ _) hwf,
   fun _ _ => keepsProtocol_of_bracketed (bracketed_checkAndCreateDuplicate _ _ _ _ _) hwf,
   fun _ _ => keepsProtocol_of_bracketed (bracketed_addAvailableConnection _ _ _ _ _) hwf,
   fun _ => keepsProtocol_of_bracketed (bracketed_availableConnectionDisappeared _ _ _ _) hwf,
   fun _ => keepsProtocol_of_bracketed (bracketed_connectionRemoved _ _) hwf,
   fun _ _ => keepsProtocol_of_bracketed (bracketed_wirelessNetworkDisappeared _ _ _ _) hwf,
   fun _ => keepsProtocol_of_bracketed (bracketed_addActiveConnection _ _ _ _) hwf,
   fun _ _ => keepsProtocol_of_bracketed (bracketed_activeVpnConnectionStateChanged _ _ _) hwf,
   fun _ => keepsProtocol_of_bracketed (bracketed_addDevice _ _ _ _) hwf,
   fun _ => keepsProtocol_of_bracketed (bracketed_deviceAdded _ _ _ _) hwf,
   fun _ => keepsProtocol_of_bracketed (bracketed_deviceRemoved _ _ _ _) hwf,
   fun _ => keepsProtocol_of_bracketed (bracketed_connectionAdded _ _ _ _) hwf,
   fun _ _ => keepsProtocol_of_bracketed (bracketed_availableConnectionAppeared _ _ _ _ _) hwf,
   fun _ _ => keepsProtocol_of_bracketed (bracketed_wirelessNetworkAppeared _ _ _ _ _) hwf,
   fun _ => keepsProtocol_of_bracketed (bracketed_updateItem_of _ (bracketed_refl m)) hwf,
   fun _ => keepsProtocol_of_bracketed (bracketed_removeRow_of _ (bracketed_refl m)) hwf⟩

set_option maxRecDepth 100000 in
theorem insert_remove_bracketed_witness :
    (sampleModel NetworkMode.Infrastructure).WellFormed ∧
    KeepsProtocol (sampleModel NetworkMode.Infrastructure)
      (addAvailableConnection sampleManager sampleUnset
        (sampleModel NetworkMode.Infrastructure) "/c/1" (some sampleDevice)) ∧
    (addAvailableConnection sampleManager sampleUnset
        (sampleModel NetworkMode.Infrastructure) "/c/1" (some sampleDevice)).trace =
      [Event.beginRemoveRows 1 1, Event.removeItem 1, Event.deleteLater 1,
        Event.endRemoveRows,
        Event.dataChanged 0 [ItemRole.DeviceName, ItemRole.DevicePathRole,
          ItemRole.ItemTypeRole, ItemRole.UniRole, ItemRole.DeviceStateRole,
          ItemRole.ConnectionDetailsRole]] ∧
    KeepsProtocol sampleTwoWifiModel
      (addWirelessNetwork sampleWlan1Manager sampleUnset sampleTwoWifiModel sampleCafeNetwork
        sampleWlan1).state ∧
    (addWirelessNetwork sampleWlan1Manager sampleUnset sampleTwoWifiModel sampleCafeNetwork
        sampleWlan1).hasReturned = true ∧
    (addWirelessNetwork sampleWlan1Manager sampleUnset sampleTwoWifiModel sampleCafeNetwork
        sampleWlan1).state.trace =
      [Event.beginInsertRows 2 2, Event.insertItem 2, Event.endInsertRows] :=
  ⟨⟨by decide, by decide⟩,
   (insert_remove_bracketed sampleManager sampleUnset (sampleModel NetworkMode.Infrastructure)
      ⟨by decide, by decide⟩).2.2.2.1 "/c/1" (some sampleDevice),
   by decide,
   (insert_remove_bracketed sampleWlan1Manager sampleUnset sampleTwoWifiModel
      ⟨by decide, by decide⟩).2.1 sampleCafeNetwork sampleWlan1,
   by decide,
   by decide⟩

set_option maxRecDepth 1000000 in
/-- C26 fails on the code: the list holds an access point row on the device at /d/0 and an
access point row on the device at /d/5; deviceRemoved for /d/0 returns, and it has cleared
the device name, the device path and the signal of the row on /d/5 and added a new row for
its network. -/
theorem deviceRemoved_touches_other_device :
    sampleTwoWifiModel.list = [0, 1] ∧
    (sampleTwoWifiModel.heap 0).devicePath = "/d/0" ∧
    (sampleTwoWifiModel.heap 1).devicePath = "/d/5" ∧
    (sampleTwoWifiModel.heap 1).deviceName = "wlan1" ∧
    (sampleTwoWifiModel.heap 1).signal = 40 ∧
    (deviceRemoved sampleWlan1Manager sampleUnset sampleTwoWifiModel "/d/0").hasReturned
      = true ∧
    (deviceRemoved sampleWlan1Manager sampleUnset sampleTwoWifiModel "/d/0").state.list
      = [0, 1, 2] ∧
    ((deviceRemoved sampleWlan1Manager sampleUnset sampleTwoWifiModel "/d/0").state.heap
      1).devicePath = "" ∧
    ((deviceRemoved sampleWlan1Manager sampleUnset sampleTwoWifiModel "/d/0").state.heap
      1).deviceName = "" ∧
    ((deviceRemoved sampleWlan1Manager sampleUnset sampleTwoWifiModel "/d/0").state.heap
      1).signal = 0 ∧
    ((deviceRemoved sampleWlan1Manager sampleUnset sampleTwoWifiModel "/d/0").state.heap
      2).devicePath = "/d/5" := by
  decide

/-! ### wirelessNetworkDisappeared on wireless rows -/

/-- C13: for a sender that resolves to the device d, wirelessNetworkDisappeared removes
exactly the rows with that SSID and device path d that are access points or duplicates;
every other wireless row with that SSID and device path, a stored connection that is not
a duplicate, stays in the list with signal 0 and, when its mode is Infrastructure, with
device name, device path and specific path cleared and with the item type
UnavailableConnection; the items of the rows that do not match are unchanged. The rows
that carry an SSID are the wireless rows: setSsid is called for items of type Wireless
only (lines 506, 600 and 890), and the slot is connected for wireless devices only (lines
323 to 326). -/
theorem wirelessNetworkDisappeared_spec (nm : Manager) (m : NetworkModel)
    (sender ssid : String) (device : Device) (hwf : m.WellFormed)
    (hdev : nm.findNetworkInterface sender = some device) :
    (wirelessNetworkDisappeared nm m sender ssid).list =
      m.list.filter (fun p =>
        !((m.heap p).ssid == ssid && (m.heap p).devicePath == device.uni &&
          ((m.heap p).itemType nm.status == ItemType.AvailableAccessPoint ||
            (m.heap p).duplicate))) ∧
    (∀ p ∈ m.list, (m.heap p).ssid = ssid → (m.heap p).devicePath = device.uni →
      ((m.heap p).itemType nm.status = ItemType.AvailableAccessPoint ∨
        (m.heap p).duplicate = true) →
      p ∉ (wirelessNetworkDisappeared nm m sender ssid).list) ∧
    (∀ p ∈ m.list, (m.heap p).ssid = ssid → (m.heap p).devicePath = device.uni →
      (m.heap p).type = ConnectionType.Wireless →
      (m.heap p).itemType nm.status ≠ ItemType.AvailableAccessPoint →
      (m.heap p).duplicate = false →
      p ∈ (wirelessNetworkDisappeared nm m sender ssid).list ∧
      ((wirelessNetworkDisappeared nm m sender ssid).heap p).signal = 0 ∧
      ((m.heap p).mode = NetworkMode.Infrastructure →
        ((wirelessNetworkDisappeared nm m sender ssid).heap p).deviceName = "" ∧
        ((wirelessNetworkDisappeared nm m sender ssid).heap p).devicePath = "" ∧
        ((wirelessNetworkDisappeared nm m sender ssid).heap p).specificPath = "" ∧
        ((wirelessNetworkDisappeared nm m sender ssid).heap p).itemType nm.status
          = ItemType.UnavailableConnection)) ∧
    (∀ p ∈ m.list, ¬ ((m.heap p).ssid = ssid ∧ (m.heap p).devicePath = device.uni) →
      p ∈ (wirelessNetworkDisappeared nm m sender ssid).list) ∧
    (∀ p, ¬ (p ∈ m.list ∧ (m.heap p).ssid = ssid ∧ (m.heap p).devicePath = device.uni) →
      (wirelessNetworkDisappeared nm m sender ssid).heap p = m.heap p) := by
  obtain ⟨hl, hrows, hother⟩ := wirelessNetworkDisappeared_rows nm m sender ssid device hwf hdev
  refine ⟨hl, ?_, ?_, ?_, hother⟩
  · intro p _ hs hd hrm
    rw [hl, List.mem_filter]
    rintro ⟨-, hk⟩
    rcases hrm with hap | hdup
    · simp [hs, hd, hap] at hk
    · simp [hs, hd, hdup] at hk
  · intro p hp hs hd ht hap hdup
    obtain ⟨hmem, hsig, hinfra, -⟩ := hrows p hp hs hd hap hdup
    refine ⟨hmem, hsig, fun hmode => ?_⟩
    obtain ⟨h1, h2, h3, -, h5⟩ := hinfra hmode
    exact ⟨h1, h2, h3, h5 ht⟩
  · intro p hp hno
    rw [hl, List.mem_filter]
    refine ⟨hp, ?_⟩
    by_cases hs : (m.heap p).ssid = ssid
    · by_cases hd : (m.heap p).devicePath = device.uni
      · exact absurd ⟨hs, hd⟩ hno
      · simp [hd]
    · simp [hs]

set_option maxRecDepth 100000 in
theorem wirelessNetworkDisappeared_spec_witness :
    sampleAttachedModel.list = [0] ∧
    (sampleAttachedModel.heap 0).devicePath = "/d/0" ∧
    (sampleAttachedModel.heap 0).type = ConnectionType.Wireless ∧
    (sampleAttachedModel.heap 0).itemType Status.Connected = ItemType.AvailableConnection ∧
    (wirelessNetworkDisappeared sampleWifiManager sampleAttachedModel "/d/0" "home").list
      = [0] ∧
    ((wirelessNetworkDisappeared sampleWifiManager sampleAttachedModel "/d/0" "home").heap
      0).signal = 0 ∧
    ((wirelessNetworkDisappeared sampleWifiManager sampleAttachedModel "/d/0" "home").heap
      0).devicePath = "" ∧
    ((wirelessNetworkDisappeared sampleWifiManager sampleAttachedModel "/d/0" "home").heap
      0).itemType Status.Connected = ItemType.UnavailableConnection ∧
    (sampleModel NetworkMode.Infrastructure).list = [0, 1] ∧
    ((sampleModel NetworkMode.Infrastructure).heap 1).itemType Status.Connected
      = ItemType.AvailableAccessPoint ∧
    1 ∉ (wirelessNetworkDisappeared sampleWifiManager (sampleModel NetworkMode.Infrastructure)
      "/d/0" "home").list ∧
    0 ∈ (wirelessNetworkDisappeared sampleWifiManager (sampleModel NetworkMode.Infrastructure)
      "/d/0" "home").list := by
  obtain ⟨hl, -, h, -, -⟩ :=
    wirelessNetworkDisappeared_spec sampleWifiManager sampleAttachedModel
      "/d/0" "home" sampleDevice ⟨by decide, by decide⟩ (by decide)
  obtain ⟨-, hs, hi⟩ := h 0 (by decide) (by decide) (by decide) (by decide) (by decide)
    (by decide)
  obtain ⟨-, hd, -, hw⟩ := hi (by decide)
  obtain ⟨-, hgone, -, hstay, -⟩ :=
    wirelessNetworkDisappeared_spec sampleWifiManager (sampleModel NetworkMode.Infrastructure)
      "/d/0" "home" sampleDevice ⟨by decide, by decide⟩ (by decide)
  exact ⟨by decide, by decide, by decide, by decide, by rw [hl]; decide, hs, hd, hw,
    by decide, by decide,
    hgone 1 (by decide) (by decide) (by decide) (Or.inl (by decide)),
    hstay 0 (by decide) (by decide)⟩

/-! ### The operations return when the stored connections resolve -/

theorem resolves_of_storedResolve {nm : Manager} {m : NetworkModel}
    (h : m.StoredResolve nm) : m.Resolves nm := by
  intro p hp ht hav
  refine h p hp ?_
  intro hc
  unfold NetworkModelItem.itemType at hav
  simp only [hc, ht, isEmpty] at hav
  split_ifs at hav
  simp_all

theorem rowFields_connectionPath (i : NetworkModelItem) :
    (rowFields i).connectionPath = i.connectionPath := rfl

theorem newWirelessItem_connectionPath (unset : Unset) (network : WirelessNetwork)
    (device : Device) : (newWirelessItem unset network device).connectionPath = "" := by
  rw [← rowFields_connectionPath]
  unfold NetworkModel.newWirelessItem
  simp only [rowFields_invalidateDetails, rowFields_setSecurityType, rowFields_setType,
    rowFields_setSsid, rowFields_setSpecificPath, rowFields_setSignal, rowFields_setName,
    rowFields_setMode, rowFields_setDevicePath]
  split_ifs <;> simp only [rowFields_setDeviceName] <;> rfl

theorem storedResolve_modify {nm : Manager} {m : NetworkModel} (item : Ptr)
    (f : NetworkModelItem → NetworkModelItem)
    (hf : ∀ i, (f i).connectionPath = i.connectionPath) (h : m.StoredResolve nm) :
    (m.modify item f).StoredResolve nm := by
  intro p hp
  by_cases hpi : p = item
  · subst hpi
    rw [modify_heap_self, hf]
    exact h p hp
  · rw [modify_heap_ne m item p f hpi]
    exact h p hp

theorem storedResolve_of_onlyTouches {nm : Manager} {m r : NetworkModel} {item : Ptr}
    (ho : OnlyTouches item m r) (h : m.StoredResolve nm) : r.StoredResolve nm := by
  intro p hp
  rw [ho.1] at hp
  by_cases hpi : p = item
  · subst hpi
    have hc : (r.heap p).connectionPath = (m.heap p).connectionPath :=
      congrArg Prod.fst ho.2.2
    rw [hc]
    exact h p hp
  · rw [ho.2.1 p hpi]
    exact h p hp

theorem storedResolve_removeRow {nm : Manager} {m : NetworkModel} (item : Ptr)
    (h : m.StoredResolve nm) : (m.removeRow item).StoredResolve nm := by
  unfold NetworkModel.removeRow
  split
  · intro p hp
    have hp' : p ∈ m.list := (List.mem_filter.1 hp).1
    exact h p hp'
  · exact h

theorem storedResolve_addWirelessNetwork {nm : Manager} (unset : Unset) {m : NetworkModel}
    (network : WirelessNetwork) (device : Device) (h : m.StoredResolve nm) :
    (addWirelessNetwork nm unset m network device).state.StoredResolve nm := by
  unfold NetworkModel.addWirelessNetwork
  split
  · exact h
  · split
    · rename_i merged hm
      rcases addWirelessNetworkMerge_outcome nm network device _ m merged hm with
        ⟨item, -, he⟩ | ⟨he, -⟩
      · rw [he]
        exact storedResolve_of_onlyTouches
          (onlyTouches_updateFromWirelessNetwork nm m item network) h
      · rw [he]
        exact h
    · intro p hp
      have hp' : p ∈ m.list ∨ p = m.next := by
        have : p ∈ m.list ++ [m.next] := hp
        simpa using this
      by_cases hpn : p = m.next
      · subst hpn
        intro hne
        exfalso
        apply hne
        show ((Function.update m.heap m.next (newWirelessItem unset network device))
          m.next).connectionPath = ""
        rw [Function.update_same]
        exact newWirelessItem_connectionPath unset network device
      · have hpl : p ∈ m.list := hp'.resolve_right hpn
        show ((Function.update m.heap m.next (newWirelessItem unset network device))
          p).connectionPath ≠ "" → nm.findConnection ((Function.update m.heap m.next
            (newWirelessItem unset network device)) p).connectionPath ≠ none
        rw [Function.update_noteq hpn]
        exact h p hpl

theorem returns_andThen (inv : NetworkModel → Prop) (o : Outcome)
    (f : NetworkModel → Outcome) (ho : o.hasReturned = true ∧ inv o.state)
    (hf : ∀ x, inv x → (f x).hasReturned = true ∧ inv (f x).state) :
    (o.andThen f).hasReturned = true ∧ inv (o.andThen f).state := by
  cases o with
  | returned x => exact hf x ho.2
  | nullDereference x => exact absurd ho.1 (by simp [Outcome.hasReturned])

theorem returns_forEach {α : Type} (inv : NetworkModel → Prop)
    (body : NetworkModel → α → Outcome)
    (hb : ∀ m x, inv m → (body m x).hasReturned = true ∧ inv (body m x).state)
    (l : List α) (m : NetworkModel) (h : inv m) :
    (Outcome.forEach body l m).hasReturned = true ∧ inv (Outcome.forEach body l m).state := by
  induction l generalizing m with
  | nil => exact ⟨rfl, h⟩
  | cons x rest ih => exact returns_andThen inv _ _ (hb m x h) (fun y hy => ih y hy)

theorem returns_addWirelessNetwork (nm : Manager) (unset : Unset) (m : NetworkModel)
    (network : WirelessNetwork) (device : Device) (h : m.StoredResolve nm) :
    (addWirelessNetwork nm unset m network device).hasReturned = true ∧
    (addWirelessNetwork nm unset m network device).state.StoredResolve nm :=
  ⟨addWirelessNetwork_returns nm unset m network device (resolves_of_storedResolve h),
    storedResolve_addWirelessNetwork unset network device h⟩

theorem returns_availableConnectionDisappearedItem (nm : Manager) (unset : Unset)
    (m : NetworkModel) (item : Ptr) (h : m.StoredResolve nm) :
    (availableConnectionDisappearedItem nm unset m item).hasReturned = true ∧
    (availableConnectionDisappearedItem nm unset m item).state.StoredResolve nm := by
  have hret : ∀ x : NetworkModel, x.StoredResolve nm →
      (Outcome.returned x).hasReturned = true ∧ (Outcome.returned x).state.StoredResolve nm :=
    fun x hx => ⟨rfl, hx⟩
  unfold NetworkModel.availableConnectionDisappearedItem
  simp only
  split
  · have h4 : ((((m.modify item (fun i => i.setDeviceName "")).modify item
        (fun i => i.setDevicePath "")).modify item
        (fun i => i.setDeviceState DeviceState.UnknownState)).modify item
        (fun i => i.setSignal 0)).StoredResolve nm := by
      refine storedResolve_modify item _ (fun i => ?_)
        (storedResolve_modify item _ (fun i => ?_)
          (storedResolve_modify item _ (fun i => ?_)
            (storedResolve_modify item _ (fun i => ?_) h)))
      · rw [← rowFields_connectionPath, rowFields_setSignal]
        rfl
      · rw [← rowFields_connectionPath, rowFields_setDeviceState]
        rfl
      · rw [← rowFields_connectionPath, rowFields_setDevicePath]
        rfl
      · rw [← rowFields_connectionPath, rowFields_setDeviceName]
        rfl
    refine returns_andThen (fun x => x.StoredResolve nm) _ _ ?_ ?_
    · split
      · split
        · split
          · split
            · split
              · exact returns_addWirelessNetwork nm unset _ _ _ h4
              · exact hret _ h4
            · exact hret _ h4
          · exact hret _ h4
        · exact hret _ h4
      · exact hret _ h4
    · intro x hx
      split
      · exact hret _ (storedResolve_removeRow item hx)
      · exact hret _ (storedResolve_of_onlyTouches (onlyTouches_updateItem item x) hx)
  · exact hret _ h

theorem returns_availableConnectionDisappeared (nm : Manager) (unset : Unset)
    (m : NetworkModel) (connection : String) (h : m.StoredResolve nm) :
    (availableConnectionDisappeared nm unset m connection).hasReturned = true ∧
    (availableConnectionDisappeared nm unset m connection).state.StoredResolve nm :=
  returns_forEach (fun x => x.StoredResolve nm) _
    (fun x item hx => returns_availableConnectionDisappearedItem nm unset x item hx) _ m h

theorem returns_deviceRemoved (nm : Manager) (unset : Unset) (m : NetworkModel)
    (device : String) (h : m.StoredResolve nm) :
    (deviceRemoved nm unset m device).hasReturned = true ∧
    (deviceRemoved nm unset m device).state.StoredResolve nm :=
  returns_forEach (fun x => x.StoredResolve nm) _
    (fun x _ hx => returns_availableConnectionDisappeared nm unset x _ hx) _ m h

theorem returns_addDevice (nm : Manager) (unset : Unset) (m : NetworkModel)
    (device : Device) (h : m.StoredResolve nm) :
    (addDevice nm unset m device).hasReturned = true := by
  unfold NetworkModel.addDevice
  simp only
  have hn : ∀ o : Outcome, o.hasReturned = true →
      (o.andThen (fun m => Outcome.returned
        (device.availableConnections.foldl
          (fun (m : NetworkModel) (connection : String) =>
            addAvailableConnection nm unset m connection (some device))
          m))).hasReturned = true := by
    intro o ho
    cases o with
    | returned x => rfl
    | nullDereference x => exact absurd ho (by simp [Outcome.hasReturned])
  apply hn
  split
  · exact (returns_forEach (fun x => x.StoredResolve nm) _
      (fun x network hx => returns_addWirelessNetwork nm unset x network device hx) _ m h).1
  · rfl

/-- When every row that has a connection path stands for a connection that the manager
knows, the operations that run addWirelessNetwork return: the null dereference of line 558
is not reached. -/
theorem operations_return (nm : Manager) (unset : Unset) (m : NetworkModel)
    (h : m.StoredResolve nm) :
    (∀ network device, (addWirelessNetwork nm unset m network device).hasReturned = true) ∧
    (∀ connection,
      (availableConnectionDisappeared nm unset m connection).hasReturned = true) ∧
    (∀ device, (addDevice nm unset m device).hasReturned = true) ∧
    (∀ device, (deviceAdded nm unset m device).hasReturned = true) ∧
    (∀ device, (deviceRemoved nm unset m device).hasReturned = true) ∧
    (∀ sender ssid, (wirelessNetworkAppeared nm unset m sender ssid).hasReturned = true) := by
  refine ⟨fun network device => (returns_addWirelessNetwork nm unset m network device h).1,
    fun connection => (returns_availableConnectionDisappeared nm unset m connection h).1,
    fun device => returns_addDevice nm unset m device h,
    fun device => ?_,
    fun device => (returns_deviceRemoved nm unset m device h).1,
    fun sender ssid => ?_⟩
  · unfold NetworkModel.deviceAdded
    split
    · exact returns_addDevice nm unset m _ h
    · rfl
  · unfold NetworkModel.wirelessNetworkAppeared
    split
    · split
      · split
        · exact (returns_addWirelessNetwork nm unset m _ _ h).1
        · rfl
      · rfl
    · rfl

theorem operations_return_witness :
    sampleOtherDeviceModel.StoredResolve sampleHomeManager ∧
    (deviceRemoved sampleHomeManager sampleUnset sampleOtherDeviceModel "/d/1").hasReturned
      = true ∧
    (addWirelessNetwork sampleHomeManager sampleUnset sampleOtherDeviceModel sampleCafeNetwork
      sampleWlan1).hasReturned = true :=
  have h : sampleOtherDeviceModel.StoredResolve sampleHomeManager :=
    fun _ _ _ => (by decide : sampleHomeManager.findConnection "/c/1" ≠ none)
  ⟨h, (operations_return sampleHomeManager sampleUnset sampleOtherDeviceModel h).2.2.2.2.1
      "/d/1",
    (operations_return sampleHomeManager sampleUnset sampleOtherDeviceModel h).1
      sampleCafeNetwork sampleWlan1⟩

end PlasmaNM
